import Mathlib

/-!
# render_lib: backend lifecycle and render context

A shallow embedding of `render/backend.c` and `render/context.c`.

* Pointers are handles (`Nat`); a nullable pointer is an `Option Nat`.
* The operation table of a backend (`backend->vtable`) is external code: every
  hook call is recorded in the trace of the state, and the value a hook
  returns is read from the `vtable` record of the backend instance.  Hooks do
  not touch the fields modelled here.
* Logging and `memory_context_push` / `memory_context_pop` have no effect on
  the state modelled here and are left out.
* Loops that the source does not bound (`while (!backend)`,
  `while (_render_api_disabled[api])`) take a fuel argument; `none` means the
  fuel ran out.
-/

namespace Render

/-! ## Render API identifiers and the fallback chain -/

/-- The values of `render_api_t`: the enumerators that `backend.c` names in its
`switch` statements, and `RENDERAPI_OTHER`, which stands for every value that
none of the `case` labels names and that therefore takes the `default:` label
of both `switch` statements.  The declaration itself lives in `render/types.h`. -/
inductive render_api_t where
  | RENDERAPI_UNKNOWN
  | RENDERAPI_DEFAULT
  | RENDERAPI_NULL
  | RENDERAPI_OPENGL
  | RENDERAPI_OPENGL2
  | RENDERAPI_OPENGL4
  | RENDERAPI_DIRECTX
  | RENDERAPI_DIRECTX10
  | RENDERAPI_DIRECTX11
  | RENDERAPI_PS3
  | RENDERAPI_PS4
  | RENDERAPI_XBOX360
  | RENDERAPI_XBOXONE
  | RENDERAPI_GLES
  | RENDERAPI_GLES2
  | RENDERAPI_GLES3
  | RENDERAPI_NUM
  | RENDERAPI_OTHER
  deriving DecidableEq, Repr, Fintype

open render_api_t

/-- The preprocessor configuration that `render_api_fallback` branches on:
`FOUNDATION_PLATFORM_WINDOWS`, the group
`FOUNDATION_PLATFORM_IOS || FOUNDATION_PLATFORM_ANDROID || FOUNDATION_PLATFORM_LINUX_RASPBERRYPI`,
or neither. -/
inductive foundation_platform_t where
  | windows
  | mobile
  | desktop
  deriving DecidableEq, Repr, Fintype

/-- The function `render_api_fallback` of `backend.c`. -/
def render_api_fallback (platform : foundation_platform_t) (api : render_api_t) : render_api_t :=
  match api with
  | RENDERAPI_UNKNOWN => RENDERAPI_UNKNOWN
  | RENDERAPI_DEFAULT =>
    match platform with
    | .windows => RENDERAPI_DIRECTX
    | .mobile => RENDERAPI_GLES
    | .desktop => RENDERAPI_OPENGL
  | RENDERAPI_NULL => RENDERAPI_UNKNOWN
  | RENDERAPI_OPENGL => RENDERAPI_OPENGL4
  | RENDERAPI_DIRECTX => RENDERAPI_DIRECTX11
  | RENDERAPI_GLES => RENDERAPI_GLES3
  | RENDERAPI_OPENGL4 =>
    match platform with
    | .windows => RENDERAPI_DIRECTX10
    | _ => RENDERAPI_OPENGL2
  | RENDERAPI_DIRECTX10 => RENDERAPI_OPENGL2
  | RENDERAPI_DIRECTX11 => RENDERAPI_OPENGL4
  | RENDERAPI_GLES3 => RENDERAPI_GLES2
  | RENDERAPI_GLES2 => RENDERAPI_NULL
  | RENDERAPI_OPENGL2 => RENDERAPI_NULL
  | RENDERAPI_PS3 => RENDERAPI_NULL
  | RENDERAPI_PS4 => RENDERAPI_NULL
  | RENDERAPI_XBOX360 => RENDERAPI_NULL
  | RENDERAPI_XBOXONE => RENDERAPI_NULL
  | RENDERAPI_NUM => RENDERAPI_NULL
  | RENDERAPI_OTHER => RENDERAPI_UNKNOWN

/-- The values `api, fallback api, ...` up to and excluding the first
`RENDERAPI_UNKNOWN`, cut after `n` values. -/
def fallback_path (platform : foundation_platform_t) : Nat → render_api_t → List render_api_t
  | 0, _ => []
  | n + 1, api =>
    if api = RENDERAPI_UNKNOWN then []
    else api :: fallback_path platform n (render_api_fallback platform api)

/-- The number of applications of `render_api_fallback` that lead from `api`
to `RENDERAPI_UNKNOWN`. -/
def render_api_rank (platform : foundation_platform_t) (api : render_api_t) : Nat :=
  (fallback_path platform 8 api).length

/-! ## Backends, the registry and the calling thread -/

/-- The decomposed resource platform (`resource_platform_t` of the resource
library): the two fields `backend.c` writes, and the remaining fields. -/
structure resource_platform_t where
  render_api_group : Int
  render_api : Int
  other : List Int
  deriving DecidableEq, Repr

/-- A drawable (`render_drawable_t`); `type = 0` means that no drawable is set. -/
structure render_drawable_t where
  type : Nat
  adapter : Nat
  window : Nat
  tag : Nat
  width : Nat
  height : Nat
  refresh : Nat
  deriving DecidableEq, Repr

/-- A render target (`render_target_t`), here the framebuffer of a backend. -/
structure render_target_t where
  backend : Option Nat
  width : Nat
  height : Nat
  pixelformat : Nat
  colorspace : Nat
  deriving DecidableEq, Repr

/-- The values returned by the hooks of a backend's operation table
(`backend->vtable`). -/
structure render_backend_vtable_t where
  construct : Bool
  set_drawable : Bool := true
  upload_shader : Bool := true
  upload_program : Bool := true
  upload_texture : Bool := true
  deriving DecidableEq, Repr

/-- A backend instance (`render_backend_t`).  `exclusive` tells whether the
mutex has been allocated; a resource table is `none` until `uuidmap_initialize`
has run on it. -/
structure render_backend_t where
  api : render_api_t
  api_group : Int
  vtable : render_backend_vtable_t
  drawable : render_drawable_t
  pixelformat : Nat
  colorspace : Nat
  framebuffer : render_target_t
  framecount : Nat
  platform : Nat
  concurrency : Nat
  exclusive : Bool
  shadertable : Option (List Nat)
  programtable : Option (List Nat)
  texturetable : Option (List Nat)
  deriving DecidableEq, Repr

/-- Calls into code outside `backend.c` that the trace records. -/
inductive render_event where
  | backend_allocate (api : render_api_t) (result : Option Nat)
  | construct (backend : Nat) (result : Bool)
  | destruct (backend : Nat)
  | enable_thread (backend : Nat)
  | disable_thread (backend : Nat)
  | dispatch (backend : Nat) (target : Option Nat) (contexts : List Nat)
  | set_drawable (backend : Nat) (result : Bool)
  | deallocate_shader (backend : Nat) (shader : Nat)
  | upload_shader (backend : Nat) (shader : Nat) (result : Bool)
  | deallocate_program (backend : Nat) (program : Nat)
  | upload_program (backend : Nat) (program : Nat) (result : Bool)
  | deallocate_texture (backend : Nat) (texture : Nat)
  | upload_texture (backend : Nat) (texture : Nat) (result : Bool)
  deriving DecidableEq, Repr

/-- A render command (`render_command_t`), an opaque payload. -/
structure render_command_t where
  data : Nat
  deriving DecidableEq, Repr

/-- A render context (`render_context_t`).  `reserved` is the `atomic32_t`
counter and `allocated` the capacity, both in the `int32_t` range of the index
they are compared with; `keys` and `commands` give the content of the two
blocks, which are `allocated` elements long. -/
structure render_context_t where
  allocated : Int
  reserved : Int
  keys : Nat → Nat
  commands : Nat → render_command_t

/-- What surrounds a call of `render_backend_allocate`: the build platform,
the table `_render_api_disabled`, what the four per-API allocators return
(`none` is a null pointer; the source uses the result of
`render_backend_null_allocate` without a null test, so that one is an
instance), the `(int)` value of each `render_api_t` enumerator, and the two
platform functions of the resource library. -/
structure render_env where
  platform : foundation_platform_t
  render_api_disabled : render_api_t → Bool
  render_backend_gles2_allocate : Option render_backend_t
  render_backend_gl2_allocate : Option render_backend_t
  render_backend_gl4_allocate : Option render_backend_t
  render_backend_null_allocate : render_backend_t
  render_api_value : render_api_t → Int
  resource_platform_decompose : Nat → resource_platform_t
  resource_platform : resource_platform_t → Nat

/-- The memory the library works on: the array `_render_backends`, the live
backend instances by handle, the next unused handle, the thread-local
`backend` of the calling thread, the render contexts by handle, and the trace
of hook calls. -/
structure render_state where
  render_backends : List Nat
  heap : Nat → Option render_backend_t
  next_handle : Nat
  thread_backend : Option Nat
  contexts : Nat → render_context_t
  trace : List render_event

/-- The macro `array_erase(array, pos)` of the foundation library: the last
element is moved into position `pos` and the array shrinks by one (order is
not preserved); an invalid position leaves the array alone. -/
def array_erase : List Nat → Nat → List Nat
  | [], _ => []
  | _ :: xs, 0 =>
    match xs.getLast? with
    | none => []
    | some last => last :: xs.dropLast
  | x :: xs, pos + 1 => x :: array_erase xs pos

/-- The loop at the end of `render_backend_deallocate`: the first position that
holds `backend` is erased, then the scan stops. -/
def render_backends_remove (backends : List Nat) (backend : Nat) : List Nat :=
  if backends.indexOf backend < backends.length then
    array_erase backends (backends.indexOf backend)
  else backends

/-- The function `render_backend_deallocate`.  Finalizing the tables, the
framebuffer, the drawable and the mutex only touches the instance that is
freed at the end. -/
def render_backend_deallocate (s : render_state) (backend : Option Nat) : render_state :=
  match backend with
  | none => s
  | some b =>
    { s with
      trace := s.trace ++ [render_event.destruct b]
      render_backends := render_backends_remove s.render_backends b
      heap := Function.update s.heap b none }

/-- The function `render_backend_set_resource_platform`. -/
def render_backend_set_resource_platform (env : render_env) (s : render_state) (backend : Nat)
    (platform : Nat) : render_state :=
  match s.heap backend with
  | none => s
  | some b =>
    let decl := env.resource_platform_decompose platform
    let decl := { decl with render_api_group := b.api_group }
    let decl := { decl with render_api := env.render_api_value b.api }
    let b := { b with platform := env.resource_platform decl }
    { s with heap := Function.update s.heap backend (some b) }

/-- The function `render_backend_enable_thread`. -/
def render_backend_enable_thread (s : render_state) (backend : Nat) : render_state :=
  let prev_backend := s.thread_backend
  let s :=
    match prev_backend with
    | some prev =>
      if prev ≠ backend then { s with trace := s.trace ++ [render_event.disable_thread prev] }
      else s
    | none => s
  { s with thread_backend := some backend
           trace := s.trace ++ [render_event.enable_thread backend] }

/-- One of the `case` blocks for GLES2, OPENGL2 and OPENGL4 in
`render_backend_allocate`: call the allocator, then the construct hook unless
the allocator gave a null pointer; on failure deallocate and yield null. -/
def render_backend_try (s : render_state) (api : render_api_t)
    (allocated : Option render_backend_t) : render_state × Option Nat :=
  match allocated with
  | none =>
    (render_backend_deallocate
      { s with trace := s.trace ++ [render_event.backend_allocate api none] } none, none)
  | some b =>
    let h := s.next_handle
    let s := { s with heap := Function.update s.heap h (some b)
                      next_handle := h + 1
                      trace := s.trace ++ [render_event.backend_allocate api (some h),
                                           render_event.construct h b.vtable.construct] }
    if b.vtable.construct then (s, some h)
    else (render_backend_deallocate s (some h), none)

/-- The `switch (api)` of `render_backend_allocate`, for every label but
`RENDERAPI_UNKNOWN` (which returns from the function): the state after the
block and the value of `backend`.  The blocks that call no allocator, the
`default:` label among them, leave `backend` null. -/
def render_backend_switch (env : render_env) (s : render_state) (api : render_api_t) :
    render_state × Option Nat :=
  match api with
  | RENDERAPI_GLES2 => render_backend_try s api env.render_backend_gles2_allocate
  | RENDERAPI_OPENGL2 => render_backend_try s api env.render_backend_gl2_allocate
  | RENDERAPI_OPENGL4 => render_backend_try s api env.render_backend_gl4_allocate
  | RENDERAPI_NULL =>
    let b := env.render_backend_null_allocate
    let h := s.next_handle
    ({ s with heap := Function.update s.heap h (some b)
              next_handle := h + 1
              trace := s.trace ++ [render_event.backend_allocate api (some h),
                                   render_event.construct h b.vtable.construct] }, some h)
  | _ => (s, none)

/-- The inner loop `while (_render_api_disabled[api]) api = render_api_fallback(api);`. -/
def render_api_skip_disabled (env : render_env) : Nat → render_api_t → Option render_api_t
  | 0, _ => none
  | fuel + 1, api =>
    if env.render_api_disabled api then
      render_api_skip_disabled env fuel (render_api_fallback env.platform api)
    else some api

/-- The tail of `render_backend_allocate`, after the loop has left with a
backend: mutex, framebuffer, frame counter, resource tables, platform tag,
registration and thread binding. -/
def render_backend_setup (env : render_env) (s : render_state) (backend : Nat) : render_state :=
  let s :=
    match s.heap backend with
    | none => s
    | some b =>
      let b := { b with exclusive := true
                        framebuffer := { b.framebuffer with backend := some backend }
                        framecount := 1
                        shadertable := some []
                        programtable := some []
                        texturetable := some [] }
      { s with heap := Function.update s.heap backend (some b) }
  let s := render_backend_set_resource_platform env s backend 0
  let s := { s with render_backends := s.render_backends ++ [backend] }
  render_backend_enable_thread s backend

/-- The outer loop `while (!backend)` of `render_backend_allocate`, followed by
the tail of the function. -/
def render_backend_allocate_loop (env : render_env) (allow_fallback : Bool) :
    Nat → render_state → render_api_t → Option (render_state × Option Nat)
  | 0, _, _ => none
  | fuel + 1, s, api =>
    match render_api_skip_disabled env (fuel + 1) api with
    | none => none
    | some api =>
      if api = RENDERAPI_UNKNOWN then some (s, none)
      else
        match render_backend_switch env s api with
        | (s, some backend) => some (render_backend_setup env s backend, some backend)
        | (s, none) =>
          if !allow_fallback then some (s, none)
          else render_backend_allocate_loop env allow_fallback fuel s
                 (render_api_fallback env.platform api)

/-- The function `render_backend_allocate`: the state after the call and the
pointer returned, or `none` when `fuel` loop iterations were not enough. -/
def render_backend_allocate (env : render_env) (fuel : Nat) (s : render_state)
    (api : render_api_t) (allow_fallback : Bool) : Option (render_state × Option Nat) :=
  render_backend_allocate_loop env allow_fallback fuel s api

/-- The APIs for which `render_backend_allocate` calls an allocator, in the
order of the trace: the `backend_allocate` events. -/
def allocator_calls (trace : List render_event) : List render_api_t :=
  trace.filterMap fun e =>
    match e with
    | render_event.backend_allocate api _ => some api
    | _ => none

/-- What the allocator of `api` returns in `env`; `none` for a null pointer and
for an API without an allocator call in `render_backend_allocate`. -/
def render_env.allocated (env : render_env) (api : render_api_t) : Option render_backend_t :=
  match api with
  | RENDERAPI_GLES2 => env.render_backend_gles2_allocate
  | RENDERAPI_OPENGL2 => env.render_backend_gl2_allocate
  | RENDERAPI_OPENGL4 => env.render_backend_gl4_allocate
  | RENDERAPI_NULL => some env.render_backend_null_allocate
  | _ => none

/-- The APIs whose `case` block in `render_backend_allocate` calls an allocator. -/
def render_api_live (api : render_api_t) : Bool :=
  api = RENDERAPI_NULL || api = RENDERAPI_OPENGL2 || api = RENDERAPI_OPENGL4 ||
    api = RENDERAPI_GLES2

/-- The state before any backend or context has been created. -/
def render_state_initial : render_state :=
  { render_backends := []
    heap := fun _ => none
    next_handle := 0
    thread_backend := none
    contexts := fun _ =>
      { allocated := 0, reserved := 0, keys := fun _ => 0, commands := fun _ => ⟨0⟩ }
    trace := [] }

/-- A call that works on the registry. -/
inductive registry_call where
  | allocate (env : render_env) (fuel : Nat) (api : render_api_t) (allow_fallback : Bool)
  | deallocate (backend : Option Nat)

/-- Run a sequence of registry calls.  Next to the state, the run keeps the
list of the backends that `render_backend_allocate` has returned and that have
not been passed to `render_backend_deallocate` since.  `none`: some call ran out
of fuel. -/
def registry_run : List registry_call → render_state × List Nat → Option (render_state × List Nat)
  | [], r => some r
  | registry_call.allocate env fuel api allow_fallback :: calls, (s, live) =>
    match render_backend_allocate env fuel s api allow_fallback with
    | none => none
    | some (s, some backend) => registry_run calls (s, backend :: live)
    | some (s, none) => registry_run calls (s, live)
  | registry_call.deallocate backend :: calls, (s, live) =>
    registry_run calls
      (render_backend_deallocate s backend, live.filter fun b => some b ≠ backend)

/-! ## Render contexts -/

/-- A value of type `int32_t`: wrap an integer into `[-2^31, 2^31)`. -/
def wrap_int32 (v : Int) : Int :=
  (v + 2147483648) % 4294967296 - 2147483648

/-- The foundation call `atomic_exchange_and_add32(&val, add)`: the value before
the addition, and the value stored. -/
def atomic_exchange_and_add32 (val : Int) (add : Int) : Int × Int :=
  (val, wrap_int32 (val + add))

/-- How a call can stop short of its return: a failed `FOUNDATION_ASSERT_MSG`
with its message, or a store in front of the block. -/
inductive render_fault where
  | assertion (msg : String)
  | out_of_bounds
  deriving DecidableEq, Repr

/-- Modelled from the spec: `FOUNDATION_ASSERT_MSG(cond, msg)` of the foundation
library; "a fatal assertion fires", so the caller does not run past a failed
assertion. -/
def FOUNDATION_ASSERT_MSG (cond : Bool) (msg : String) : Except render_fault Unit :=
  if cond then Except.ok () else Except.error (render_fault.assertion msg)

/-- The first two statements of `render_context_reserve` and of
`render_context_queue`: the fetch-and-increment of `reserved` and the
assertion on the index.  An index that passes the assertion and is negative
would be stored to in front of the blocks. -/
def render_context_fetch (context : render_context_t) :
    render_context_t × Except render_fault Nat :=
  let (idx, reserved) := atomic_exchange_and_add32 context.reserved 1
  let context := { context with reserved := reserved }
  match FOUNDATION_ASSERT_MSG (decide (idx < context.allocated)) "Render command overallocation" with
  | Except.error fault => (context, Except.error fault)
  | Except.ok () =>
    if idx < 0 then (context, Except.error render_fault.out_of_bounds)
    else (context, Except.ok idx.toNat)

/-- The statement `context->keys[ idx ] = sort;`. -/
def render_context_store_key (context : render_context_t) (idx : Nat) (sort : Nat) :
    render_context_t :=
  { context with keys := Function.update context.keys idx sort }

/-- The statement `memcpy( context->commands + idx, command, sizeof( render_command_t ) );`. -/
def render_context_store_command (context : render_context_t) (idx : Nat)
    (command : render_command_t) : render_context_t :=
  { context with commands := Function.update context.commands idx command }

/-- The function `render_context_allocate`, with the bound `(radixsort_index_t)-1`
of its assertion and the content of the two fresh blocks as arguments.  The
statement `context->allocated = commands;` stores the `unsigned int` argument
into the `int32_t` field. -/
def render_context_allocate (radixsort_index_max : Nat) (keys : Nat → Nat)
    (block : Nat → render_command_t) (commands : Nat) : Except render_fault render_context_t :=
  match FOUNDATION_ASSERT_MSG (decide (commands < radixsort_index_max)) "" with
  | Except.error fault => Except.error fault
  | Except.ok () =>
    Except.ok { allocated := wrap_int32 commands, reserved := 0, keys := keys,
                commands := block }

/-- The function `render_context_reserve`: the context after the call, and the
index of the slot returned or the fault. -/
def render_context_reserve (context : render_context_t) (sort : Nat) :
    render_context_t × Except render_fault Nat :=
  match render_context_fetch context with
  | (context, Except.error fault) => (context, Except.error fault)
  | (context, Except.ok idx) => (render_context_store_key context idx sort, Except.ok idx)

/-- The function `render_context_queue`: the context after the call, and the
index of the slot written or the fault. -/
def render_context_queue (context : render_context_t) (command : render_command_t)
    (sort : Nat) : render_context_t × Except render_fault Nat :=
  match render_context_fetch context with
  | (context, Except.error fault) => (context, Except.error fault)
  | (context, Except.ok idx) =>
    (render_context_store_command (render_context_store_key context idx sort) idx command,
      Except.ok idx)

/-- The function `render_context_reserved`: the counter as `unsigned int`. -/
def render_context_reserved (context : render_context_t) : Nat :=
  (context.reserved % 4294967296).toNat

/-- The function `render_backend_dispatch`: the dispatch hook gets the whole
array, then every counter is stored to. -/
def render_backend_dispatch (s : render_state) (backend : Nat) (target : Option Nat)
    (contexts : List Nat) : render_state :=
  let s := { s with trace := s.trace ++ [render_event.dispatch backend target contexts] }
  contexts.foldl
    (fun s c => { s with contexts := Function.update s.contexts c
                                       { s.contexts c with reserved := 0 } }) s

/-! ## Concurrent reservation

Every call of `render_context_reserve` / `render_context_queue` runs on a thread
of its own.  A thread advances by one step at a time: the fetch-and-increment
with the assertion, the store to `keys`, the copy into `commands`.  A schedule
names the thread that takes the next step. -/

/-- One call of `render_context_reserve( context, sort )` or of
`render_context_queue( context, command, sort )`. -/
inductive render_context_call where
  | reserve (sort : Nat)
  | queue (command : render_command_t) (sort : Nat)
  deriving DecidableEq, Repr

/-- The sort key a call passes. -/
def render_context_call.sort : render_context_call → Nat
  | render_context_call.reserve sort => sort
  | render_context_call.queue _ sort => sort

/-- How far a call has run: not started, past the fetch-and-increment holding
its index, past the store to `keys` (a queue call that has not copied yet),
returned, or stopped by a fault. -/
inductive render_call_phase where
  | start
  | fetched (idx : Nat)
  | keyed (idx : Nat)
  | returned (idx : Nat)
  | faulted (fault : render_fault)
  deriving DecidableEq, Repr

/-- A context shared by the threads, the phase of every call, and the calls in
the order in which they did their fetch-and-increment. -/
structure render_context_threads where
  context : render_context_t
  phase : Nat → render_call_phase
  order : List Nat

/-- Thread `t` takes the next step of its call `calls[t]`. -/
def render_context_step (calls : List render_context_call) (r : render_context_threads)
    (t : Nat) : render_context_threads :=
  match calls[t]? with
  | none => r
  | some call =>
    match r.phase t with
    | render_call_phase.start =>
      match render_context_fetch r.context with
      | (context, Except.error fault) =>
        { context := context
          phase := Function.update r.phase t (render_call_phase.faulted fault)
          order := r.order ++ [t] }
      | (context, Except.ok idx) =>
        { context := context
          phase := Function.update r.phase t (render_call_phase.fetched idx)
          order := r.order ++ [t] }
    | render_call_phase.fetched idx =>
      match call with
      | render_context_call.reserve sort =>
        { r with context := render_context_store_key r.context idx sort
                 phase := Function.update r.phase t (render_call_phase.returned idx) }
      | render_context_call.queue _ sort =>
        { r with context := render_context_store_key r.context idx sort
                 phase := Function.update r.phase t (render_call_phase.keyed idx) }
    | render_call_phase.keyed idx =>
      match call with
      | render_context_call.reserve _ => r
      | render_context_call.queue command _ =>
        { r with context := render_context_store_command r.context idx command
                 phase := Function.update r.phase t (render_call_phase.returned idx) }
    | _ => r

/-- A backend instance as an allocator hands it out: API, API group and the
result of its construct hook; everything else zero. -/
def render_backend_sample (api : render_api_t) (api_group : Int) (construct : Bool) :
    render_backend_t :=
  { api := api
    api_group := api_group
    vtable := { construct := construct }
    drawable := { type := 0, adapter := 0, window := 0, tag := 0, width := 0, height := 0,
                  refresh := 0 }
    pixelformat := 0
    colorspace := 0
    framebuffer := { backend := none, width := 0, height := 0, pixelformat := 0, colorspace := 0 }
    framecount := 0
    platform := 0
    concurrency := 0
    exclusive := false
    shadertable := none
    programtable := none
    texturetable := none }

/-- A desktop build in which the flags of `disabled` are set, OpenGL 4 fails to
construct, OpenGL 2 constructs, GLES2 has no instance, and the construct hook
of the null backend reports `null_construct`. -/
def render_env_sample (disabled : render_api_t → Bool) (null_construct : Bool) : render_env :=
  { platform := foundation_platform_t.desktop
    render_api_disabled := disabled
    render_backend_gles2_allocate := none
    render_backend_gl2_allocate := some (render_backend_sample RENDERAPI_OPENGL2 1 true)
    render_backend_gl4_allocate := some (render_backend_sample RENDERAPI_OPENGL4 1 false)
    render_backend_null_allocate := render_backend_sample RENDERAPI_NULL 0 null_construct
    render_api_value := fun api =>
      match api with
      | RENDERAPI_NULL => 2
      | RENDERAPI_OPENGL2 => 4
      | RENDERAPI_OPENGL4 => 6
      | _ => 0
    resource_platform_decompose := fun platform =>
      { render_api_group := (platform / 256 % 256 : Nat), render_api := (platform % 256 : Nat),
        other := [(platform / 65536 : Nat)] }
    resource_platform := fun decl =>
      decl.render_api.toNat % 256 + 256 * (decl.render_api_group.toNat % 256) +
        65536 * (decl.other.headD 0).toNat }

/-- A context of capacity `allocated` with `reserved` reservations and zeroed
blocks. -/
def render_context_sample (allocated reserved : Int) : render_context_t :=
  { allocated := allocated, reserved := reserved, keys := fun _ => 0, commands := fun _ => ⟨0⟩ }

/-- The state after `render_backend_allocate(RENDERAPI_NULL, false)` in the
initial state, nothing being disabled. -/
def render_state_sample : render_state :=
  render_backend_setup (render_env_sample (fun _ => false) true)
    (render_backend_switch (render_env_sample (fun _ => false) true) render_state_initial
      RENDERAPI_NULL).1 0

/-- A run on the registry: a request that falls back from OpenGL 4 (which
fails to construct) to OpenGL 2, a request for the null backend, a failed
request without fallback, then the deallocation of the first backend and of a
null handle. -/
def registry_calls_sample : List registry_call :=
  [ registry_call.allocate (render_env_sample (fun _ => false) true) 7 RENDERAPI_DEFAULT true,
    registry_call.allocate (render_env_sample (fun _ => false) true) 7 RENDERAPI_NULL false,
    registry_call.allocate (render_env_sample (fun _ => false) true) 7 RENDERAPI_OPENGL4 false,
    registry_call.deallocate (some 1),
    registry_call.deallocate none ]

/-- The state and the live backends after `registry_calls_sample`. -/
def registry_run_sample : render_state × List Nat :=
  (registry_run registry_calls_sample (render_state_initial, [])).getD (render_state_initial, [])

/-- A state with three contexts, of capacity 4 with 3 reservations (handle 0),
capacity 2 with 2 reservations (handle 1), and capacity 5 with 1 reservation
(any other handle). -/
def render_state_contexts_sample : render_state :=
  { render_state_initial with
    contexts := fun c =>
      if c = 0 then render_context_sample 4 3
      else if c = 1 then render_context_sample 2 2
      else render_context_sample 5 1 }

/-- The function `render_backend_disable_thread`. -/
def render_backend_disable_thread (s : render_state) (backend : Nat) : render_state :=
  let prev_backend := s.thread_backend
  let s := { s with trace := s.trace ++ [render_event.disable_thread backend] }
  if prev_backend = some backend then { s with thread_backend := none } else s

/-- The macro `FOUNDATION_VALIDATE_MSG(cond, msg)` of the foundation library as
`render_backend_set_format` uses it: its value is the value of the condition
(a false condition is reported on the side). -/
def FOUNDATION_VALIDATE_MSG (cond : Bool) (_msg : String) : Bool :=
  cond

/-- The function `render_backend_set_format`, on the backend instance. -/
def render_backend_set_format (backend : render_backend_t) (format : Nat) (space : Nat) :
    render_backend_t :=
  if !FOUNDATION_VALIDATE_MSG (decide (backend.drawable.type = 0))
      "Unable to change format when drawable is already set" then backend
  else { backend with pixelformat := format, colorspace := space }

/-- The function `render_backend_set_max_concurrency`, on the backend instance
(`size_t` is not wider than `uint64_t`, so the cast keeps the value). -/
def render_backend_set_max_concurrency (backend : render_backend_t) (num_threads : Nat) :
    render_backend_t :=
  if backend.concurrency ≠ 0 ∨ backend.drawable.width ≠ 0 then backend
  else { backend with concurrency := num_threads }

/-- The function `render_backend_max_concurrency`. -/
def render_backend_max_concurrency (backend : render_backend_t) : Nat :=
  backend.concurrency

/-- The drawable functions of `render/drawable.c` that `render_backend_set_drawable`
calls, and the two drawable types it tests for. -/
structure render_drawable_ops where
  RENDERDRAWABLE_WINDOW : Nat
  RENDERDRAWABLE_FULLSCREEN : Nat
  render_drawable_finalize : render_drawable_t → render_drawable_t
  render_drawable_initialize_window : render_drawable_t → Nat → Nat → render_drawable_t
  render_drawable_initialize_fullscreen :
    render_drawable_t → Nat → Nat → Nat → Nat → render_drawable_t

/-- The function `render_backend_set_drawable`: the state after the call and the
value returned.  A handle without a live instance has no operation table to
call; the model stops there with `false`. -/
def render_backend_set_drawable (ops : render_drawable_ops) (s : render_state) (backend : Nat)
    (drawable : render_drawable_t) : render_state × Bool :=
  let prev_backend := s.thread_backend
  let s :=
    match prev_backend with
    | some prev =>
      if prev ≠ backend then { s with trace := s.trace ++ [render_event.disable_thread prev] }
      else s
    | none => s
  match s.heap backend with
  | none => (s, false)
  | some b =>
    let s := { s with trace := s.trace ++ [render_event.set_drawable backend b.vtable.set_drawable] }
    if !b.vtable.set_drawable then (s, false)
    else
      let d := ops.render_drawable_finalize b.drawable
      let d :=
        if drawable.type = ops.RENDERDRAWABLE_WINDOW then
          ops.render_drawable_initialize_window d drawable.window drawable.tag
        else if drawable.type = ops.RENDERDRAWABLE_FULLSCREEN then
          ops.render_drawable_initialize_fullscreen d drawable.adapter drawable.width
            drawable.height drawable.refresh
        else d
      let b := { b with drawable := d }
      let b := { b with framebuffer := { b.framebuffer with width := b.drawable.width
                                                            height := b.drawable.height
                                                            pixelformat := b.pixelformat
                                                            colorspace := b.colorspace } }
      ({ s with heap := Function.update s.heap backend (some b)
                thread_backend := some backend }, true)

/-- A shader (`render_shader_t`): its identity and the backend that owns it. -/
structure render_shader_t where
  id : Nat
  backend : Option Nat
  deriving DecidableEq, Repr

/-- A texture (`render_texture_t`): its identity and the backend that owns it. -/
structure render_texture_t where
  id : Nat
  backend : Option Nat
  deriving DecidableEq, Repr

/-- The vertex formats that `compile.c` names (`render_vertex_format_t`). -/
inductive render_vertex_format_t where
  | VERTEXFORMAT_FLOAT
  | VERTEXFORMAT_FLOAT2
  | VERTEXFORMAT_FLOAT3
  | VERTEXFORMAT_FLOAT4
  | VERTEXFORMAT_INT
  | VERTEXFORMAT_INT2
  | VERTEXFORMAT_INT4
  deriving DecidableEq, Repr, Fintype

/-- The parameter types that `compile.c` names (`render_parameter_type_t`). -/
inductive render_parameter_type_t where
  | RENDERPARAMETER_FLOAT4
  | RENDERPARAMETER_INT4
  | RENDERPARAMETER_MATRIX
  | RENDERPARAMETER_TEXTURE
  deriving DecidableEq, Repr, Fintype

/-- A vertex attribute (`render_vertex_attribute_t`): the value of its binding
enumerator, its format and its byte offset. -/
structure render_vertex_attribute_t where
  binding : Nat
  format : render_vertex_format_t
  offset : Nat
  deriving DecidableEq, Repr

/-- A program parameter (`render_parameter_t`). -/
structure render_parameter_t where
  name : Nat
  location : Int
  dim : Int
  offset : Nat
  stages : Nat
  type : render_parameter_type_t
  deriving DecidableEq, Repr

/-- A program (`render_program_t`): its identity, the backend that owns it, the
first `attributes.num_attributes` attributes, `attributes.size`, and the first
`parameters.num_parameters` parameters. -/
structure render_program_t where
  id : Nat
  backend : Option Nat
  attributes : List render_vertex_attribute_t
  attributes_size : Nat
  parameters : List render_parameter_t
  deriving DecidableEq, Repr

/-- The function `render_backend_shader_upload`: the state, the shader and the
value returned.  A handle without a live instance has no operation table to
call; the model stops there with `false`. -/
def render_backend_shader_upload (s : render_state) (backend : Nat) (shader : render_shader_t) :
    render_state × render_shader_t × Bool :=
  let s :=
    match shader.backend with
    | some owner =>
      if owner ≠ backend then
        { s with trace := s.trace ++ [render_event.deallocate_shader owner shader.id] }
      else s
    | none => s
  let shader := { shader with backend := none }
  match s.heap backend with
  | none => (s, shader, false)
  | some b =>
    let s := { s with trace := s.trace ++
                [render_event.upload_shader backend shader.id b.vtable.upload_shader] }
    if b.vtable.upload_shader then (s, { shader with backend := some backend }, true)
    else (s, shader, false)

/-- The function `render_backend_program_upload`, as `render_backend_shader_upload`. -/
def render_backend_program_upload (s : render_state) (backend : Nat)
    (program : render_program_t) : render_state × render_program_t × Bool :=
  let s :=
    match program.backend with
    | some owner =>
      if owner ≠ backend then
        { s with trace := s.trace ++ [render_event.deallocate_program owner program.id] }
      else s
    | none => s
  let program := { program with backend := none }
  match s.heap backend with
  | none => (s, program, false)
  | some b =>
    let s := { s with trace := s.trace ++
                [render_event.upload_program backend program.id b.vtable.upload_program] }
    if b.vtable.upload_program then (s, { program with backend := some backend }, true)
    else (s, program, false)

/-- The function `render_backend_texture_upload`, as `render_backend_shader_upload`. -/
def render_backend_texture_upload (s : render_state) (backend : Nat)
    (texture : render_texture_t) : render_state × render_texture_t × Bool :=
  let s :=
    match texture.backend with
    | some owner =>
      if owner ≠ backend then
        { s with trace := s.trace ++ [render_event.deallocate_texture owner texture.id] }
      else s
    | none => s
  let texture := { texture with backend := none }
  match s.heap backend with
  | none => (s, texture, false)
  | some b =>
    let s := { s with trace := s.trace ++
                [render_event.upload_texture backend texture.id b.vtable.upload_texture] }
    if b.vtable.upload_texture then (s, { texture with backend := some backend }, true)
    else (s, texture, false)

/-- Drawable functions for the examples: finalizing zeroes the drawable, a
window drawable is 100 by 100, a fullscreen drawable takes the size asked for. -/
def render_drawable_ops_sample : render_drawable_ops :=
  { RENDERDRAWABLE_WINDOW := 1
    RENDERDRAWABLE_FULLSCREEN := 2
    render_drawable_finalize := fun _ =>
      { type := 0, adapter := 0, window := 0, tag := 0, width := 0, height := 0, refresh := 0 }
    render_drawable_initialize_window := fun d window tag =>
      { d with type := 1, window := window, tag := tag, width := 100, height := 100 }
    render_drawable_initialize_fullscreen := fun d adapter width height refresh =>
      { d with type := 2, adapter := adapter, width := width, height := height,
               refresh := refresh } }

/-- A window drawable as a caller passes it to `render_backend_set_drawable`. -/
def render_drawable_sample : render_drawable_t :=
  { type := 1, adapter := 0, window := 7, tag := 3, width := 0, height := 0, refresh := 0 }

/-- The state after two calls `render_backend_allocate(RENDERAPI_NULL, false)` in
the initial state: the backends 0 and 1 are live, 1 is current. -/
def render_state_pair_sample : render_state :=
  (registry_run
    [ registry_call.allocate (render_env_sample (fun _ => false) true) 1 RENDERAPI_NULL false,
      registry_call.allocate (render_env_sample (fun _ => false) true) 1 RENDERAPI_NULL false ]
    (render_state_initial, [])).getD (render_state_initial, []) |>.1

/-- The backend 1 of `render_state_pair_sample`. -/
def render_backend_pair_sample : render_backend_t :=
  (render_state_pair_sample.heap 1).getD (render_backend_sample RENDERAPI_UNKNOWN 0 false)

/-- The state `render_state_sample` with the set_drawable hook of backend 0
rejecting every drawable. -/
def render_state_reject_sample : render_state :=
  { render_state_sample with
    heap := fun h =>
      (render_state_sample.heap h).map fun b =>
        { b with vtable := { b.vtable with set_drawable := false } } }

/-- The backend 0 of `render_state_reject_sample`. -/
def render_backend_reject_sample : render_backend_t :=
  (render_state_reject_sample.heap 0).getD (render_backend_sample RENDERAPI_UNKNOWN 0 false)

/-- A backend with a drawable attached: type 1, 640 by 480. -/
def render_backend_drawable_sample : render_backend_t :=
  { render_backend_sample RENDERAPI_NULL 0 true with
    drawable := { type := 1, adapter := 0, window := 7, tag := 3, width := 640, height := 480,
                  refresh := 0 }
    pixelformat := 4
    colorspace := 1 }

/-! ## Program reflection: attributes and uniforms -/

/-- The OpenGL type codes that `render_program_compile` tests for, and any
other code. -/
inductive gl_type_t where
  | GL_NONE
  | GL_FLOAT
  | GL_FLOAT_VEC2
  | GL_FLOAT_VEC3
  | GL_FLOAT_VEC4
  | GL_INT
  | GL_UNSIGNED_INT
  | GL_INT_VEC2
  | GL_UNSIGNED_INT_VEC2
  | GL_INT_VEC4
  | GL_UNSIGNED_INT_VEC4
  | GL_FLOAT_MAT4
  | GL_SAMPLER_2D
  | other (code : Nat)
  deriving DecidableEq, Repr

open gl_type_t render_vertex_format_t render_parameter_type_t

/-- What `glGetActiveAttrib` reports for one attribute: name and type. -/
structure gl_attribute_t where
  name : String
  type : gl_type_t
  deriving DecidableEq, Repr

/-- What `glGetActiveUniform` and `glGetUniformLocation` report for one uniform:
the hash of its name, its location, its size and its type. -/
structure gl_uniform_t where
  name : Nat
  location : Int
  size : Int
  type : gl_type_t
  deriving DecidableEq, Repr

/-- The constants of `render/types.h` that the reflection code uses: the values
of the three binding enumerators, the two stage bits, and the function
`render_vertex_attribute_size`. -/
structure render_program_consts where
  VERTEXATTRIBUTE_POSITION : Nat
  VERTEXATTRIBUTE_PRIMARYCOLOR : Nat
  VERTEXATTRIBUTE_TEXCOORD0 : Nat
  SHADER_VERTEX : Nat
  SHADER_PIXEL : Nat
  render_vertex_attribute_size : render_vertex_format_t → Nat

/-- The `if` chain on the attribute name in the second enumeration: the
binding, or `none` for the `else` branch ("Invalid/unknown attribute name"). -/
def render_attribute_binding (c : render_program_consts) (name : String) : Option Nat :=
  if name = "position" then some c.VERTEXATTRIBUTE_POSITION
  else if name = "color" then some c.VERTEXATTRIBUTE_PRIMARYCOLOR
  else if name = "texcoord" then some c.VERTEXATTRIBUTE_TEXCOORD0
  else none

/-- The `switch (type)` of the attribute enumeration: the format, or `none` for
`default` ("Invalid/unknown attribute type"). -/
def render_attribute_format (type : gl_type_t) : Option render_vertex_format_t :=
  match type with
  | GL_FLOAT => some VERTEXFORMAT_FLOAT
  | GL_FLOAT_VEC2 => some VERTEXFORMAT_FLOAT2
  | GL_FLOAT_VEC3 => some VERTEXFORMAT_FLOAT3
  | GL_FLOAT_VEC4 => some VERTEXFORMAT_FLOAT4
  | GL_INT => some VERTEXFORMAT_INT
  | GL_UNSIGNED_INT => some VERTEXFORMAT_INT
  | GL_INT_VEC2 => some VERTEXFORMAT_INT2
  | GL_UNSIGNED_INT_VEC2 => some VERTEXFORMAT_INT2
  | GL_INT_VEC4 => some VERTEXFORMAT_INT4
  | GL_UNSIGNED_INT_VEC4 => some VERTEXFORMAT_INT4
  | _ => none

/-- The second attribute enumeration of `render_program_compile` (the loop that
fills `program->attributes`): `result` and the attributes counted so far go in,
`result` and the attributes counted at the end of the loop come out. -/
def render_program_attributes (c : render_program_consts) :
    List gl_attribute_t → Int → List render_vertex_attribute_t →
      Int × List render_vertex_attribute_t
  | [], result, counted => (result, counted)
  | a :: rest, result, counted =>
    match render_attribute_binding c a.name with
    | none => (-1, counted)
    | some binding =>
      match render_attribute_format a.type with
      | none => (-1, counted)
      | some format =>
        if result < 0 then (result, counted)
        else render_program_attributes c rest result
               (counted ++ [{ binding := binding, format := format, offset := 0 }])

/-- The inner loop of the sort, `for (ia = 0; ia < (iend - 1); ++ia)`: `count`
neighbour comparisons from the front of the array, each swapping when the
second binding is below the first. -/
def render_attributes_bubble :
    Nat → List render_vertex_attribute_t → List render_vertex_attribute_t
  | 0, l => l
  | _ + 1, [] => []
  | _ + 1, [a] => [a]
  | count + 1, first :: second :: rest =>
    if second.binding < first.binding then
      second :: render_attributes_bubble count (first :: rest)
    else first :: render_attributes_bubble count (second :: rest)

/-- The outer loop of the sort, `for (iend = num_attributes; iend > 1; --iend)`. -/
def render_attributes_sort_loop :
    Nat → List render_vertex_attribute_t → List render_vertex_attribute_t
  | 0, l => l
  | 1, l => l
  | iend + 2, l =>
    render_attributes_sort_loop (iend + 1) (render_attributes_bubble (iend + 1) l)

/-- The sort of the attributes by binding. -/
def render_attributes_sort (l : List render_vertex_attribute_t) :
    List render_vertex_attribute_t :=
  render_attributes_sort_loop l.length l

/-- The offset loop: every attribute gets the running `uint16_t` offset, which
then grows by the size of its format; the last offset comes out too. -/
def render_attributes_offsets (size : render_vertex_format_t → Nat) :
    Nat → List render_vertex_attribute_t → List render_vertex_attribute_t × Nat
  | offset, [] => ([], offset)
  | offset, a :: rest =>
    let r := render_attributes_offsets size ((offset + size a.format) % 65536) rest
    ({ a with offset := offset } :: r.1, r.2)

/-- The step "Sort and build attribute offsets" of `render_program_compile`:
the attributes after it, and `program->attributes.size`. -/
def render_program_layout (size : render_vertex_format_t → Nat)
    (attributes : List render_vertex_attribute_t) : List render_vertex_attribute_t × Nat :=
  render_attributes_offsets size 0 (render_attributes_sort attributes)

/-- The `switch (type)` of the uniform enumeration: the parameter type and the
growth of the offset, or `none` for `default` ("Invalid/unknown uniform type"). -/
def render_uniform_type (type : gl_type_t) : Option (render_parameter_type_t × Nat) :=
  match type with
  | GL_FLOAT_VEC4 => some (RENDERPARAMETER_FLOAT4, 16)
  | GL_INT_VEC4 => some (RENDERPARAMETER_INT4, 16)
  | GL_UNSIGNED_INT_VEC4 => some (RENDERPARAMETER_INT4, 16)
  | GL_FLOAT_MAT4 => some (RENDERPARAMETER_MATRIX, 16 * 4)
  | GL_SAMPLER_2D => some (RENDERPARAMETER_TEXTURE, 4)
  | _ => none

/-- The uniform enumeration of `render_program_compile`: `result`, the running
`uint16_t` offset and the parameters counted so far go in, `result` and the
parameters counted at the end of the loop come out. -/
def render_program_uniforms (c : render_program_consts) :
    List gl_uniform_t → Int → Nat → List render_parameter_t → Int × List render_parameter_t
  | [], result, _, counted => (result, counted)
  | u :: rest, result, offset, counted =>
    match render_uniform_type u.type with
    | none => (-1, counted)
    | some (type, grow) =>
      if result < 0 then (result, counted)
      else render_program_uniforms c rest result ((offset + grow) % 65536)
             (counted ++ [{ name := u.name, location := u.location, dim := u.size,
                            offset := offset, stages := c.SHADER_VERTEX ||| c.SHADER_PIXEL,
                            type := type }])

/-- What the driver reports for the program of one sub-platform: the status of
the first link and of the relink, the active attributes and the active
uniforms. -/
structure gl_program_t where
  link_status : Bool
  relink_status : Bool
  attributes : List gl_attribute_t
  uniforms : List gl_uniform_t
  deriving DecidableEq, Repr

/-- The `do { ... } while (false)` block of `render_program_compile`: link,
bind the attribute locations, relink, allocate the program, enumerate the
attributes, sort them and build their offsets, enumerate the uniforms.  The
value of `result` and the program (null after a failed link) come out. -/
def render_program_reflect (c : render_program_consts) (gl : gl_program_t) (result : Int) :
    Int × Option render_program_t :=
  if !gl.link_status then (-1, none)
  else if !gl.relink_status then (-1, none)
  else
    let a := render_program_attributes c gl.attributes result []
    let layout := render_program_layout c.render_vertex_attribute_size a.2
    let u := render_program_uniforms c gl.uniforms a.1 0 []
    (u.1, some { id := 0, backend := none, attributes := layout.1,
                 attributes_size := layout.2, parameters := u.2 })

/-- Constants for the examples: the three bindings in the order the spec gives
them, one bit per stage, and 4 bytes per component. -/
def render_program_consts_sample : render_program_consts :=
  { VERTEXATTRIBUTE_POSITION := 0
    VERTEXATTRIBUTE_PRIMARYCOLOR := 3
    VERTEXATTRIBUTE_TEXCOORD0 := 7
    SHADER_VERTEX := 1
    SHADER_PIXEL := 2
    render_vertex_attribute_size := fun format =>
      match format with
      | VERTEXFORMAT_FLOAT => 4
      | VERTEXFORMAT_FLOAT2 => 8
      | VERTEXFORMAT_FLOAT3 => 12
      | VERTEXFORMAT_FLOAT4 => 16
      | VERTEXFORMAT_INT => 4
      | VERTEXFORMAT_INT2 => 8
      | VERTEXFORMAT_INT4 => 16 }

/-- The growth of the uniform offset for a type (0 for a type that the
`switch` does not know). -/
def render_uniform_size (type : gl_type_t) : Nat :=
  match render_uniform_type type with
  | some (_, grow) => grow
  | none => 0

/-! ## The compiler: `render_shader_compile` and `render_program_compile`

The resource library, the window library and the OpenGL driver are outside the
repository.  What they answer is given by a `render_compile_env`; what the
compiler leaves behind is kept in a `render_compile_state`: the render state,
the number of windows and drawables that are allocated, the streams written,
and the sub-platforms for which the body of the compile loop was entered. -/

/-- The hashes `compile.c` compares with, and any other hash. -/
inductive resource_hash_t where
  | HASH_VERTEXSHADER
  | HASH_PIXELSHADER
  | HASH_PROGRAM
  | HASH_SOURCE
  | other (hash : Nat)
  deriving DecidableEq, Repr

open resource_hash_t

/-- A change record (`resource_change_t`): its platform, the two flags that
`compile.c` tests, the value (read as a UUID) and the blob size. -/
structure resource_change_t where
  platform : Nat
  value_flag : Bool
  blob_flag : Bool
  value : Nat
  blob_size : Nat
  deriving DecidableEq, Repr

/-- A resource source (`resource_source_t`) as the compiler sees it: the change
records in the order in which `resource_source_map_reduce` passes them to the
reducer, and the answers of `resource_source_get`. -/
structure resource_source_t where
  changes : List resource_change_t
  get : resource_hash_t → Nat → Option resource_change_t

/-- A stream written by the compiler: the static and the dynamic stream of a
shader, the static stream of a program. -/
inductive resource_stream_t where
  | shader_static (subplatform : Nat) (type_hash : resource_hash_t) (version : Nat)
  | shader_dynamic (subplatform : Nat) (version : Nat) (compiled_size : Nat)
  | program_static (subplatform : Nat) (type_hash : resource_hash_t) (version : Nat)
      (vertexshader : Nat) (pixelshader : Nat) (program : render_program_t)
  deriving DecidableEq, Repr

/-- The surroundings of a compile call: the surroundings of
`render_backend_allocate` with the fuel for its loops, the constants and
functions of the render and resource headers, the drawable that
`render_drawable_allocate` and `render_drawable_set_window` give, and the
answers of the resource library and of the driver per sub-platform. -/
structure render_compile_env where
  render : render_env
  fuel : Nat
  consts : render_program_consts
  drawable_ops : render_drawable_ops
  drawable : render_drawable_t
  RESOURCE_PLATFORM_ALL : Nat
  resource_platform_is_equal_or_more_specific : Nat → Nat → Bool
  RENDERAPIGROUP_OPENGL : Int
  RENDERAPIGROUP_DIRECTX : Int
  RENDERAPIGROUP_GLES : Int
  PIXELFORMAT_R8G8B8X8 : Nat
  COLORSPACE_LINEAR : Nat
  resource_source_read : Nat → Option resource_source_t
  resource_source_read_blob : Nat → Bool
  gl_compile_status : Nat → Bool
  gl_program : Nat → gl_program_t
  resource_local_create_static : Nat → Bool
  resource_local_create_dynamic : Nat → Bool

/-- What a compile call works on. -/
structure render_compile_state where
  render : render_state
  windows : Nat
  drawables : Nat
  streams : List resource_stream_t
  iterations : List Nat

/-- The function `resource_source_platform_reduce`: the pointer returned and the
array `*subplatforms` after the call; `best` is the pointer passed in.  The
source reads element 0 of the array, which every caller has pushed; an empty
array is left alone here. -/
def resource_source_platform_reduce (all : Nat) (more_specific : Nat → Nat → Bool)
    (change : resource_change_t) (_best : Option resource_change_t) (subplatforms : List Nat) :
    Option resource_change_t × List Nat :=
  match subplatforms with
  | [] => (none, subplatforms)
  | platform :: rest =>
    let subplatforms :=
      if platform = all ∨ more_specific change.platform platform = true then
        if change.platform ∈ rest then subplatforms else subplatforms ++ [change.platform]
      else subplatforms
    (none, subplatforms)

/-- The calls `resource_source_map_all`, `resource_source_map_reduce` with
`resource_source_platform_reduce`, `resource_source_map_clear`: the reducer is
applied to every change record; the array after the last call.  The reducer
does not read `best`, so the pointer passed there (here the one that the call
before returned, a null pointer at first) makes no difference to the array. -/
def resource_source_subplatforms (cenv : render_compile_env) (source : resource_source_t)
    (subplatforms : List Nat) : List Nat :=
  (source.changes.foldl
    (fun acc change =>
      resource_source_platform_reduce cenv.RESOURCE_PLATFORM_ALL
        cenv.resource_platform_is_equal_or_more_specific change acc.1 acc.2)
    (none, subplatforms)).2

/-- The `for` loops over the sub-platforms,
`for (iplat = 1, ...; (iplat != psize) && (result == 0); ++iplat)`, given the
elements from index 1 on. -/
def render_compile_loop {σ : Type} (body : Nat → σ → Int → Option (σ × Int)) :
    List Nat → σ → Int → Option (σ × Int)
  | [], st, result => some (st, result)
  | subplatform :: rest, st, result =>
    if result = 0 then
      match body subplatform st result with
      | none => none
      | some (st, result) => render_compile_loop body rest st result
    else some (st, result)

/-- The enumerators of `render_api_t` that `backend.c` names. -/
def render_api_values : List render_api_t :=
  [RENDERAPI_UNKNOWN, RENDERAPI_DEFAULT, RENDERAPI_NULL, RENDERAPI_OPENGL, RENDERAPI_OPENGL2,
   RENDERAPI_OPENGL4, RENDERAPI_DIRECTX, RENDERAPI_DIRECTX10, RENDERAPI_DIRECTX11,
   RENDERAPI_PS3, RENDERAPI_PS4, RENDERAPI_XBOX360, RENDERAPI_XBOXONE, RENDERAPI_GLES,
   RENDERAPI_GLES2, RENDERAPI_GLES3, RENDERAPI_NUM]

/-- The enumerator that an `int` names, if `backend.c` names one for it. -/
def render_api_of_value (env : render_env) (value : Int) : Option render_api_t :=
  render_api_values.find? fun api => env.render_api_value api = value

/-- The lines that decompose the sub-platform and settle on the API to ask for:
`none` is the `continue` for a nonspecific render API. -/
def render_compile_api (cenv : render_compile_env) (subplatform : Nat) : Option Int :=
  let platform_decl := cenv.render.resource_platform_decompose subplatform
  if platform_decl.render_api ≤ cenv.render.render_api_value RENDERAPI_DEFAULT then
    if platform_decl.render_api_group = cenv.RENDERAPIGROUP_OPENGL then
      some (cenv.render.render_api_value RENDERAPI_OPENGL)
    else if platform_decl.render_api_group = cenv.RENDERAPIGROUP_DIRECTX then
      some (cenv.render.render_api_value RENDERAPI_DIRECTX)
    else if platform_decl.render_api_group = cenv.RENDERAPIGROUP_GLES then
      some (cenv.render.render_api_value RENDERAPI_GLES)
    else none
  else some platform_decl.render_api

/-- The call `render_backend_allocate(platform_decl.render_api, true)`.  A value
for which `backend.c` names no enumerator is the request `RENDERAPI_OTHER`. -/
def render_compile_backend (cenv : render_compile_env) (s : render_state) (api : Int) :
    Option (render_state × Option Nat) :=
  match render_api_of_value cenv.render api with
  | none => render_backend_allocate cenv.render cenv.fuel s RENDERAPI_OTHER true
  | some api => render_backend_allocate cenv.render cenv.fuel s api true

/-- Apply a function to the instance behind a handle. -/
def render_state.update_backend (s : render_state) (backend : Nat)
    (f : render_backend_t → render_backend_t) : render_state :=
  match s.heap backend with
  | none => s
  | some b => { s with heap := Function.update s.heap backend (some (f b)) }

/-- The lines between the allocation of the backend and the compile work:
window (Windows only), drawable, `render_backend_set_format`,
`render_backend_set_drawable`. -/
def render_compile_surface (cenv : render_compile_env) (st : render_compile_state)
    (backend : Nat) : render_compile_state :=
  let st :=
    if cenv.render.platform = foundation_platform_t.windows then
      { st with windows := st.windows + 1 }
    else st
  let st := { st with drawables := st.drawables + 1 }
  let s := st.render.update_backend backend fun b =>
    render_backend_set_format b cenv.PIXELFORMAT_R8G8B8X8 cenv.COLORSPACE_LINEAR
  let s := (render_backend_set_drawable cenv.drawable_ops s backend cenv.drawable).1
  { st with render := s }

/-- The teardown at the end of an iteration: `render_backend_deallocate`,
`render_drawable_deallocate`, `window_deallocate` (a null window is none). -/
def render_compile_teardown (cenv : render_compile_env) (st : render_compile_state)
    (backend : Nat) : render_compile_state :=
  { st with
    render := render_backend_deallocate st.render (some backend)
    drawables := st.drawables - 1
    windows :=
      if cenv.render.platform = foundation_platform_t.windows then st.windows - 1
      else st.windows }

/-- The OpenGL branch of an iteration of `render_shader_compile`: read the source
blob, compile, and copy the blob when the driver reports success.  `result`
and `compiled_size` come out. -/
def render_shader_compile_gl (cenv : render_compile_env) (source : resource_source_t)
    (api : Int) (subplatform : Nat) (result : Int) : Int × Nat :=
  if cenv.render.render_api_value RENDERAPI_OPENGL ≤ api ∧
      api ≤ cenv.render.render_api_value RENDERAPI_OPENGL4 then
    match source.get HASH_SOURCE subplatform with
    | none => (result, 0)
    | some sourcechange =>
      if sourcechange.blob_flag = true ∧ cenv.resource_source_read_blob subplatform = true then
        if !cenv.gl_compile_status subplatform then (-1, 0)
        else (result, sourcechange.blob_size)
      else (result, 0)
  else (result, 0)

/-- The end of an iteration of `render_shader_compile`, after the teardown: the
static stream and then the dynamic stream, when something was compiled. -/
def render_shader_compile_persist (cenv : render_compile_env) (resource_type_hash : resource_hash_t)
    (subplatform : Nat) (compiled_size : Nat) (st : render_compile_state) (result : Int) :
    render_compile_state × Int :=
  if compiled_size ≤ 0 then (st, result)
  else if cenv.resource_local_create_static subplatform then
    let st := { st with streams := st.streams ++
      [resource_stream_t.shader_static subplatform resource_type_hash 1] }
    if compiled_size > 0 then
      if cenv.resource_local_create_dynamic subplatform then
        ({ st with streams := st.streams ++
            [resource_stream_t.shader_dynamic subplatform 1 compiled_size] }, result)
      else (st, -1)
    else (st, result)
  else (st, -1)

/-- The body of the loop of `render_shader_compile` for one sub-platform.
`none`: `render_backend_allocate` ran out of fuel. -/
def render_shader_compile_step (cenv : render_compile_env) (source : resource_source_t)
    (resource_type_hash : resource_hash_t) (subplatform : Nat) (st : render_compile_state)
    (result : Int) : Option (render_compile_state × Int) :=
  let st := { st with iterations := st.iterations ++ [subplatform] }
  if subplatform = 0 then some (st, result)
  else
    match render_compile_api cenv subplatform with
    | none => some (st, result)
    | some api =>
      match render_compile_backend cenv st.render api with
      | none => none
      | some (s, none) => some ({ st with render := s }, -1)
      | some (s, some backend) =>
        let st := render_compile_surface cenv { st with render := s } backend
        let compiled := render_shader_compile_gl cenv source api subplatform result
        let st := render_compile_teardown cenv st backend
        some (render_shader_compile_persist cenv resource_type_hash subplatform compiled.2 st
          compiled.1)

/-- The function `render_shader_compile`: the state after the call and the value
returned.  `none`: `render_backend_allocate` ran out of fuel. -/
def render_shader_compile (cenv : render_compile_env) (platform : Nat)
    (source : resource_source_t) (type : resource_hash_t) (st : render_compile_state) :
    Option (render_compile_state × Int) :=
  if type ≠ HASH_VERTEXSHADER ∧ type ≠ HASH_PIXELSHADER then some (st, -1)
  else
    let subplatforms := resource_source_subplatforms cenv source [platform]
    render_compile_loop (render_shader_compile_step cenv source type) (subplatforms.drop 1) st 0

/-- The two lookups of the shader references of a program for a sub-platform:
the vertex and the pixel shader, or `none` when one is missing or carries no
value. -/
def render_program_shaders (source : resource_source_t) (subplatform : Nat) :
    Option (Nat × Nat) :=
  match source.get HASH_VERTEXSHADER subplatform with
  | none => none
  | some vertexchange =>
    if !vertexchange.value_flag then none
    else
      match source.get HASH_PIXELSHADER subplatform with
      | none => none
      | some pixelchange =>
        if !pixelchange.value_flag then none
        else some (vertexchange.value, pixelchange.value)

/-- The platforms recorded on a shader, reduced into `shaderplatforms`; a shader
source that cannot be read adds nothing. -/
def render_program_shader_platforms (cenv : render_compile_env) (shader : Nat)
    (shaderplatforms : List Nat) : List Nat :=
  match cenv.resource_source_read shader with
  | none => shaderplatforms
  | some shadersource => resource_source_subplatforms cenv shadersource shaderplatforms

/-- The body of the first loop of `render_program_compile` for one sub-platform:
look up both shaders, collect their platforms, and add to `moreplatforms`
those that are more specific than the sub-platform and not in it yet. -/
def render_program_collect_step (cenv : render_compile_env) (source : resource_source_t)
    (subplatform : Nat) (moreplatforms : List Nat) (result : Int) :
    Option (List Nat × Int) :=
  match render_program_shaders source subplatform with
  | none => some (moreplatforms, -1)
  | some (vertexshader, pixelshader) =>
    let shaderplatforms := [subplatform]
    let shaderplatforms := render_program_shader_platforms cenv vertexshader shaderplatforms
    let shaderplatforms := render_program_shader_platforms cenv pixelshader shaderplatforms
    some ((shaderplatforms.drop 1).foldl
      (fun more moreplatform =>
        if moreplatform ≠ subplatform ∧
            cenv.resource_platform_is_equal_or_more_specific moreplatform subplatform = true then
          if moreplatform ∈ more then more else more ++ [moreplatform]
        else more) moreplatforms, result)

/-- The second loop of `render_program_compile` for one element of
`moreplatforms`: the scan of `subplatforms` from index 1 stops at once when
`result` is not 0, and the element is pushed when the scan stopped at the size
of the array. -/
def render_program_merge_step (result : Int) (subplatforms : List Nat) (moreplatform : Nat) :
    List Nat :=
  let psize := subplatforms.length
  let iplat :=
    if result = 0 then
      if moreplatform ∈ subplatforms.drop 1 then (subplatforms.drop 1).indexOf moreplatform + 1
      else psize
    else 1
  if iplat = psize then subplatforms ++ [moreplatform] else subplatforms

/-- The end of an iteration of the third loop of `render_program_compile`, from
the test of the API range on: the reflection block for the OpenGL family, the
static stream when there is a program, and the value of `result`. -/
def render_program_compile_persist (cenv : render_compile_env)
    (resource_type_hash : resource_hash_t) (api : Int) (subplatform : Nat)
    (vertexshader pixelshader : Nat) (st : render_compile_state) (result : Int) :
    render_compile_state × Int :=
  let reflected :=
    if cenv.render.render_api_value RENDERAPI_OPENGL ≤ api ∧
        api ≤ cenv.render.render_api_value RENDERAPI_OPENGL4 then
      render_program_reflect cenv.consts (cenv.gl_program subplatform) result
    else (result, none)
  match reflected.2 with
  | none => (st, reflected.1)
  | some program =>
    if cenv.resource_local_create_static subplatform then
      ({ st with streams := st.streams ++
          [resource_stream_t.program_static subplatform resource_type_hash 1 vertexshader
            pixelshader program] }, reflected.1)
    else (st, -1)

/-- The body of the third loop of `render_program_compile` for one
sub-platform.  `none`: `render_backend_allocate` ran out of fuel. -/
def render_program_compile_step (cenv : render_compile_env) (source : resource_source_t)
    (resource_type_hash : resource_hash_t) (subplatform : Nat) (st : render_compile_state)
    (result : Int) : Option (render_compile_state × Int) :=
  let st := { st with iterations := st.iterations ++ [subplatform] }
  if subplatform = 0 then some (st, result)
  else
    match render_compile_api cenv subplatform with
    | none => some (st, result)
    | some api =>
      match render_compile_backend cenv st.render api with
      | none => none
      | some (s, none) => some ({ st with render := s }, -1)
      | some (s, some backend) =>
        let st := render_compile_surface cenv { st with render := s } backend
        match render_program_shaders source subplatform with
        | none => some (st, -1)
        | some (vertexshader, pixelshader) =>
          let persisted := render_program_compile_persist cenv resource_type_hash api
            subplatform vertexshader pixelshader st result
          some (render_compile_teardown cenv persisted.1 backend, persisted.2)

/-- The function `render_program_compile`: the state after the call and the
value returned.  `none`: `render_backend_allocate` ran out of fuel. -/
def render_program_compile (cenv : render_compile_env) (platform : Nat)
    (source : resource_source_t) (type : resource_hash_t) (st : render_compile_state) :
    Option (render_compile_state × Int) :=
  if type ≠ HASH_PROGRAM then some (st, -1)
  else
    let subplatforms := resource_source_subplatforms cenv source [platform]
    match render_compile_loop (render_program_collect_step cenv source)
        (subplatforms.drop 1) [] 0 with
    | none => none
    | some (moreplatforms, result) =>
      let subplatforms := moreplatforms.foldl (render_program_merge_step result) subplatforms
      render_compile_loop (render_program_compile_step cenv source type)
        (subplatforms.drop 1) st result

/-- Values for the enumerators of `render_api_t` in the examples, in the order
of `render_api_values`; 5, between OpenGL 2 and OpenGL 4, is a value that
`backend.c` has no `case` label for. -/
def render_api_value_sample (api : render_api_t) : Int :=
  match api with
  | RENDERAPI_UNKNOWN => 0
  | RENDERAPI_DEFAULT => 1
  | RENDERAPI_NULL => 2
  | RENDERAPI_OPENGL => 3
  | RENDERAPI_OPENGL2 => 4
  | RENDERAPI_OPENGL4 => 6
  | RENDERAPI_DIRECTX => 7
  | RENDERAPI_DIRECTX10 => 8
  | RENDERAPI_DIRECTX11 => 9
  | RENDERAPI_PS3 => 10
  | RENDERAPI_PS4 => 11
  | RENDERAPI_XBOX360 => 12
  | RENDERAPI_XBOXONE => 13
  | RENDERAPI_GLES => 14
  | RENDERAPI_GLES2 => 15
  | RENDERAPI_GLES3 => 16
  | RENDERAPI_NUM => 17
  | RENDERAPI_OTHER => 5

/-- A program as the driver reports it in the examples: both links succeed,
the attributes are `position` and `texcoord`, the uniforms a matrix and a
sampler. -/
def gl_program_sample : gl_program_t :=
  { link_status := true
    relink_status := true
    attributes := [⟨"texcoord", GL_FLOAT_VEC2⟩, ⟨"position", GL_FLOAT_VEC3⟩]
    uniforms := [⟨11, 0, 1, GL_FLOAT_MAT4⟩, ⟨12, 1, 1, GL_SAMPLER_2D⟩] }

/-- Surroundings for the compile examples: the desktop build of
`render_env_sample` with nothing disabled (OpenGL 4 fails to construct, OpenGL 2
constructs); a platform is `api + 256 * group + 65536 * rest` with the OpenGL
group 1; a platform is more specific than another when it adds a `rest` to
it; the driver answers are arguments. -/
def render_compile_env_sample (gl_compile_status : Nat → Bool) (gl_program : Nat → gl_program_t)
    (resource_source_read : Nat → Option resource_source_t) : render_compile_env :=
  { render := { render_env_sample (fun _ => false) true with
                render_api_value := render_api_value_sample }
    fuel := 8
    consts := render_program_consts_sample
    drawable_ops := render_drawable_ops_sample
    drawable := render_drawable_sample
    RESOURCE_PLATFORM_ALL := 18446744073709551615
    resource_platform_is_equal_or_more_specific := fun a b =>
      a = b || (b < 65536 && a % 65536 = b)
    RENDERAPIGROUP_OPENGL := 1
    RENDERAPIGROUP_DIRECTX := 2
    RENDERAPIGROUP_GLES := 3
    PIXELFORMAT_R8G8B8X8 := 4
    COLORSPACE_LINEAR := 1
    resource_source_read := resource_source_read
    resource_source_read_blob := fun _ => true
    gl_compile_status := gl_compile_status
    gl_program := gl_program
    resource_local_create_static := fun _ => true
    resource_local_create_dynamic := fun _ => true }

/-- The compile state before any compile call. -/
def render_compile_state_initial : render_compile_state :=
  { render := render_state_initial, windows := 0, drawables := 0, streams := [],
    iterations := [] }

/-- A shader source with change records for the given platforms, each with a
source blob of 10 bytes. -/
def resource_source_shader_sample (platforms : List Nat) : resource_source_t :=
  { changes := platforms.map fun p =>
      { platform := p, value_flag := false, blob_flag := true, value := 0, blob_size := 10 }
    get := fun _ p =>
      some { platform := p, value_flag := false, blob_flag := true, value := 0,
             blob_size := 10 } }

/-- A program source with change records for the given platforms; the vertex
shader 100 and the pixel shader 200 are referenced for every platform for
which `has_vertexshader` holds, the pixel shader for every platform. -/
def resource_source_program_sample (platforms : List Nat) (has_vertexshader : Nat → Bool) :
    resource_source_t :=
  { changes := platforms.map fun p =>
      { platform := p, value_flag := true, blob_flag := false, value := 100, blob_size := 0 }
    get := fun key p =>
      match key with
      | HASH_VERTEXSHADER =>
        if has_vertexshader p then
          some { platform := p, value_flag := true, blob_flag := false, value := 100,
                 blob_size := 0 }
        else none
      | HASH_PIXELSHADER =>
        some { platform := p, value_flag := true, blob_flag := false, value := 200,
               blob_size := 0 }
      | _ => none }

/-- What the examples look at after a compile call: the value returned, the
registry, the live windows and drawables, the streams, and the sub-platforms
whose loop body was entered. -/
structure render_compile_outcome_t where
  result : Int
  render_backends : List Nat
  windows : Nat
  drawables : Nat
  streams : List resource_stream_t
  iterations : List Nat
  deriving DecidableEq, Repr

/-- The outcome of a compile call. -/
def render_compile_outcome (r : Option (render_compile_state × Int)) :
    Option render_compile_outcome_t :=
  r.map fun x =>
    { result := x.2, render_backends := x.1.render.render_backends, windows := x.1.windows,
      drawables := x.1.drawables, streams := x.1.streams, iterations := x.1.iterations }

/-- Surroundings in which the vertex shader 100 of the program carries a change
record for platform 65796, which is more specific than 260. -/
def render_compile_env_more_sample : render_compile_env :=
  render_compile_env_sample (fun _ => true) (fun _ => gl_program_sample)
    (fun shader => if shader = 100 then some (resource_source_shader_sample [65796]) else none)

/-- Surroundings in which the driver reports one attribute, named `normal`. -/
def render_compile_env_schema_sample : render_compile_env :=
  render_compile_env_sample (fun _ => true)
    (fun _ => { gl_program_sample with attributes := [⟨"normal", GL_FLOAT_VEC3⟩] })
    (fun _ => none)

/-! # Proofs -/

/-! ## The fallback chain -/

theorem render_api_rank_fallback (p : foundation_platform_t) (a : render_api_t)
    (h : a ≠ RENDERAPI_UNKNOWN) :
    render_api_rank p (render_api_fallback p a) + 1 = render_api_rank p a := by
  revert p a; decide

theorem render_api_rank_le (p : foundation_platform_t) (a : render_api_t) :
    render_api_rank p a ≤ 7 := by
  revert p a; decide

theorem render_api_rank_pos (p : foundation_platform_t) (a : render_api_t)
    (h : a ≠ RENDERAPI_UNKNOWN) : 1 ≤ render_api_rank p a := by
  revert p a; decide

theorem render_api_fallback_ne_unknown (p : foundation_platform_t) (a : render_api_t)
    (h : a ≠ RENDERAPI_UNKNOWN) (h' : a ≠ RENDERAPI_NULL) (h'' : a ≠ RENDERAPI_OTHER) :
    render_api_fallback p a ≠ RENDERAPI_UNKNOWN := by
  revert p a; decide

theorem render_api_fallback_ne_other (p : foundation_platform_t) (a : render_api_t) :
    render_api_fallback p a ≠ RENDERAPI_OTHER := by
  revert p a; decide

theorem render_api_skip_disabled_null (env : render_env)
    (hnull : env.render_api_disabled RENDERAPI_NULL = false) :
    ∀ (fuel : Nat) (api : render_api_t), api ≠ RENDERAPI_UNKNOWN → api ≠ RENDERAPI_OTHER →
      render_api_rank env.platform api ≤ fuel →
      ∃ a, render_api_skip_disabled env fuel api = some a ∧ a ≠ RENDERAPI_UNKNOWN ∧
        env.render_api_disabled a = false ∧
        render_api_rank env.platform a ≤ render_api_rank env.platform api ∧
        ((∀ x, x ≠ RENDERAPI_NULL → env.render_api_disabled x = true) → a = RENDERAPI_NULL) ∧
        a ≠ RENDERAPI_OTHER := by
  intro fuel
  induction fuel with
  | zero =>
    intro api hne _ hr
    have := render_api_rank_pos env.platform api hne
    omega
  | succ n ih =>
    intro api hne hno hr
    cases hd : env.render_api_disabled api with
    | false =>
      refine ⟨api, by simp [render_api_skip_disabled, hd], hne, hd, le_refl _, ?_, hno⟩
      intro hall
      by_contra hn
      rw [hall api hn] at hd
      cases hd
    | true =>
      have hnn : api ≠ RENDERAPI_NULL := by
        intro h; rw [h, hnull] at hd; cases hd
      have hrk := render_api_rank_fallback env.platform api hne
      obtain ⟨a, h1, h2, h3, h4, h5, h6⟩ :=
        ih (render_api_fallback env.platform api)
          (render_api_fallback_ne_unknown env.platform api hne hnn hno)
          (render_api_fallback_ne_other env.platform api) (by omega)
      exact ⟨a, by simp [render_api_skip_disabled, hd, h1], h2, h3, by omega, h5, h6⟩

/-! ## Allocation: building blocks -/

theorem allocator_calls_append (l l' : List render_event) :
    allocator_calls (l ++ l') = allocator_calls l ++ allocator_calls l' := by
  simp [allocator_calls, List.filterMap_append]

theorem render_backend_set_resource_platform_fields (env : render_env) (s : render_state)
    (b p : Nat) :
    (render_backend_set_resource_platform env s b p).render_backends = s.render_backends ∧
    (render_backend_set_resource_platform env s b p).next_handle = s.next_handle ∧
    (render_backend_set_resource_platform env s b p).thread_backend = s.thread_backend ∧
    (render_backend_set_resource_platform env s b p).contexts = s.contexts ∧
    (render_backend_set_resource_platform env s b p).trace = s.trace := by
  unfold render_backend_set_resource_platform
  cases s.heap b <;> simp

theorem render_backend_enable_thread_fields (s : render_state) (b : Nat) :
    (render_backend_enable_thread s b).render_backends = s.render_backends ∧
    (render_backend_enable_thread s b).next_handle = s.next_handle ∧
    (render_backend_enable_thread s b).heap = s.heap ∧
    (render_backend_enable_thread s b).contexts = s.contexts ∧
    (render_backend_enable_thread s b).thread_backend = some b ∧
    (render_backend_enable_thread s b).trace =
      s.trace ++ (match s.thread_backend with
        | some prev => if prev ≠ b then [render_event.disable_thread prev] else []
        | none => []) ++ [render_event.enable_thread b] := by
  unfold render_backend_enable_thread
  cases s.thread_backend with
  | none => simp
  | some prev => by_cases h : prev = b <;> simp [h]

/-- The tail of `render_backend_allocate`, field by field. -/
theorem render_backend_setup_fields (env : render_env) (s : render_state) (b : Nat) :
    (render_backend_setup env s b).render_backends = s.render_backends ++ [b] ∧
    (render_backend_setup env s b).next_handle = s.next_handle ∧
    (render_backend_setup env s b).thread_backend = some b ∧
    (render_backend_setup env s b).contexts = s.contexts ∧
    (render_backend_setup env s b).trace =
      s.trace ++ (match s.thread_backend with
        | some prev => if prev ≠ b then [render_event.disable_thread prev] else []
        | none => []) ++ [render_event.enable_thread b] := by
  unfold render_backend_setup
  cases hb : s.heap b <;>
    simp only [render_backend_enable_thread_fields, render_backend_set_resource_platform_fields] <;>
    simp

theorem render_backend_setup_heap (env : render_env) (s : render_state) (b : Nat)
    (inst : render_backend_t) (h : s.heap b = some inst) :
    (render_backend_setup env s b).heap b = some
      { inst with
        exclusive := true
        framebuffer := { inst.framebuffer with backend := some b }
        framecount := 1
        shadertable := some []
        programtable := some []
        texturetable := some []
        platform := env.resource_platform
          { env.resource_platform_decompose 0 with
            render_api_group := inst.api_group
            render_api := env.render_api_value inst.api } } := by
  unfold render_backend_setup
  simp only [h, (render_backend_enable_thread_fields _ _).2.2.1]
  simp [render_backend_set_resource_platform]

theorem render_backends_remove_of_not_mem (backends : List Nat) (b : Nat)
    (h : b ∉ backends) : render_backends_remove backends b = backends := by
  unfold render_backends_remove
  have : ¬ (List.indexOf b backends < backends.length) := by
    intro hlt
    exact h (List.indexOf_lt_length.mp hlt)
  simp [this]

/-- What the `switch` leaves behind when it yields a backend. -/
theorem render_backend_switch_some (env : render_env) (s s1 : render_state) (a : render_api_t)
    (b : Nat) (h : render_backend_switch env s a = (s1, some b)) :
    b = s.next_handle ∧ render_api_live a = true ∧
    ∃ inst, env.allocated a = some inst ∧
      (a = RENDERAPI_NULL ∨ inst.vtable.construct = true) ∧
      s1 = { s with heap := Function.update s.heap s.next_handle (some inst)
                    next_handle := s.next_handle + 1
                    trace := s.trace ++ [render_event.backend_allocate a (some s.next_handle),
                      render_event.construct s.next_handle inst.vtable.construct] } := by
  cases a <;> simp only [render_backend_switch, render_backend_try] at h <;>
    first
    | (simp only [Prod.mk.injEq] at h; obtain ⟨h1, h2⟩ := h; cases h2; done)
    | (simp only [Prod.mk.injEq, Option.some.injEq] at h; obtain ⟨h1, h2⟩ := h
       subst h1; subst h2
       exact ⟨rfl, rfl, _, rfl, Or.inl rfl, rfl⟩)
    | (split at h
       · simp [render_backend_deallocate] at h
       · split at h
         · simp only [Prod.mk.injEq, Option.some.injEq] at h; obtain ⟨h1, h2⟩ := h
           subst h1; subst h2
           rename_i inst heq hc
           exact ⟨rfl, rfl, inst, by simpa [render_env.allocated] using heq, Or.inr hc, rfl⟩
         · simp at h)

/-- What the `switch` leaves behind when it yields no backend: nothing was
tried, the allocator gave a null pointer, or the construct hook refused and the
instance was deallocated. -/
theorem render_backend_switch_none (env : render_env) (s s1 : render_state) (a : render_api_t)
    (h : render_backend_switch env s a = (s1, none)) :
    a ≠ RENDERAPI_NULL ∧
    ((render_api_live a = false ∧ s1 = s) ∨
     (render_api_live a = true ∧ env.allocated a = none ∧
        s1 = { s with trace := s.trace ++ [render_event.backend_allocate a none] }) ∨
     (render_api_live a = true ∧ ∃ inst, env.allocated a = some inst ∧
        inst.vtable.construct = false ∧
        s1 = render_backend_deallocate
          { s with heap := Function.update s.heap s.next_handle (some inst)
                   next_handle := s.next_handle + 1
                   trace := s.trace ++ [render_event.backend_allocate a (some s.next_handle),
                     render_event.construct s.next_handle inst.vtable.construct] }
          (some s.next_handle))) := by
  cases a <;> simp only [render_backend_switch, render_backend_try] at h <;>
    first
    | (simp only [Prod.mk.injEq] at h; obtain ⟨h1, h2⟩ := h; cases h2; done)
    | (simp only [Prod.mk.injEq, and_true] at h; subst h
       exact ⟨by decide, Or.inl ⟨rfl, rfl⟩⟩)
    | (split at h
       · rename_i heq
         simp only [render_backend_deallocate, Prod.mk.injEq, and_true] at h
         subst h
         exact ⟨by decide, Or.inr (Or.inl ⟨rfl, by simpa [render_env.allocated] using heq, rfl⟩)⟩
       · split at h
         · simp at h
         · rename_i inst heq hc
           simp only [Prod.mk.injEq, and_true] at h
           subst h
           exact ⟨by decide, Or.inr (Or.inr ⟨rfl, inst,
             by simpa [render_env.allocated] using heq, by simpa using hc, rfl⟩)⟩)

/-- Fields that the `switch` never changes, and the bounds on the next handle. -/
theorem render_backend_switch_fields (env : render_env) (s : render_state) (a : render_api_t) :
    (render_backend_switch env s a).1.thread_backend = s.thread_backend ∧
    (render_backend_switch env s a).1.contexts = s.contexts ∧
    s.next_handle ≤ (render_backend_switch env s a).1.next_handle ∧
    (s.next_handle ∉ s.render_backends →
      (render_backend_switch env s a).1.render_backends = s.render_backends) ∧
    allocator_calls (render_backend_switch env s a).1.trace =
      allocator_calls s.trace ++ (if render_api_live a = true then [a] else []) := by
  rcases hr : render_backend_switch env s a with ⟨s1, r⟩
  cases r with
  | some b =>
    obtain ⟨-, hl, inst, -, -, hs1⟩ := render_backend_switch_some env s s1 a b hr
    subst hs1
    simp [allocator_calls, hl]
  | none =>
    obtain ⟨-, h⟩ := render_backend_switch_none env s s1 a hr
    rcases h with ⟨hl, rfl⟩ | ⟨hl, -, rfl⟩ | ⟨hl, inst, -, -, rfl⟩
    · simp [hl]
    · simp [allocator_calls, hl]
    · simp only [render_backend_deallocate]
      refine ⟨trivial, trivial, by simp, ?_, by simp [allocator_calls, hl]⟩
      intro hnm
      exact render_backends_remove_of_not_mem _ _ hnm

/-- One iteration of the outer loop of `render_backend_allocate`, once the
inner loop has settled on `a`. -/
theorem render_backend_allocate_loop_succ (env : render_env) (allow : Bool) (fuel : Nat)
    (s : render_state) (api a : render_api_t)
    (hskip : render_api_skip_disabled env (fuel + 1) api = some a) :
    render_backend_allocate_loop env allow (fuel + 1) s api =
      if a = RENDERAPI_UNKNOWN then some (s, none)
      else
        match render_backend_switch env s a with
        | (s1, some backend) => some (render_backend_setup env s1 backend, some backend)
        | (s1, none) =>
          if !allow then some (s1, none)
          else render_backend_allocate_loop env allow fuel s1
                 (render_api_fallback env.platform a) := by
  simp only [render_backend_allocate_loop, hskip]

theorem render_backend_allocate_loop_null (env : render_env)
    (hnull : env.render_api_disabled RENDERAPI_NULL = false) :
    ∀ (fuel : Nat) (s : render_state) (api : render_api_t), api ≠ RENDERAPI_UNKNOWN →
      api ≠ RENDERAPI_OTHER → render_api_rank env.platform api ≤ fuel →
      ∃ s' b, render_backend_allocate_loop env true fuel s api = some (s', some b) ∧
        ((∀ x, x ≠ RENDERAPI_NULL → env.render_api_disabled x = true) →
          b = s.next_handle ∧
          s' = render_backend_setup env (render_backend_switch env s RENDERAPI_NULL).1
                 s.next_handle) := by
  intro fuel
  induction fuel with
  | zero =>
    intro s api hne _ hr
    have := render_api_rank_pos env.platform api hne
    omega
  | succ n ih =>
    intro s api hne hno hr
    obtain ⟨a, h1, h2, h3, h4, h5, h6⟩ :=
      render_api_skip_disabled_null env hnull (n + 1) api hne hno hr
    rw [render_backend_allocate_loop_succ env true n s api a h1, if_neg h2]
    rcases hsw : render_backend_switch env s a with ⟨s1, r⟩
    cases r with
    | some b =>
      refine ⟨_, b, rfl, ?_⟩
      intro hall
      have ha := h5 hall
      subst ha
      obtain ⟨hb, -⟩ := render_backend_switch_some env s s1 _ b hsw
      subst hb
      simp [hsw]
    | none =>
      obtain ⟨hnn, -⟩ := render_backend_switch_none env s s1 a hsw
      have hrk := render_api_rank_fallback env.platform a h2
      obtain ⟨s', b, hres, -⟩ := ih s1 (render_api_fallback env.platform a)
        (render_api_fallback_ne_unknown env.platform a h2 hnn h6)
        (render_api_fallback_ne_other env.platform a) (by omega)
      refine ⟨s', b, by simpa using hres, ?_⟩
      intro hall
      exact absurd (h5 hall) hnn

/-- C1, as stated, fails for a requested value that `backend.c` has no `case`
label for.  With nothing disabled, so `RENDERAPI_NULL` enabled, such a request
takes the `default:` label of the `switch`, gets no backend, falls back to
`RENDERAPI_UNKNOWN` by the `default:` label of `render_api_fallback`, and
`render_backend_allocate(api, true)` returns a null pointer without having
called an allocator.  `render_shader_compile` and `render_program_compile`
pass such values: here 5 as `platform_decl.render_api`. -/
theorem render_backend_allocate_unnamed_api_fails :
    (render_env_sample (fun _ => false) true).render_api_disabled RENDERAPI_NULL = false ∧
    RENDERAPI_OTHER ≠ RENDERAPI_UNKNOWN ∧ RENDERAPI_OTHER ≠ RENDERAPI_NUM ∧
    (render_backend_allocate (render_env_sample (fun _ => false) true) 7 render_state_initial
        RENDERAPI_OTHER true).map
      (fun x => (x.2, x.1.render_backends, x.1.thread_backend, allocator_calls x.1.trace)) =
      some (none, [], none, []) ∧
    render_api_of_value render_compile_env_more_sample.render 5 = none ∧
    (render_compile_backend render_compile_env_more_sample render_state_initial 5).map
      (fun x => x.2) = some none := by
  decide

/-- C1, amended: when `RENDERAPI_NULL` is not disabled,
`render_backend_allocate(api, true)` returns a backend for every requested API
that is one of the enumerators named in `backend.c` other than
`RENDERAPI_UNKNOWN` and `RENDERAPI_NUM`, whatever the other flags and the
outcomes of the other constructions are (seven loop iterations are enough);
and when every API but `RENDERAPI_NULL` is disabled, the backend returned is
the instance of `render_backend_null_allocate` and no other allocator has been
called. -/
theorem render_backend_allocate_fallback_reaches_null (env : render_env) (fuel : Nat)
    (s : render_state) (api : render_api_t)
    (hnull : env.render_api_disabled RENDERAPI_NULL = false)
    (hunknown : api ≠ RENDERAPI_UNKNOWN) (_ : api ≠ RENDERAPI_NUM)
    (hnamed : api ≠ RENDERAPI_OTHER) (hfuel : 7 ≤ fuel) :
    ∃ s' b, render_backend_allocate env fuel s api true = some (s', some b) ∧
      ((∀ x, x ≠ RENDERAPI_NULL → env.render_api_disabled x = true) →
        b = s.next_handle ∧
        allocator_calls s'.trace = allocator_calls s.trace ++ [RENDERAPI_NULL] ∧
        ∃ inst, s'.heap b = some inst ∧
          inst.api = env.render_backend_null_allocate.api ∧
          inst.api_group = env.render_backend_null_allocate.api_group ∧
          inst.vtable = env.render_backend_null_allocate.vtable) := by
  have hr := render_api_rank_le env.platform api
  obtain ⟨s', b, hres, hin⟩ :=
    render_backend_allocate_loop_null env hnull fuel s api hunknown hnamed (by omega)
  refine ⟨s', b, hres, ?_⟩
  intro hall
  obtain ⟨hb, hs'⟩ := hin hall
  rcases hsw : render_backend_switch env s RENDERAPI_NULL with ⟨s1, r⟩
  have hcalls := (render_backend_switch_fields env s RENDERAPI_NULL).2.2.2.2
  rw [hsw] at hs' hcalls
  have hset := render_backend_setup_fields env s1 s.next_handle
  have hheap : s1.heap s.next_handle = some env.render_backend_null_allocate := by
    simp [render_backend_switch] at hsw
    rw [← hsw.1]
    simp
  have hh := render_backend_setup_heap env s1 s.next_handle _ hheap
  subst hs'
  subst hb
  refine ⟨rfl, ?_, _, hh, rfl, rfl, rfl⟩
  rw [hset.2.2.2.2, allocator_calls_append, allocator_calls_append, hcalls]
  cases s1.thread_backend with
  | none => simp [allocator_calls, render_api_live]
  | some prev => by_cases hp : prev = s.next_handle <;> simp [allocator_calls, render_api_live, hp]

/-- A backend returned by the loop comes out of one `switch` that yielded it,
in a state reached through failed attempts only. -/
theorem render_backend_allocate_loop_some (env : render_env) (allow : Bool) :
    ∀ (fuel : Nat) (s : render_state) (api : render_api_t) (s' : render_state) (b : Nat),
      render_backend_allocate_loop env allow fuel s api = some (s', some b) →
      ∃ s0 s1 a, render_backend_switch env s0 a = (s1, some b) ∧
        s' = render_backend_setup env s1 b ∧
        s.next_handle ≤ s0.next_handle ∧
        s0.thread_backend = s.thread_backend ∧
        s0.contexts = s.contexts ∧
        ((∀ h ∈ s.render_backends, h < s.next_handle) →
          s0.render_backends = s.render_backends) := by
  intro fuel
  induction fuel with
  | zero => intro s api s' b h; simp [render_backend_allocate_loop] at h
  | succ n ih =>
    intro s api s' b h
    cases hskip : render_api_skip_disabled env (n + 1) api with
    | none => simp [render_backend_allocate_loop, hskip] at h
    | some a =>
      rw [render_backend_allocate_loop_succ env allow n s api a hskip] at h
      split at h
      · simp at h
      · rcases hsw : render_backend_switch env s a with ⟨s1, r⟩
        rw [hsw] at h
        cases r with
        | some b1 =>
          simp only [Option.some.injEq, Prod.mk.injEq] at h
          obtain ⟨h1, h2⟩ := h
          subst h2
          exact ⟨s, s1, a, hsw, h1.symm, le_refl _, rfl, rfl, fun _ => rfl⟩
        | none =>
          simp only at h
          split at h
          · simp at h
          · obtain ⟨s0, s2, a', h1, h2, h3, h4, h5, h6⟩ := ih s1 _ s' b h
            have hf := render_backend_switch_fields env s a
            rw [hsw] at hf
            refine ⟨s0, s2, a', h1, h2, le_trans hf.2.2.1 h3, h4.trans hf.1, h5.trans hf.2.1, ?_⟩
            intro hwf
            have hnm : s.next_handle ∉ s.render_backends := fun hm =>
              absurd (hwf _ hm) (lt_irrefl _)
            have hreg := hf.2.2.2.1 hnm
            simp only at hreg
            rw [← hreg]
            apply h6
            intro h hm
            rw [hreg] at hm
            exact lt_of_lt_of_le (hwf h hm) hf.2.2.1

/-- A call that returns no backend leaves the registry, the thread binding and
the contexts as they were. -/
theorem render_backend_allocate_loop_none (env : render_env) (allow : Bool) :
    ∀ (fuel : Nat) (s : render_state) (api : render_api_t) (s' : render_state),
      render_backend_allocate_loop env allow fuel s api = some (s', none) →
        s.next_handle ≤ s'.next_handle ∧
        s'.thread_backend = s.thread_backend ∧
        s'.contexts = s.contexts ∧
        ((∀ h ∈ s.render_backends, h < s.next_handle) →
          s'.render_backends = s.render_backends) := by
  intro fuel
  induction fuel with
  | zero => intro s api s' h; simp [render_backend_allocate_loop] at h
  | succ n ih =>
    intro s api s' h
    cases hskip : render_api_skip_disabled env (n + 1) api with
    | none => simp [render_backend_allocate_loop, hskip] at h
    | some a =>
      rw [render_backend_allocate_loop_succ env allow n s api a hskip] at h
      split at h
      · simp only [Option.some.injEq, Prod.mk.injEq, and_true] at h
        subst h
        exact ⟨le_refl _, rfl, rfl, fun _ => rfl⟩
      · rcases hsw : render_backend_switch env s a with ⟨s1, r⟩
        rw [hsw] at h
        have hf := render_backend_switch_fields env s a
        rw [hsw] at hf
        simp only at hf
        have hkeep : (∀ h ∈ s.render_backends, h < s.next_handle) →
            s1.render_backends = s.render_backends := fun hwf =>
          hf.2.2.2.1 (fun hm => absurd (hwf _ hm) (lt_irrefl _))
        cases r with
        | some b1 => simp at h
        | none =>
          simp only at h
          split at h
          · simp only [Option.some.injEq, Prod.mk.injEq, and_true] at h
            subst h
            exact ⟨hf.2.2.1, hf.1, hf.2.1, hkeep⟩
          · obtain ⟨h3, h4, h5, h6⟩ := ih s1 _ s' h
            refine ⟨le_trans hf.2.2.1 h3, h4.trans hf.1, h5.trans hf.2.1, ?_⟩
            intro hwf
            have hreg := hkeep hwf
            rw [← hreg]
            apply h6
            intro h hm
            rw [hreg] at hm
            exact lt_of_lt_of_le (hwf h hm) hf.2.2.1

/-! ## Allocation: construction failure -/

/-- C3, as stated, fails for `RENDERAPI_NULL`: the construct hook of the null
instance returns false, and `render_backend_allocate` (with and without
fallback) returns this very instance, registered and bound to the thread. -/
theorem render_backend_allocate_null_construct_unchecked :
    (render_env_sample (fun _ => false) false).render_backend_null_allocate.vtable.construct
        = false ∧
    (render_backend_allocate (render_env_sample (fun _ => false) false) 1 render_state_initial
        RENDERAPI_NULL false).map
      (fun r => (r.2, r.1.trace, r.1.render_backends, r.1.thread_backend)) =
      some (some 0, [render_event.backend_allocate RENDERAPI_NULL (some 0),
        render_event.construct 0 false, render_event.enable_thread 0], [0], some 0) ∧
    (render_backend_allocate (render_env_sample (fun _ => false) false) 1 render_state_initial
        RENDERAPI_NULL true).map
      (fun r => (r.2, r.1.trace, r.1.render_backends, r.1.thread_backend)) =
      some (some 0, [render_event.backend_allocate RENDERAPI_NULL (some 0),
        render_event.construct 0 false, render_event.enable_thread 0], [0], some 0) := by
  decide

/-- C3, amended: for `RENDERAPI_OPENGL2`, `RENDERAPI_OPENGL4` and
`RENDERAPI_GLES2` (not disabled), when the allocator gives a null pointer or the
construct hook returns false, the `switch` yields no backend; an instance that
was allocated is passed to `render_backend_deallocate` (destruct hook, freed);
without fallback the call returns null in that state, with fallback it goes on
with the fallback API, and whatever it returns later is not that instance. -/
theorem render_backend_allocate_construct_failure (env : render_env) (fuel : Nat)
    (s : render_state) (a : render_api_t)
    (ha : a = RENDERAPI_OPENGL2 ∨ a = RENDERAPI_OPENGL4 ∨ a = RENDERAPI_GLES2)
    (hen : env.render_api_disabled a = false)
    (hfail : ∀ inst, env.allocated a = some inst → inst.vtable.construct = false) :
    ∃ s1, render_backend_switch env s a = (s1, none) ∧
      (env.allocated a = none →
        s1 = { s with trace := s.trace ++ [render_event.backend_allocate a none] }) ∧
      (∀ inst, env.allocated a = some inst →
        s1 = render_backend_deallocate
          { s with heap := Function.update s.heap s.next_handle (some inst)
                   next_handle := s.next_handle + 1
                   trace := s.trace ++ [render_event.backend_allocate a (some s.next_handle),
                     render_event.construct s.next_handle false] }
          (some s.next_handle) ∧
        s1.heap s.next_handle = none ∧
        s1.trace = s.trace ++ [render_event.backend_allocate a (some s.next_handle),
          render_event.construct s.next_handle false, render_event.destruct s.next_handle] ∧
        ∀ s' b, render_backend_allocate env (fuel + 1) s a true = some (s', some b) →
          s.next_handle < b) ∧
      render_backend_allocate env (fuel + 1) s a false = some (s1, none) ∧
      render_backend_allocate env (fuel + 1) s a true =
        render_backend_allocate env fuel s1 (render_api_fallback env.platform a) true := by
  have hne : a ≠ RENDERAPI_UNKNOWN := by rcases ha with h | h | h <;> simp [h]
  have hskip : render_api_skip_disabled env (fuel + 1) a = some a := by
    simp [render_api_skip_disabled, hen]
  rcases hsw : render_backend_switch env s a with ⟨s1, r⟩
  cases r with
  | some b =>
    obtain ⟨-, -, inst, hi, hc, -⟩ := render_backend_switch_some env s s1 a b hsw
    rcases hc with hc | hc
    · rcases ha with h | h | h <;> simp [h] at hc
    · rw [hfail inst hi] at hc; cases hc
  | none =>
    have hF : render_backend_allocate env (fuel + 1) s a false = some (s1, none) := by
      simp [render_backend_allocate, render_backend_allocate_loop_succ env false fuel s a a hskip,
        hne, hsw]
    have hT : render_backend_allocate env (fuel + 1) s a true =
        render_backend_allocate env fuel s1 (render_api_fallback env.platform a) true := by
      simp [render_backend_allocate, render_backend_allocate_loop_succ env true fuel s a a hskip,
        hne, hsw]
    refine ⟨s1, rfl, ?_, ?_, hF, hT⟩
    · intro hnone
      obtain ⟨-, h⟩ := render_backend_switch_none env s s1 a hsw
      rcases h with ⟨hl, -⟩ | ⟨-, -, h⟩ | ⟨-, inst, hi, -, -⟩
      · rcases ha with h | h | h <;> simp [h, render_api_live] at hl
      · exact h
      · rw [hnone] at hi; cases hi
    · intro inst hinst
      obtain ⟨-, h⟩ := render_backend_switch_none env s s1 a hsw
      rcases h with ⟨hl, -⟩ | ⟨-, hn, -⟩ | ⟨-, inst', hi, hc, h⟩
      · rcases ha with h | h | h <;> simp [h, render_api_live] at hl
      · rw [hinst] at hn; cases hn
      · rw [hinst] at hi
        cases hi
        rw [hc] at h
        refine ⟨h, ?_, ?_, ?_⟩
        · rw [h]; simp [render_backend_deallocate]
        · rw [h]; simp [render_backend_deallocate]
        · intro s' b hres
          rw [hT] at hres
          obtain ⟨s0, s2, a', h1, -, h3, -⟩ :=
            render_backend_allocate_loop_some env true fuel s1 _ s' b hres
          obtain ⟨hb, -⟩ := render_backend_switch_some env s0 s2 a' b h1
          have : s1.next_handle = s.next_handle + 1 := by
            rw [h]; simp [render_backend_deallocate]
          omega

/-- C3 at a concrete input: OpenGL 4 whose construct hook refuses. -/
theorem render_backend_allocate_construct_failure_witness :
    ∃ s1, render_backend_switch (render_env_sample (fun _ => false) true) render_state_initial
        RENDERAPI_OPENGL4 = (s1, none) ∧
      render_backend_allocate (render_env_sample (fun _ => false) true) (6 + 1)
        render_state_initial RENDERAPI_OPENGL4 false = some (s1, none) :=
  (render_backend_allocate_construct_failure (render_env_sample (fun _ => false) true) 6
    render_state_initial RENDERAPI_OPENGL4 (Or.inr (Or.inl rfl)) rfl
    (by intro inst h
        simp only [render_env.allocated, render_env_sample, Option.some.injEq] at h
        subst h; rfl)).imp
    (fun _ h => ⟨h.1, h.2.2.2.1⟩)

/-! ## Allocation without fallback -/

/-- The inner loop stops at the first API of the fallback chain that is not
disabled. -/
theorem render_api_skip_disabled_first (env : render_env) :
    ∀ (k fuel : Nat) (api : render_api_t),
      env.render_api_disabled ((render_api_fallback env.platform)^[k] api) = false →
      (∀ j, j < k → env.render_api_disabled ((render_api_fallback env.platform)^[j] api) = true) →
      k < fuel →
      render_api_skip_disabled env fuel api = some ((render_api_fallback env.platform)^[k] api) := by
  intro k
  induction k with
  | zero =>
    intro fuel api hk _ hfuel
    obtain ⟨n, rfl⟩ : ∃ n, fuel = n + 1 := ⟨fuel - 1, by omega⟩
    simp only [Function.iterate_zero, id_eq] at hk
    simp [render_api_skip_disabled, hk]
  | succ k ih =>
    intro fuel api hk hfirst hfuel
    obtain ⟨n, rfl⟩ : ∃ n, fuel = n + 1 := ⟨fuel - 1, by omega⟩
    have h0 : env.render_api_disabled api = true := by
      simpa using hfirst 0 (Nat.succ_pos k)
    simp only [render_api_skip_disabled, h0, if_true, Function.iterate_succ_apply]
    apply ih
    · simpa [Function.iterate_succ_apply] using hk
    · intro j hj
      have := hfirst (j + 1) (by omega)
      simpa [Function.iterate_succ_apply] using this
    · omega

/-- C4, as stated, fails when the first API that is not disabled is
`RENDERAPI_NULL`: `RENDERAPI_PS3` is disabled and falls back to
`RENDERAPI_NULL`, the construct hook of the null instance returns false, and
`render_backend_allocate(RENDERAPI_PS3, false)` still returns that instance. -/
theorem render_backend_allocate_no_fallback_null_unchecked :
    (render_env_sample (fun a => decide (a = RENDERAPI_PS3)) false).render_api_disabled
        RENDERAPI_PS3 = true ∧
    render_api_fallback (render_env_sample (fun a => decide (a = RENDERAPI_PS3)) false).platform
        RENDERAPI_PS3 = RENDERAPI_NULL ∧
    (render_env_sample (fun a => decide (a = RENDERAPI_PS3)) false).render_api_disabled
        RENDERAPI_NULL = false ∧
    (render_env_sample (fun a => decide (a = RENDERAPI_PS3))
        false).render_backend_null_allocate.vtable.construct = false ∧
    (render_backend_allocate (render_env_sample (fun a => decide (a = RENDERAPI_PS3)) false) 2
        render_state_initial RENDERAPI_PS3 false).map (fun r => (r.2, r.1.trace)) =
      some (some 0, [render_event.backend_allocate RENDERAPI_NULL (some 0),
        render_event.construct 0 false, render_event.enable_thread 0]) := by
  decide

/-- C4, amended: with `allow_fallback = false`, `render_backend_allocate` returns
after one pass of the `switch`, taken at the first API `a` of the fallback
chain that is not disabled: at most the allocator of `a` is called, and the
call returns no backend exactly when `a` has no allocator or, for an API other
than `RENDERAPI_NULL`, the allocator gives a null pointer or the construct hook
returns false; when `a` has no allocator the state is left as it was. -/
theorem render_backend_allocate_no_fallback (env : render_env) (fuel : Nat)
    (s : render_state) (api : render_api_t) (k : Nat)
    (hk : env.render_api_disabled ((render_api_fallback env.platform)^[k] api) = false)
    (hfirst : ∀ j, j < k →
      env.render_api_disabled ((render_api_fallback env.platform)^[j] api) = true)
    (hfuel : k < fuel) :
    ∃ s' r, render_backend_allocate env fuel s api false = some (s', r) ∧
      allocator_calls s'.trace = allocator_calls s.trace ++
        (if render_api_live ((render_api_fallback env.platform)^[k] api) = true
          then [(render_api_fallback env.platform)^[k] api] else []) ∧
      (r = none ↔
        (render_api_live ((render_api_fallback env.platform)^[k] api) = false ∨
          ((render_api_fallback env.platform)^[k] api ≠ RENDERAPI_NULL ∧
            ∀ inst, env.allocated ((render_api_fallback env.platform)^[k] api) = some inst →
              inst.vtable.construct = false))) ∧
      (render_api_live ((render_api_fallback env.platform)^[k] api) = false → s' = s) := by
  obtain ⟨n, rfl⟩ : ∃ n, fuel = n + 1 := ⟨fuel - 1, by omega⟩
  have hskip := render_api_skip_disabled_first env k (n + 1) api hk hfirst hfuel
  generalize (render_api_fallback env.platform)^[k] api = a at hskip hk ⊢
  unfold render_backend_allocate
  rw [render_backend_allocate_loop_succ env false n s api a hskip]
  by_cases hu : a = RENDERAPI_UNKNOWN
  · subst hu
    exact ⟨s, none, by simp, by simp [render_api_live], by simp [render_api_live], fun _ => rfl⟩
  · rw [if_neg hu]
    have hf := (render_backend_switch_fields env s a).2.2.2.2
    rcases hsw : render_backend_switch env s a with ⟨s1, r⟩
    rw [hsw] at hf
    simp only at hf
    cases r with
    | some b =>
      obtain ⟨-, hl, inst, hi, hc, -⟩ := render_backend_switch_some env s s1 a b hsw
      refine ⟨_, some b, rfl, ?_, ?_, ?_⟩
      · have hset := (render_backend_setup_fields env s1 b).2.2.2.2
        rw [hset, allocator_calls_append, allocator_calls_append, hf]
        cases s1.thread_backend with
        | none => simp [allocator_calls]
        | some prev => by_cases hp : prev = b <;> simp [allocator_calls, hp]
      · simp only [reduceCtorEq, false_iff, not_or, not_and, not_forall]
        refine ⟨by simp [hl], ?_⟩
        intro hnn
        rcases hc with hc | hc
        · exact absurd hc hnn
        · exact ⟨inst, hi, by simp [hc]⟩
      · intro hl'; rw [hl] at hl'; cases hl'
    | none =>
      obtain ⟨hnn, h⟩ := render_backend_switch_none env s s1 a hsw
      refine ⟨s1, none, by simp, hf, ?_, ?_⟩
      · simp only [true_iff]
        rcases h with ⟨hl, -⟩ | ⟨-, hn, -⟩ | ⟨-, inst, hi, hc, -⟩
        · exact Or.inl hl
        · exact Or.inr ⟨hnn, by intro inst hi; rw [hn] at hi; cases hi⟩
        · refine Or.inr ⟨hnn, ?_⟩
          intro inst' hi'
          rw [hi] at hi'
          cases hi'
          exact hc
      · intro hl
        rcases h with ⟨-, h⟩ | ⟨hl', -, -⟩ | ⟨hl', -⟩
        · exact h
        · rw [hl] at hl'; cases hl'
        · rw [hl] at hl'; cases hl'

/-- C4 at a concrete input: `RENDERAPI_DEFAULT` and `RENDERAPI_OPENGL` disabled,
so the chain from `RENDERAPI_DEFAULT` stops at OpenGL 4, whose construction
fails; nothing else is tried. -/
theorem render_backend_allocate_no_fallback_witness :
    ∃ s' r, render_backend_allocate
        (render_env_sample (fun a => decide (a = RENDERAPI_DEFAULT ∨ a = RENDERAPI_OPENGL)) true)
        3 render_state_initial RENDERAPI_DEFAULT false = some (s', r) ∧
      allocator_calls s'.trace = [RENDERAPI_OPENGL4] :=
  (render_backend_allocate_no_fallback
    (render_env_sample (fun a => decide (a = RENDERAPI_DEFAULT ∨ a = RENDERAPI_OPENGL)) true)
    3 render_state_initial RENDERAPI_DEFAULT 2 (by decide) (by decide) (by decide)).imp
    (fun _ h => h.imp (fun _ h' => ⟨h'.1, h'.2.1⟩))

/-! ## Allocation: the backend returned -/

/-- C5: a backend `b` returned by `render_backend_allocate` has frame counter 1,
is the current backend of the calling thread, its enable-thread hook being the
last hook called, and carries the platform tag
`resource_platform(decl)` where `decl` is `resource_platform_decompose(0)` with
`render_api_group` and `render_api` replaced by those of `b`, which is the tag
that `render_backend_set_resource_platform(b, 0)` sets. -/
theorem render_backend_allocate_returned (env : render_env) (fuel : Nat) (s : render_state)
    (api : render_api_t) (allow_fallback : Bool) (s' : render_state) (b : Nat)
    (h : render_backend_allocate env fuel s api allow_fallback = some (s', some b)) :
    ∃ inst, s'.heap b = some inst ∧
      inst.framecount = 1 ∧
      s'.thread_backend = some b ∧
      s'.trace.getLast? = some (render_event.enable_thread b) ∧
      inst.platform = env.resource_platform
        { env.resource_platform_decompose 0 with
          render_api_group := inst.api_group
          render_api := env.render_api_value inst.api } ∧
      (render_backend_set_resource_platform env s' b 0).heap b = some inst := by
  obtain ⟨s0, s1, a, hsw, hs', -⟩ :=
    render_backend_allocate_loop_some env allow_fallback fuel s api s' b h
  obtain ⟨hb, -, inst, -, -, hs1⟩ := render_backend_switch_some env s0 s1 a b hsw
  have hheap : s1.heap b = some inst := by rw [hs1, hb]; simp
  have hh := render_backend_setup_heap env s1 b inst hheap
  have hf := render_backend_setup_fields env s1 b
  rw [← hs'] at hh hf
  refine ⟨_, hh, rfl, hf.2.2.1, ?_, rfl, ?_⟩
  · rw [hf.2.2.2.2]; simp
  · simp only [render_backend_set_resource_platform, hh]
    simp

/-- C5 at a concrete input: the null backend allocated in the initial state. -/
theorem render_backend_allocate_returned_witness :
    ∃ inst, render_state_sample.heap 0 = some inst ∧ inst.framecount = 1 ∧
      render_state_sample.thread_backend = some 0 ∧
      render_state_sample.trace.getLast? = some (render_event.enable_thread 0) :=
  (render_backend_allocate_returned (render_env_sample (fun _ => false) true) 1
    render_state_initial RENDERAPI_NULL false render_state_sample 0 rfl).imp
    (fun _ h => ⟨h.1, h.2.1, h.2.2.1, h.2.2.2.1⟩)

/-- C1 at a concrete input: every API but `RENDERAPI_NULL` disabled, request
`RENDERAPI_DEFAULT` with fallback. -/
theorem render_backend_allocate_fallback_reaches_null_witness :
    ∃ s' b, render_backend_allocate
        (render_env_sample (fun a => decide (a ≠ RENDERAPI_NULL)) true) 7
        render_state_initial RENDERAPI_DEFAULT true = some (s', some b) :=
  (render_backend_allocate_fallback_reaches_null
    (render_env_sample (fun a => decide (a ≠ RENDERAPI_NULL)) true) 7
    render_state_initial RENDERAPI_DEFAULT (by decide) (by decide) (by decide) (by decide)
    (by decide)).imp
    (fun _ h => h.imp (fun _ h' => h'.1))

/-- C2: on every platform and from every API value, at most 7 applications of
`render_api_fallback` lead to `RENDERAPI_UNKNOWN`, the values passed before it
are pairwise distinct, and `RENDERAPI_NULL` or `RENDERAPI_UNKNOWN` is reached
within 6 applications; `RENDERAPI_UNKNOWN` is the only value mapped to itself,
and `RENDERAPI_NULL` is mapped to `RENDERAPI_UNKNOWN`. -/
theorem render_api_fallback_chain_ends :
    ∀ (p : foundation_platform_t) (a : render_api_t),
      (∃ n, n < 8 ∧ (render_api_fallback p)^[n] a = RENDERAPI_UNKNOWN ∧
        (∀ k, k < n → (render_api_fallback p)^[k] a ≠ RENDERAPI_UNKNOWN) ∧
        ((List.range n).map (fun k => (render_api_fallback p)^[k] a)).Nodup) ∧
      (∃ n, n < 7 ∧ ((render_api_fallback p)^[n] a = RENDERAPI_NULL ∨
        (render_api_fallback p)^[n] a = RENDERAPI_UNKNOWN)) ∧
      (render_api_fallback p a = a ↔ a = RENDERAPI_UNKNOWN) ∧
      render_api_fallback p RENDERAPI_NULL = RENDERAPI_UNKNOWN := by
  decide

/-! ## The registry -/

theorem array_erase_perm (l : List Nat) : ∀ pos, (array_erase l pos).Perm (l.eraseIdx pos) := by
  induction l with
  | nil => intro pos; simp [array_erase]
  | cons x xs ih =>
    intro pos
    cases pos with
    | zero =>
      simp only [array_erase, List.eraseIdx_cons_zero]
      cases hl : xs.getLast? with
      | none =>
        rw [List.getLast?_eq_none_iff] at hl
        simp [hl]
      | some last =>
        have := List.dropLast_append_getLast? (l := xs) last (by simp [hl])
        simp only
        conv_rhs => rw [← this]
        exact (List.perm_append_singleton last xs.dropLast).symm
    | succ n =>
      simp only [array_erase, List.eraseIdx_cons_succ]
      exact (ih n).cons x

theorem erase_eq_eraseIdx_indexOf (l : List Nat) (b : Nat) :
    l.erase b = l.eraseIdx (l.indexOf b) := by
  induction l with
  | nil => simp
  | cons x xs ih =>
    by_cases h : x = b
    · subst h; simp
    · rw [List.erase_cons_tail (by simpa using h), List.indexOf_cons_ne _ h,
        List.eraseIdx_cons_succ, ih]

theorem render_backends_remove_perm (l : List Nat) (b : Nat) :
    (render_backends_remove l b).Perm (l.erase b) := by
  unfold render_backends_remove
  rw [erase_eq_eraseIdx_indexOf]
  split
  · exact array_erase_perm l _
  · rename_i h
    rw [List.eraseIdx_of_length_le (by omega)]

theorem render_backend_allocate_some_registry (env : render_env) (fuel : Nat)
    (s : render_state) (api : render_api_t) (allow : Bool) (s' : render_state) (b : Nat)
    (hwf : ∀ h ∈ s.render_backends, h < s.next_handle)
    (h : render_backend_allocate env fuel s api allow = some (s', some b)) :
    s.next_handle ≤ b ∧ b < s'.next_handle ∧ s'.render_backends = s.render_backends ++ [b] := by
  obtain ⟨s0, s1, a, hsw, hs', h3, -, -, h6⟩ :=
    render_backend_allocate_loop_some env allow fuel s api s' b h
  obtain ⟨hb, -, inst, -, -, hs1⟩ := render_backend_switch_some env s0 s1 a b hsw
  have hf := render_backend_setup_fields env s1 b
  rw [← hs'] at hf
  refine ⟨by omega, ?_, ?_⟩
  · rw [hf.2.1, hs1]; simp; omega
  · rw [hf.1, hs1]; simp [h6 hwf]

theorem render_backend_allocate_none_registry (env : render_env) (fuel : Nat)
    (s : render_state) (api : render_api_t) (allow : Bool) (s' : render_state)
    (hwf : ∀ h ∈ s.render_backends, h < s.next_handle)
    (h : render_backend_allocate env fuel s api allow = some (s', none)) :
    s.next_handle ≤ s'.next_handle ∧ s'.render_backends = s.render_backends := by
  obtain ⟨h1, -, -, h4⟩ := render_backend_allocate_loop_none env allow fuel s api s' h
  exact ⟨h1, h4 hwf⟩

/-- The registry invariant along a run: no entry twice, every entry below the
next handle, and the same members as the list of live backends. -/
theorem registry_run_invariant :
    ∀ (calls : List registry_call) (s : render_state) (live : List Nat) (s' : render_state)
      (live' : List Nat),
      s.render_backends.Nodup → (∀ h ∈ s.render_backends, h < s.next_handle) →
      (∀ b, b ∈ s.render_backends ↔ b ∈ live) →
      registry_run calls (s, live) = some (s', live') →
      s'.render_backends.Nodup ∧ (∀ h ∈ s'.render_backends, h < s'.next_handle) ∧
      (∀ b, b ∈ s'.render_backends ↔ b ∈ live') := by
  intro calls
  induction calls with
  | nil =>
    intro s live s' live' h1 h2 h3 hrun
    simp only [registry_run, Option.some.injEq, Prod.mk.injEq] at hrun
    obtain ⟨rfl, rfl⟩ := hrun
    exact ⟨h1, h2, h3⟩
  | cons c calls ih =>
    intro s live s' live' h1 h2 h3 hrun
    cases c with
    | allocate env fuel api allow =>
      simp only [registry_run] at hrun
      cases hres : render_backend_allocate env fuel s api allow with
      | none => rw [hres] at hrun; simp at hrun
      | some res =>
        obtain ⟨s1, r⟩ := res
        rw [hres] at hrun
        cases r with
        | some b =>
          simp only at hrun
          obtain ⟨ha, hb, hc⟩ :=
            render_backend_allocate_some_registry env fuel s api allow s1 b h2 hres
          have hnm : b ∉ s.render_backends := fun hm => by
            have := h2 b hm; omega
          refine ih s1 (b :: live) s' live' ?_ ?_ ?_ hrun
          · rw [hc]
            exact List.Nodup.append h1 (List.nodup_singleton b)
              (by simpa [List.disjoint_singleton] using hnm)
          · intro h hm
            rw [hc, List.mem_append, List.mem_singleton] at hm
            rcases hm with hm | rfl
            · have := h2 h hm; omega
            · exact hb
          · intro x
            rw [hc, List.mem_append, List.mem_singleton, List.mem_cons, h3 x]
            tauto
        | none =>
          simp only at hrun
          obtain ⟨ha, hc⟩ := render_backend_allocate_none_registry env fuel s api allow s1 h2 hres
          refine ih s1 live s' live' ?_ ?_ ?_ hrun
          · rw [hc]; exact h1
          · intro h hm
            rw [hc] at hm
            have := h2 h hm; omega
          · intro x; rw [hc]; exact h3 x
    | deallocate backend =>
      simp only [registry_run] at hrun
      cases backend with
      | none =>
        refine ih s live s' live' h1 h2 h3 ?_
        simpa [render_backend_deallocate] using hrun
      | some b =>
        have hp := render_backends_remove_perm s.render_backends b
        refine ih _ _ s' live' ?_ ?_ ?_ hrun
        · simp only [render_backend_deallocate]
          exact hp.nodup_iff.mpr (h1.erase b)
        · intro h hm
          simp only [render_backend_deallocate] at hm ⊢
          exact h2 h (List.mem_of_mem_erase (hp.mem_iff.mp hm))
        · intro x
          simp only [render_backend_deallocate]
          rw [hp.mem_iff, h1.mem_erase_iff, List.mem_filter, h3 x]
          simp only [ne_eq, Option.some.injEq, decide_not, Bool.not_eq_true', decide_eq_false_iff_not]
          tauto

/-- C6: after any sequence of `render_backend_allocate` and
`render_backend_deallocate` calls from the initial state, `_render_backends`
holds no entry twice and holds exactly the backends that were returned by an
allocate call and not passed to deallocate since.  From such a state: a
successful allocate appends the returned backend, which was no entry before,
and keeps the other entries; a failed allocate leaves the array as it was;
`render_backend_deallocate(b)` leaves a permutation of the array with `b`
erased, so `b` is gone and every other entry is kept; and
`render_backend_deallocate(null)` changes nothing. -/
theorem render_backends_hold_live_backends (calls : List registry_call) (s : render_state)
    (live : List Nat)
    (hrun : registry_run calls (render_state_initial, []) = some (s, live)) :
    s.render_backends.Nodup ∧ (∀ b, b ∈ s.render_backends ↔ b ∈ live) ∧
    (∀ env fuel api allow s' b,
      render_backend_allocate env fuel s api allow = some (s', some b) →
        b ∉ s.render_backends ∧ s'.render_backends = s.render_backends ++ [b]) ∧
    (∀ env fuel api allow s',
      render_backend_allocate env fuel s api allow = some (s', none) →
        s'.render_backends = s.render_backends) ∧
    (∀ b, ((render_backend_deallocate s (some b)).render_backends).Perm
          (s.render_backends.erase b) ∧
        b ∉ (render_backend_deallocate s (some b)).render_backends ∧
        ∀ x, x ≠ b → (x ∈ (render_backend_deallocate s (some b)).render_backends ↔
          x ∈ s.render_backends)) ∧
    render_backend_deallocate s none = s := by
  obtain ⟨h1, h2, h3⟩ := registry_run_invariant calls render_state_initial [] s live
    (by simp [render_state_initial]) (by simp [render_state_initial])
    (by simp [render_state_initial]) hrun
  refine ⟨h1, h3, ?_, ?_, ?_, rfl⟩
  · intro env fuel api allow s' b hres
    obtain ⟨ha, -, hc⟩ := render_backend_allocate_some_registry env fuel s api allow s' b h2 hres
    exact ⟨fun hm => by have := h2 b hm; omega, hc⟩
  · intro env fuel api allow s' hres
    exact (render_backend_allocate_none_registry env fuel s api allow s' h2 hres).2
  · intro b
    have hp := render_backends_remove_perm s.render_backends b
    simp only [render_backend_deallocate]
    refine ⟨hp, ?_, ?_⟩
    · rw [hp.mem_iff, h1.mem_erase_iff]; simp
    · intro x hx
      rw [hp.mem_iff, h1.mem_erase_iff]; simp [hx]

/-- C6 at a concrete run: two backends allocated (handles 1 and 2; handle 0 was
the OpenGL 4 instance that failed to construct), one failed request, backend 1
deallocated. -/
theorem render_backends_hold_live_backends_witness :
    registry_run_sample.1.render_backends = [2] ∧ registry_run_sample.2 = [2] ∧
    registry_run_sample.1.render_backends.Nodup ∧
    (∀ b, b ∈ registry_run_sample.1.render_backends ↔ b ∈ registry_run_sample.2) :=
  ⟨by decide, by decide,
    (render_backends_hold_live_backends registry_calls_sample registry_run_sample.1
      registry_run_sample.2 rfl).1,
    (render_backends_hold_live_backends registry_calls_sample registry_run_sample.1
      registry_run_sample.2 rfl).2.1⟩

/-! ## Render contexts: one call -/

theorem wrap_int32_of_range (v : Int) (h1 : -2147483648 ≤ v) (h2 : v ≤ 2147483647) :
    wrap_int32 v = v := by
  unfold wrap_int32
  omega

/-- The fetch-and-increment with its assertion, case by case. -/
theorem render_context_fetch_eq (context : render_context_t) :
    render_context_fetch context =
      ({ context with reserved := wrap_int32 (context.reserved + 1) },
        if context.reserved < context.allocated then
          if context.reserved < 0 then Except.error render_fault.out_of_bounds
          else Except.ok context.reserved.toNat
        else Except.error (render_fault.assertion "Render command overallocation")) := by
  unfold render_context_fetch atomic_exchange_and_add32 FOUNDATION_ASSERT_MSG
  by_cases h : context.reserved < context.allocated
  · by_cases h' : context.reserved < 0 <;> simp [h, h']
  · simp [h]

/-- C8: `render_context_reserve` and `render_context_queue` stop at the assertion
"Render command overallocation" exactly when the counter before the increment
is not below the capacity, and then neither `keys` nor `commands` is written;
in particular on a context whose counter equals its capacity. -/
theorem render_context_overallocation (context : render_context_t) (sort : Nat)
    (command : render_command_t) :
    ((render_context_reserve context sort).2 =
        Except.error (render_fault.assertion "Render command overallocation") ↔
      ¬ context.reserved < context.allocated) ∧
    ((render_context_queue context command sort).2 =
        Except.error (render_fault.assertion "Render command overallocation") ↔
      ¬ context.reserved < context.allocated) ∧
    (¬ context.reserved < context.allocated →
      (render_context_reserve context sort).1.keys = context.keys ∧
      (render_context_reserve context sort).1.commands = context.commands ∧
      (render_context_queue context command sort).1.keys = context.keys ∧
      (render_context_queue context command sort).1.commands = context.commands) ∧
    (context.reserved = context.allocated →
      (render_context_reserve context sort).2 =
        Except.error (render_fault.assertion "Render command overallocation") ∧
      (render_context_queue context command sort).2 =
        Except.error (render_fault.assertion "Render command overallocation") ∧
      (render_context_reserve context sort).1.keys = context.keys ∧
      (render_context_reserve context sort).1.commands = context.commands ∧
      (render_context_queue context command sort).1.keys = context.keys ∧
      (render_context_queue context command sort).1.commands = context.commands) := by
  unfold render_context_reserve render_context_queue
  rw [render_context_fetch_eq]
  by_cases h : context.reserved < context.allocated
  · have hne : context.reserved ≠ context.allocated := ne_of_lt h
    by_cases h' : context.reserved < 0 <;> simp [h, h', hne]
  · simp [h]

/-- C8 at a concrete input: capacity 2, two reservations held. -/
theorem render_context_overallocation_witness :
    (render_context_reserve (render_context_sample 2 2) 5).2 =
        Except.error (render_fault.assertion "Render command overallocation") ∧
    (render_context_reserve (render_context_sample 2 2) 5).1.keys 2 = 0 :=
  ⟨((render_context_overallocation (render_context_sample 2 2) 5 ⟨1⟩).2.2.2 rfl).1,
   congrFun ((render_context_overallocation (render_context_sample 2 2) 5 ⟨1⟩).2.2.2 rfl).2.2.1 2⟩

/-! ## Render contexts: dispatch and the counter invariant -/

theorem render_backend_dispatch_fold (contexts : List Nat) :
    ∀ (s : render_state),
      let s' := contexts.foldl
        (fun s c => { s with contexts := Function.update s.contexts c
                                           { s.contexts c with reserved := 0 } }) s
      s'.trace = s.trace ∧ s'.render_backends = s.render_backends ∧ s'.heap = s.heap ∧
      s'.next_handle = s.next_handle ∧ s'.thread_backend = s.thread_backend ∧
      (∀ c, c ∈ contexts → s'.contexts c = { s.contexts c with reserved := 0 }) ∧
      (∀ c, c ∉ contexts → s'.contexts c = s.contexts c) := by
  induction contexts with
  | nil => intro s; simp
  | cons x xs ih =>
    intro s
    simp only [List.foldl_cons]
    obtain ⟨h1, h2, h3, h4, h5, h6, h7⟩ := ih
      { s with contexts := Function.update s.contexts x { s.contexts x with reserved := 0 } }
    refine ⟨h1, h2, h3, h4, h5, ?_, ?_⟩
    · intro c hc
      by_cases hx : c ∈ xs
      · rw [h6 c hx]
        by_cases hcx : c = x
        · subst hcx; simp
        · simp [Function.update_noteq hcx]
      · have hcx : c = x := by
          rcases List.mem_cons.mp hc with h | h
          · exact h
          · exact absurd h hx
        subst hcx
        rw [h7 c hx]
        simp
    · intro c hc
      have hcx : c ≠ x := fun h => hc (by simp [h])
      have hx : c ∉ xs := fun h => hc (by simp [h])
      rw [h7 c hx]
      simp [Function.update_noteq hcx]

/-- C10: `render_backend_dispatch` calls the dispatch hook once, with the whole
array, and changes nothing else but the counters: every context of the array
then has `reserved = 0` (capacity, keys and commands as before), so
`render_context_reserved` reads 0 and the next fetch-and-increment obtains
index 0, which `render_context_reserve` and `render_context_queue` return when
the capacity is positive; a context that is not in the array is as before. -/
theorem render_backend_dispatch_resets (s : render_state) (backend : Nat) (target : Option Nat)
    (contexts : List Nat) :
    (render_backend_dispatch s backend target contexts).trace =
      s.trace ++ [render_event.dispatch backend target contexts] ∧
    (∀ c, c ∈ contexts →
      (render_backend_dispatch s backend target contexts).contexts c =
        { s.contexts c with reserved := 0 } ∧
      render_context_reserved ((render_backend_dispatch s backend target contexts).contexts c)
        = 0 ∧
      (atomic_exchange_and_add32
        ((render_backend_dispatch s backend target contexts).contexts c).reserved 1).1 = 0 ∧
      (0 < (s.contexts c).allocated → ∀ sort command,
        (render_context_reserve
          ((render_backend_dispatch s backend target contexts).contexts c) sort).2
            = Except.ok 0 ∧
        (render_context_queue
          ((render_backend_dispatch s backend target contexts).contexts c) command sort).2
            = Except.ok 0)) ∧
    (∀ c, c ∉ contexts →
      (render_backend_dispatch s backend target contexts).contexts c = s.contexts c) ∧
    (render_backend_dispatch s backend target contexts).render_backends = s.render_backends ∧
    (render_backend_dispatch s backend target contexts).thread_backend = s.thread_backend := by
  obtain ⟨h1, h2, -, -, h5, h6, h7⟩ := render_backend_dispatch_fold contexts
    { s with trace := s.trace ++ [render_event.dispatch backend target contexts] }
  simp only at h1 h2 h5 h6 h7
  unfold render_backend_dispatch
  refine ⟨h1, ?_, h7, h2, h5⟩
  intro c hc
  rw [h6 c hc]
  refine ⟨rfl, by simp [render_context_reserved], by simp [atomic_exchange_and_add32], ?_⟩
  intro hpos sort command
  simp [render_context_reserve, render_context_queue, render_context_fetch_eq, hpos]

/-- C10 at a concrete input: contexts 0 and 1 dispatched, context 2 left out. -/
theorem render_backend_dispatch_resets_witness :
    ((render_backend_dispatch render_state_contexts_sample 0 none [0, 1]).contexts 0).reserved
      = 0 ∧
    ((render_backend_dispatch render_state_contexts_sample 0 none [0, 1]).contexts 2).reserved
      = 1 ∧
    (render_context_reserve
      ((render_backend_dispatch render_state_contexts_sample 0 none [0, 1]).contexts 1) 9).2
        = Except.ok 0 :=
  ⟨congrArg render_context_t.reserved
      ((render_backend_dispatch_resets render_state_contexts_sample 0 none [0, 1]).2.1 0
        (by decide)).1,
    congrArg render_context_t.reserved
      ((render_backend_dispatch_resets render_state_contexts_sample 0 none [0, 1]).2.2.1 2
        (by decide)),
    (((render_backend_dispatch_resets render_state_contexts_sample 0 none [0, 1]).2.1 1
        (by decide)).2.2.2 (by decide) 9 ⟨0⟩).1⟩

/-- C9, as stated, fails: a context of capacity 1 with 1 reservation satisfies
`reserved <= allocated`; `render_context_reserve` and `render_context_queue`
increment the counter before the assertion, so the context they leave behind
has `reserved = 2 > 1 = allocated`.  It also fails right after
`render_context_allocate` for a capacity above `INT32_MAX` that passes the
assertion: 3000000000 is stored as -1294967296, below the counter 0. -/
theorem render_context_reserve_breaks_invariant :
    (render_context_sample 1 1).reserved ≤ (render_context_sample 1 1).allocated ∧
    (render_context_reserve (render_context_sample 1 1) 0).1.reserved = 2 ∧
    (render_context_reserve (render_context_sample 1 1) 0).1.allocated = 1 ∧
    ¬ (render_context_reserve (render_context_sample 1 1) 0).1.reserved ≤
        (render_context_reserve (render_context_sample 1 1) 0).1.allocated ∧
    ¬ (render_context_queue (render_context_sample 1 1) ⟨0⟩ 0).1.reserved ≤
        (render_context_queue (render_context_sample 1 1) ⟨0⟩ 0).1.allocated ∧
    (render_context_allocate 4294967295 (fun _ => 0) (fun _ => ⟨0⟩) 3000000000).toOption.map
      (fun context => (context.reserved, context.allocated)) = some (0, -1294967296) := by
  refine ⟨by decide, by decide, by decide, by decide, by decide, ?_⟩
  unfold render_context_allocate FOUNDATION_ASSERT_MSG
  rw [if_pos (by norm_num)]
  simp only [Except.toOption, Option.map, wrap_int32]
  norm_num

/-- C9, amended: `reserved <= allocated` holds after `render_context_allocate`
for a requested capacity of at most `INT32_MAX` (`reserved = 0`, `allocated`
the requested capacity); a call of `render_context_reserve` or
`render_context_queue` made while the counter is below the capacity (both being
`int32_t` values) keeps it and leaves the capacity alone; the counter reset of
`render_backend_dispatch` keeps it for every context, the capacity being
non-negative; and a call of `render_context_reserve` or `render_context_queue`
made with the counter at or above the capacity stops at the assertion after
the counter has been stored incremented by one and wrapped to `int32_t`, which
leaves it above the capacity unless the counter was `INT32_MAX`, where it
becomes `INT32_MIN`. -/
theorem render_context_reserved_le_allocated :
    (∀ (radixsort_index_max : Nat) (keys : Nat → Nat) (block : Nat → render_command_t)
        (commands : Nat) (context : render_context_t),
      commands ≤ 2147483647 →
      render_context_allocate radixsort_index_max keys block commands = Except.ok context →
        context.reserved = 0 ∧ context.allocated = commands ∧
        context.reserved ≤ context.allocated ∧ context.allocated ≤ 2147483647) ∧
    (∀ (context : render_context_t) (sort : Nat) (command : render_command_t),
      context.reserved < context.allocated → -2147483648 ≤ context.reserved →
      context.allocated ≤ 2147483647 →
        (render_context_reserve context sort).1.reserved ≤
          (render_context_reserve context sort).1.allocated ∧
        (render_context_reserve context sort).1.allocated = context.allocated ∧
        (render_context_queue context command sort).1.reserved ≤
          (render_context_queue context command sort).1.allocated ∧
        (render_context_queue context command sort).1.allocated = context.allocated) ∧
    (∀ (s : render_state) (backend : Nat) (target : Option Nat) (contexts : List Nat) (c : Nat),
      0 ≤ (s.contexts c).allocated → (s.contexts c).reserved ≤ (s.contexts c).allocated →
        ((render_backend_dispatch s backend target contexts).contexts c).reserved ≤
          ((render_backend_dispatch s backend target contexts).contexts c).allocated) ∧
    (∀ (context : render_context_t) (sort : Nat) (command : render_command_t),
      ¬ context.reserved < context.allocated → -2147483648 ≤ context.reserved →
      context.reserved ≤ 2147483647 →
        (render_context_reserve context sort).2 =
          Except.error (render_fault.assertion "Render command overallocation") ∧
        (render_context_queue context command sort).2 =
          Except.error (render_fault.assertion "Render command overallocation") ∧
        (render_context_reserve context sort).1.reserved = wrap_int32 (context.reserved + 1) ∧
        (render_context_queue context command sort).1.reserved =
          wrap_int32 (context.reserved + 1) ∧
        (render_context_reserve context sort).1.allocated = context.allocated ∧
        (render_context_queue context command sort).1.allocated = context.allocated ∧
        (context.reserved < 2147483647 →
          wrap_int32 (context.reserved + 1) = context.reserved + 1 ∧
          context.allocated < wrap_int32 (context.reserved + 1)) ∧
        (context.reserved = 2147483647 →
          wrap_int32 (context.reserved + 1) = -2147483648)) := by
  refine ⟨?_, ?_, ?_, ?_⟩
  · intro m keys block commands context hc h
    unfold render_context_allocate FOUNDATION_ASSERT_MSG at h
    split at h
    · cases h
    · have hw := wrap_int32_of_range (commands : Int) (by omega) (by omega)
      rw [hw] at h
      have hctx := Except.ok.inj h
      rw [← hctx]
      exact ⟨rfl, rfl, by simp only; omega, by simp only; omega⟩
  · intro context sort command hlt hlo hhi
    have hw := wrap_int32_of_range (context.reserved + 1) (by omega) (by omega)
    unfold render_context_reserve render_context_queue
    rw [render_context_fetch_eq]
    by_cases h' : context.reserved < 0 <;>
      simp [hlt, h', hw, render_context_store_key, render_context_store_command] <;> omega
  · intro s backend target contexts c hpos hinv
    obtain ⟨-, -, -, -, -, h6, h7⟩ := render_backend_dispatch_fold contexts
      { s with trace := s.trace ++ [render_event.dispatch backend target contexts] }
    simp only at h6 h7
    unfold render_backend_dispatch
    by_cases hc : c ∈ contexts
    · rw [h6 c hc]; simpa using hpos
    · rw [h7 c hc]; exact hinv
  · intro context sort command hge hlo hhi
    unfold render_context_reserve render_context_queue
    rw [render_context_fetch_eq]
    simp only [hge, if_false]
    refine ⟨trivial, trivial, trivial, trivial, trivial, trivial, ?_, ?_⟩
    · intro hlt
      have hw := wrap_int32_of_range (context.reserved + 1) (by omega) (by omega)
      rw [hw]
      exact ⟨rfl, by omega⟩
    · intro he
      rw [he]
      decide

/-- C9 at concrete inputs: capacity 4 with 3 reservations, capacity 4 with 4
reservations, and the allocation of a context of capacity 4. -/
theorem render_context_reserved_le_allocated_witness :
    (render_context_reserve (render_context_sample 4 3) 7).1.reserved ≤
      (render_context_reserve (render_context_sample 4 3) 7).1.allocated ∧
    (render_context_reserve (render_context_sample 4 4) 7).1.reserved = wrap_int32 (4 + 1) ∧
    (4 : Int) < wrap_int32 (4 + 1) ∧
    (∀ context, render_context_allocate 65535 (fun _ => 0) (fun _ => ⟨0⟩) 4 = Except.ok context →
      context.reserved ≤ context.allocated) :=
  ⟨(render_context_reserved_le_allocated.2.1 (render_context_sample 4 3) 7 ⟨0⟩
      (by decide) (by decide) (by decide)).1,
    (render_context_reserved_le_allocated.2.2.2 (render_context_sample 4 4) 7 ⟨0⟩
      (by decide) (by decide) (by decide)).2.2.1,
    ((render_context_reserved_le_allocated.2.2.2 (render_context_sample 4 4) 7 ⟨0⟩
      (by decide) (by decide) (by decide)).2.2.2.2.2.2.1 (by decide)).2,
    fun context h => (render_context_reserved_le_allocated.1 65535 (fun _ => 0) (fun _ => ⟨0⟩) 4
      context (by decide) h).2.2.1⟩

/-! ## Render contexts: concurrent reservation -/

/-- A reserve call that runs its two steps without another thread in between
leaves the context that `render_context_reserve` computes. -/
theorem render_context_steps_reserve (calls : List render_context_call)
    (r : render_context_threads) (t sort : Nat)
    (hc : calls[t]? = some (render_context_call.reserve sort))
    (hp : r.phase t = render_call_phase.start) :
    (render_context_step calls (render_context_step calls r t) t).context =
      (render_context_reserve r.context sort).1 := by
  unfold render_context_reserve
  rcases hf : render_context_fetch r.context with ⟨c, e⟩
  cases e <;> simp [render_context_step, hc, hp, hf]

/-- A queue call that runs its three steps without another thread in between
leaves the context that `render_context_queue` computes. -/
theorem render_context_steps_queue (calls : List render_context_call)
    (r : render_context_threads) (t sort : Nat) (command : render_command_t)
    (hc : calls[t]? = some (render_context_call.queue command sort))
    (hp : r.phase t = render_call_phase.start) :
    (render_context_step calls
      (render_context_step calls (render_context_step calls r t) t) t).context =
      (render_context_queue r.context command sort).1 := by
  unfold render_context_queue
  rcases hf : render_context_fetch r.context with ⟨c, e⟩
  cases e <;> simp [render_context_step, hc, hp, hf]

/-- C11: for `render_backend_shader_upload`, `render_backend_program_upload` and
`render_backend_texture_upload` with a live target backend `B`: the trace grows
by the deallocate hook of the previous owner, once, when that owner is a
backend other than `B`, and then by the upload hook of `B`; nothing is added in
front of the upload hook when the resource is unowned or owned by `B`.  The
call returns what the upload hook returns, and the owner afterwards is `B` when
the hook succeeded and empty when it failed. -/
theorem render_backend_upload_ownership (s : render_state) (B : Nat) (b : render_backend_t)
    (hlive : s.heap B = some b) :
    (∀ shader : render_shader_t,
      (render_backend_shader_upload s B shader).2.2 = b.vtable.upload_shader ∧
      (render_backend_shader_upload s B shader).1.trace = s.trace ++
        (match shader.backend with
          | some A => if A ≠ B then [render_event.deallocate_shader A shader.id] else []
          | none => []) ++
        [render_event.upload_shader B shader.id b.vtable.upload_shader] ∧
      (render_backend_shader_upload s B shader).2.1 =
        { shader with backend := if b.vtable.upload_shader then some B else none }) ∧
    (∀ program : render_program_t,
      (render_backend_program_upload s B program).2.2 = b.vtable.upload_program ∧
      (render_backend_program_upload s B program).1.trace = s.trace ++
        (match program.backend with
          | some A => if A ≠ B then [render_event.deallocate_program A program.id] else []
          | none => []) ++
        [render_event.upload_program B program.id b.vtable.upload_program] ∧
      (render_backend_program_upload s B program).2.1 =
        { program with backend := if b.vtable.upload_program then some B else none }) ∧
    (∀ texture : render_texture_t,
      (render_backend_texture_upload s B texture).2.2 = b.vtable.upload_texture ∧
      (render_backend_texture_upload s B texture).1.trace = s.trace ++
        (match texture.backend with
          | some A => if A ≠ B then [render_event.deallocate_texture A texture.id] else []
          | none => []) ++
        [render_event.upload_texture B texture.id b.vtable.upload_texture] ∧
      (render_backend_texture_upload s B texture).2.1 =
        { texture with backend := if b.vtable.upload_texture then some B else none }) := by
  refine ⟨?_, ?_, ?_⟩
  · intro shader
    unfold render_backend_shader_upload
    rcases ho : shader.backend with _ | A
    · cases hu : b.vtable.upload_shader <;> simp [hlive, hu]
    · by_cases hA : A = B <;> cases hu : b.vtable.upload_shader <;> simp [hlive, hu, hA]
  · intro program
    unfold render_backend_program_upload
    rcases ho : program.backend with _ | A
    · cases hu : b.vtable.upload_program <;> simp [hlive, hu]
    · by_cases hA : A = B <;> cases hu : b.vtable.upload_program <;> simp [hlive, hu, hA]
  · intro texture
    unfold render_backend_texture_upload
    rcases ho : texture.backend with _ | A
    · cases hu : b.vtable.upload_texture <;> simp [hlive, hu]
    · by_cases hA : A = B <;> cases hu : b.vtable.upload_texture <;> simp [hlive, hu, hA]

/-- C11 at a concrete input: a shader owned by backend 0 is uploaded to
backend 1. -/
theorem render_backend_upload_ownership_witness :
    (render_backend_shader_upload render_state_pair_sample 1 ⟨9, some 0⟩).1.trace =
      render_state_pair_sample.trace ++
        [render_event.deallocate_shader 0 9, render_event.upload_shader 1 9 true] ∧
    (render_backend_shader_upload render_state_pair_sample 1 ⟨9, some 0⟩).2.1 = ⟨9, some 1⟩ :=
  ⟨((render_backend_upload_ownership render_state_pair_sample 1 render_backend_pair_sample
      (by decide)).1 ⟨9, some 0⟩).2.1,
   ((render_backend_upload_ownership render_state_pair_sample 1 render_backend_pair_sample
      (by decide)).1 ⟨9, some 0⟩).2.2⟩

/-! ## Thread binding -/

/-- C12: after `render_backend_enable_thread(b)` the backend `b`, and no other,
is current on the calling thread; the hooks called are the disable hook of the
previously current backend, if there was one and it was not `b`, and then the
enable hook of `b`.  `render_backend_disable_thread(b)` calls the disable hook
of `b` and empties the slot if it held `b`, leaving it alone otherwise.  The
slot holds at most one backend. -/
theorem render_backend_thread_binding (s : render_state) (b : Nat) :
    (render_backend_enable_thread s b).thread_backend = some b ∧
    (∀ x, (render_backend_enable_thread s b).thread_backend = some x ↔ x = b) ∧
    (render_backend_enable_thread s b).trace =
      s.trace ++ (match s.thread_backend with
        | some prev => if prev ≠ b then [render_event.disable_thread prev] else []
        | none => []) ++ [render_event.enable_thread b] ∧
    (render_backend_disable_thread s b).trace = s.trace ++ [render_event.disable_thread b] ∧
    (render_backend_disable_thread s b).thread_backend =
      (if s.thread_backend = some b then none else s.thread_backend) ∧
    (render_backend_enable_thread s b).heap = s.heap ∧
    (render_backend_enable_thread s b).render_backends = s.render_backends ∧
    (render_backend_disable_thread s b).heap = s.heap ∧
    (render_backend_disable_thread s b).render_backends = s.render_backends := by
  have h := render_backend_enable_thread_fields s b
  refine ⟨h.2.2.2.2.1, ?_, h.2.2.2.2.2, ?_, ?_, h.2.2.1, h.1, ?_, ?_⟩
  · intro x
    rw [h.2.2.2.2.1]
    constructor
    · intro hx; exact (Option.some.inj hx).symm
    · intro hx; rw [hx]
  all_goals
    unfold render_backend_disable_thread
    by_cases hp : s.thread_backend = some b <;> simp [hp]

/-! ## Drawable, format and concurrency -/

/-- C13, as stated, fails in its second case: backend 0 of `render_state_sample`
has just been allocated and its pixel format was never set (it is 0), its
set_drawable hook accepts, and `render_backend_set_drawable` returns true,
replaces the drawable and the framebuffer size and keeps the backend
current. -/
theorem render_backend_set_drawable_format_unchecked :
    (render_state_sample.heap 0).map (fun b => (b.pixelformat, b.drawable.type)) =
      some (0, 0) ∧
    (render_backend_set_drawable render_drawable_ops_sample render_state_sample 0
      render_drawable_sample).2 = true ∧
    ((render_backend_set_drawable render_drawable_ops_sample render_state_sample 0
      render_drawable_sample).1.heap 0).map
        (fun b => (b.drawable.type, b.drawable.width, b.framebuffer.width,
          b.framebuffer.height, b.framebuffer.pixelformat)) = some (1, 100, 100, 100, 0) := by
  decide

/-- C13, amended: when the set_drawable hook of a live backend rejects the
drawable, `render_backend_set_drawable` returns false; the instances (so the
drawable and the framebuffer of the backend), the registry and the current
backend of the thread are as before, and the hooks called are the disable hook
of the previously current backend, if there was one and it was another
backend, and the set_drawable hook. -/
theorem render_backend_set_drawable_rejected (ops : render_drawable_ops) (s : render_state)
    (backend : Nat) (b : render_backend_t) (drawable : render_drawable_t)
    (hlive : s.heap backend = some b) (hreject : b.vtable.set_drawable = false) :
    (render_backend_set_drawable ops s backend drawable).2 = false ∧
    (render_backend_set_drawable ops s backend drawable).1.heap = s.heap ∧
    (render_backend_set_drawable ops s backend drawable).1.thread_backend = s.thread_backend ∧
    (render_backend_set_drawable ops s backend drawable).1.render_backends =
      s.render_backends ∧
    (render_backend_set_drawable ops s backend drawable).1.trace =
      s.trace ++ (match s.thread_backend with
        | some prev => if prev ≠ backend then [render_event.disable_thread prev] else []
        | none => []) ++ [render_event.set_drawable backend false] := by
  unfold render_backend_set_drawable
  rcases hp : s.thread_backend with _ | prev
  · simp [hlive, hreject, hp]
  · by_cases hne : prev = backend <;> simp [hlive, hreject, hne, hp]

/-- C13 at a concrete input: the hook of backend 0 rejects a window drawable. -/
theorem render_backend_set_drawable_rejected_witness :
    (render_backend_set_drawable render_drawable_ops_sample render_state_reject_sample 0
      render_drawable_sample).2 = false ∧
    (render_backend_set_drawable render_drawable_ops_sample render_state_reject_sample 0
      render_drawable_sample).1.thread_backend = some 0 :=
  ⟨(render_backend_set_drawable_rejected render_drawable_ops_sample render_state_reject_sample
      0 render_backend_reject_sample render_drawable_sample (by decide) (by decide)).1,
   (render_backend_set_drawable_rejected render_drawable_ops_sample render_state_reject_sample
      0 render_backend_reject_sample render_drawable_sample (by decide) (by decide)).2.2.1⟩

/-- C14: `render_backend_set_format(b, format, space)` stores `format` and
`space` when no drawable is attached (`drawable.type` is 0) and changes no
other field; with a drawable attached it leaves the backend as it is. -/
theorem render_backend_set_format_gate (b : render_backend_t) (format space : Nat) :
    (b.drawable.type = 0 →
      render_backend_set_format b format space =
        { b with pixelformat := format, colorspace := space }) ∧
    (b.drawable.type ≠ 0 → render_backend_set_format b format space = b) ∧
    (((render_backend_set_format b format space).pixelformat = format ∧
        (render_backend_set_format b format space).colorspace = space) ↔
      (b.drawable.type = 0 ∨ (b.pixelformat = format ∧ b.colorspace = space))) := by
  unfold render_backend_set_format FOUNDATION_VALIDATE_MSG
  by_cases h : b.drawable.type = 0 <;> simp [h]

/-- C14 at concrete inputs: a fresh backend takes the format, a backend with a
drawable keeps its own. -/
theorem render_backend_set_format_gate_witness :
    (render_backend_set_format (render_backend_sample RENDERAPI_NULL 0 true) 4 1).pixelformat
      = 4 ∧
    render_backend_set_format render_backend_drawable_sample 9 2 =
      render_backend_drawable_sample :=
  ⟨congrArg render_backend_t.pixelformat
      ((render_backend_set_format_gate (render_backend_sample RENDERAPI_NULL 0 true) 4 1).1
        (by decide)),
   (render_backend_set_format_gate render_backend_drawable_sample 9 2).2.1 (by decide)⟩

/-- C15, as stated, fails: on a fresh backend a first call with value 0 runs
the assignment and a later call with value 5 still changes the hint; and a
call made while a drawable of width 0 is attached is not ignored. -/
theorem render_backend_set_max_concurrency_again :
    render_backend_max_concurrency
      (render_backend_set_max_concurrency (render_backend_sample RENDERAPI_NULL 0 true) 0)
        = 0 ∧
    render_backend_max_concurrency
      (render_backend_set_max_concurrency
        (render_backend_set_max_concurrency (render_backend_sample RENDERAPI_NULL 0 true) 0) 5)
        = 5 ∧
    ({ render_backend_drawable_sample with
        drawable := { render_backend_drawable_sample.drawable with width := 0 } }
      : render_backend_t).drawable.type = 1 ∧
    render_backend_max_concurrency
      (render_backend_set_max_concurrency
        { render_backend_drawable_sample with
          drawable := { render_backend_drawable_sample.drawable with width := 0 } } 5) = 5 := by
  decide

/-- C15, amended: a call of `render_backend_set_max_concurrency` stores its
value when the hint is 0 and the drawable has width 0, and is ignored when the
hint is not 0 or the drawable has a width other than 0.  So once a call has
stored a value other than 0, every later call leaves
`render_backend_max_concurrency` as it is. -/
theorem render_backend_set_max_concurrency_once (b : render_backend_t) (n m : Nat) :
    (b.concurrency = 0 → b.drawable.width = 0 →
      render_backend_set_max_concurrency b n = { b with concurrency := n }) ∧
    (b.concurrency ≠ 0 → render_backend_set_max_concurrency b n = b) ∧
    (b.drawable.width ≠ 0 → render_backend_set_max_concurrency b n = b) ∧
    (b.concurrency = 0 → b.drawable.width = 0 → n ≠ 0 →
      render_backend_set_max_concurrency (render_backend_set_max_concurrency b n) m =
        render_backend_set_max_concurrency b n ∧
      render_backend_max_concurrency
        (render_backend_set_max_concurrency (render_backend_set_max_concurrency b n) m) = n) := by
  unfold render_backend_set_max_concurrency render_backend_max_concurrency
  refine ⟨?_, ?_, ?_, ?_⟩
  · intro h1 h2; simp [h1, h2]
  · intro h1; simp [h1]
  · intro h2; simp [h2]
  · intro h1 h2 hn; simp [h1, h2, hn]

/-- C15 at a concrete input: 4 is stored on a fresh backend, a later 8 is
ignored. -/
theorem render_backend_set_max_concurrency_once_witness :
    render_backend_max_concurrency
      (render_backend_set_max_concurrency
        (render_backend_set_max_concurrency (render_backend_sample RENDERAPI_NULL 0 true) 4) 8)
      = 4 :=
  ((render_backend_set_max_concurrency_once (render_backend_sample RENDERAPI_NULL 0 true) 4 8).2.2.2
    (by decide) (by decide) (by decide)).2

/-! ## Attribute layout -/

theorem render_attributes_bubble_perm :
    ∀ (n : Nat) (l : List render_vertex_attribute_t), (render_attributes_bubble n l).Perm l := by
  intro n
  induction n with
  | zero => intro l; cases l <;> simp [render_attributes_bubble]
  | succ n ih =>
    intro l
    match l with
    | [] => simp [render_attributes_bubble]
    | [a] => simp [render_attributes_bubble]
    | first :: second :: rest =>
      simp only [render_attributes_bubble]
      split
      · exact ((ih (first :: rest)).cons second).trans (List.Perm.swap first second rest)
      · exact (ih (second :: rest)).cons first

theorem render_attributes_bubble_length (n : Nat) (l : List render_vertex_attribute_t) :
    (render_attributes_bubble n l).length = l.length :=
  (render_attributes_bubble_perm n l).length_eq

theorem render_attributes_bubble_append :
    ∀ (n : Nat) (l t : List render_vertex_attribute_t), n < l.length →
      render_attributes_bubble n (l ++ t) = render_attributes_bubble n l ++ t := by
  intro n
  induction n with
  | zero => intro l t _; cases l <;> cases t <;> simp [render_attributes_bubble]
  | succ n ih =>
    intro l t h
    match l with
    | [] => simp at h
    | [a] => simp at h
    | first :: second :: rest =>
      simp only [List.length_cons] at h
      simp only [List.cons_append, render_attributes_bubble]
      split
      · have := ih (first :: rest) t (by simp; omega)
        simp only [List.cons_append] at this
        simp only [List.append_eq, this, List.cons_append]
      · have := ih (second :: rest) t (by simp; omega)
        simp only [List.cons_append] at this
        simp only [List.append_eq, this, List.cons_append]

/-- A pass over the whole array moves an attribute with the greatest binding to
the end. -/
theorem render_attributes_bubble_last :
    ∀ (n : Nat) (l : List render_vertex_attribute_t), l.length = n + 1 →
      ∃ init m, render_attributes_bubble n l = init ++ [m] ∧
        ∀ x ∈ init, x.binding ≤ m.binding := by
  intro n
  induction n with
  | zero =>
    intro l h
    match l with
    | [a] => exact ⟨[], a, by simp [render_attributes_bubble], by simp⟩
  | succ n ih =>
    intro l h
    match l with
    | first :: second :: rest =>
      simp only [List.length_cons] at h
      simp only [render_attributes_bubble]
      split
      · rename_i hlt
        obtain ⟨init, m, h1, h2⟩ := ih (first :: rest) (by simp; omega)
        have hperm := render_attributes_bubble_perm n (first :: rest)
        rw [h1] at hperm
        have hfm : first.binding ≤ m.binding := by
          have hmem : first ∈ init ++ [m] := hperm.mem_iff.mpr (by simp)
          rcases List.mem_append.mp hmem with hm | hm
          · exact h2 first hm
          · simp only [List.mem_singleton] at hm
            rw [hm]
        refine ⟨second :: init, m, by rw [h1]; simp, ?_⟩
        intro x hx
        rcases List.mem_cons.mp hx with hx | hx
        · rw [hx]; omega
        · exact h2 x hx
      · rename_i hge
        obtain ⟨init, m, h1, h2⟩ := ih (second :: rest) (by simp; omega)
        have hperm := render_attributes_bubble_perm n (second :: rest)
        rw [h1] at hperm
        have hsm : second.binding ≤ m.binding := by
          have hmem : second ∈ init ++ [m] := hperm.mem_iff.mpr (by simp)
          rcases List.mem_append.mp hmem with hm | hm
          · exact h2 second hm
          · simp only [List.mem_singleton] at hm
            rw [hm]
        refine ⟨first :: init, m, by rw [h1]; simp, ?_⟩
        intro x hx
        rcases List.mem_cons.mp hx with hx | hx
        · rw [hx]; omega
        · exact h2 x hx

theorem render_attributes_sort_loop_append :
    ∀ (iend : Nat) (l t : List render_vertex_attribute_t), iend ≤ l.length →
      render_attributes_sort_loop iend (l ++ t) = render_attributes_sort_loop iend l ++ t := by
  intro iend
  induction iend with
  | zero => intro l t _; simp [render_attributes_sort_loop]
  | succ n ih =>
    intro l t h
    cases n with
    | zero => simp [render_attributes_sort_loop]
    | succ k =>
      simp only [render_attributes_sort_loop]
      rw [render_attributes_bubble_append (k + 1) l t (by omega)]
      exact ih _ t (by rw [render_attributes_bubble_length]; omega)

/-- The sort loop over the whole array yields a permutation in ascending
binding order. -/
theorem render_attributes_sort_loop_sorted :
    ∀ (n : Nat) (l : List render_vertex_attribute_t), l.length = n →
      (render_attributes_sort_loop n l).Perm l ∧
      (render_attributes_sort_loop n l).Pairwise (fun a b => a.binding ≤ b.binding) := by
  intro n
  induction n with
  | zero =>
    intro l h
    have : l = [] := List.length_eq_zero.mp h
    subst this
    simp [render_attributes_sort_loop]
  | succ n ih =>
    intro l h
    cases n with
    | zero =>
      match l with
      | [a] => simp [render_attributes_sort_loop]
    | succ k =>
      simp only [render_attributes_sort_loop]
      obtain ⟨init, m, h1, h2⟩ := render_attributes_bubble_last (k + 1) l h
      have hperm := render_attributes_bubble_perm (k + 1) l
      have hlen : init.length = k + 1 := by
        have := render_attributes_bubble_length (k + 1) l
        rw [h1, h] at this
        simp at this
        exact this
      rw [h1, render_attributes_sort_loop_append (k + 1) init [m] (by omega)]
      obtain ⟨ip, is⟩ := ih init hlen
      refine ⟨?_, ?_⟩
      · rw [h1] at hperm
        exact (ip.append_right [m]).trans hperm
      · rw [List.pairwise_append]
        refine ⟨is, by simp, ?_⟩
        intro a ha b hb
        simp only [List.mem_singleton] at hb
        rw [hb]
        exact h2 a (ip.mem_iff.mp ha)

theorem render_attributes_sort_sorted (l : List render_vertex_attribute_t) :
    (render_attributes_sort l).Perm l ∧
    (render_attributes_sort l).Pairwise (fun a b => a.binding ≤ b.binding) :=
  render_attributes_sort_loop_sorted l.length l rfl

theorem render_attributes_offsets_congr (size : render_vertex_format_t → Nat) :
    ∀ (l l' : List render_vertex_attribute_t) (o : Nat),
      l.map (fun a => (a.binding, a.format)) = l'.map (fun a => (a.binding, a.format)) →
      render_attributes_offsets size o l = render_attributes_offsets size o l' := by
  intro l
  induction l with
  | nil =>
    intro l' o h
    cases l' with
    | nil => rfl
    | cons b t => simp at h
  | cons a t ih =>
    intro l' o h
    cases l' with
    | nil => simp at h
    | cons b t' =>
      simp only [List.map_cons, List.cons.injEq, Prod.mk.injEq] at h
      obtain ⟨⟨hb, hf⟩, ht⟩ := h
      simp only [render_attributes_offsets]
      rw [hf, ih t' _ ht, hb]

theorem render_attributes_offsets_spec (size : render_vertex_format_t → Nat) :
    ∀ (l : List render_vertex_attribute_t) (o : Nat),
      o + (l.map (fun a => size a.format)).sum < 65536 →
      (render_attributes_offsets size o l).2 = o + (l.map (fun a => size a.format)).sum ∧
      (render_attributes_offsets size o l).1.map (fun a => (a.binding, a.format)) =
        l.map (fun a => (a.binding, a.format)) ∧
      (∀ (i : Nat) a, (render_attributes_offsets size o l).1[i]? = some a →
        a.offset = o + ((l.take i).map (fun x => size x.format)).sum) := by
  intro l
  induction l with
  | nil => intro o _; simp [render_attributes_offsets]
  | cons b t ih =>
    intro o h
    simp only [List.map_cons, List.sum_cons] at h
    have hmod : (o + size b.format) % 65536 = o + size b.format := Nat.mod_eq_of_lt (by omega)
    obtain ⟨h1, h2, h3⟩ := ih ((o + size b.format) % 65536) (by rw [hmod]; omega)
    simp only [render_attributes_offsets]
    refine ⟨?_, ?_, ?_⟩
    · rw [h1, hmod]; simp only [List.map_cons, List.sum_cons]; omega
    · simp only [List.map_cons, h2]
    · intro i a hi
      cases i with
      | zero =>
        simp only [List.getElem?_cons_zero, Option.some.injEq] at hi
        rw [← hi]
        simp
      | succ j =>
        simp only [List.getElem?_cons_succ] at hi
        rw [h3 j a hi, hmod]
        simp only [List.take_succ_cons, List.map_cons, List.sum_cons]
        omega

/-- Two arrangements of the same attributes, with pairwise distinct bindings,
sort to the same sequence of bindings and formats. -/
theorem render_attributes_sort_perm_invariant (l l' : List render_vertex_attribute_t)
    (hnd : (l.map (fun a => a.binding)).Nodup)
    (hp : (l'.map (fun a => (a.binding, a.format))).Perm
      (l.map (fun a => (a.binding, a.format)))) :
    (render_attributes_sort l).Pairwise (fun a b => a.binding < b.binding) ∧
    (render_attributes_sort l').map (fun a => (a.binding, a.format)) =
      (render_attributes_sort l).map (fun a => (a.binding, a.format)) := by
  obtain ⟨p1, s1⟩ := render_attributes_sort_sorted l
  obtain ⟨p2, s2⟩ := render_attributes_sort_sorted l'
  have hb : (l'.map (fun a => a.binding)).Perm (l.map (fun a => a.binding)) := by
    have := hp.map Prod.fst
    simpa [List.map_map, Function.comp_def] using this
  have hnd' : (l'.map (fun a => a.binding)).Nodup := hb.nodup_iff.mpr hnd
  have strict : ∀ (m : List render_vertex_attribute_t) (s : List render_vertex_attribute_t),
      s.Perm m → (m.map (fun a => a.binding)).Nodup →
      s.Pairwise (fun a b => a.binding ≤ b.binding) →
      s.Pairwise (fun a b => a.binding < b.binding) := by
    intro m s hs hm hle
    have hn : (s.map (fun a => a.binding)).Nodup :=
      ((hs.map (fun a => a.binding)).nodup_iff).mpr hm
    have hne : s.Pairwise (fun a b => a.binding ≠ b.binding) := by
      simpa [List.Nodup, List.pairwise_map] using hn
    exact (hle.and hne).imp (fun h => lt_of_le_of_ne h.1 h.2)
  have t1 := strict l _ p1 hnd s1
  have t2 := strict l' _ p2 hnd' s2
  refine ⟨t1, ?_⟩
  have k1 : ((render_attributes_sort l).map (fun a => (a.binding, a.format))).Pairwise
      (fun p q => p.1 < q.1) := by
    rw [List.pairwise_map]; exact t1
  have k2 : ((render_attributes_sort l').map (fun a => (a.binding, a.format))).Pairwise
      (fun p q => p.1 < q.1) := by
    rw [List.pairwise_map]; exact t2
  have kp : ((render_attributes_sort l').map (fun a => (a.binding, a.format))).Perm
      ((render_attributes_sort l).map (fun a => (a.binding, a.format))) :=
    ((p2.map _).trans hp).trans (p1.map _).symm
  haveI : IsAntisymm (Nat × render_vertex_format_t) (fun p q => p.1 < q.1) :=
    ⟨fun a b h1 h2 => absurd h1 (by omega)⟩
  exact List.eq_of_perm_of_sorted kp k2 k1

theorem render_program_layout_perm_invariant (size : render_vertex_format_t → Nat)
    (l l' : List render_vertex_attribute_t)
    (hnd : (l.map (fun a => a.binding)).Nodup)
    (hp : (l'.map (fun a => (a.binding, a.format))).Perm
      (l.map (fun a => (a.binding, a.format)))) :
    render_program_layout size l' = render_program_layout size l := by
  unfold render_program_layout
  exact render_attributes_offsets_congr size _ _ 0
    (render_attributes_sort_perm_invariant l l' hnd hp).2

/-- C16: for attributes with pairwise distinct bindings whose format sizes sum
to less than 65536, the sort-and-offset step of `render_program_compile` yields
a permutation of the input (as bindings with their formats) in strictly
ascending binding order; every attribute's offset is the sum of the format
sizes of the attributes before it (so the first is 0 and each next one adds the
size of its predecessor); the recorded size is the sum of all format sizes; and
every arrangement of the same attributes gives the same result.  With
TEXCOORD0/FLOAT2, POSITION/FLOAT3, PRIMARYCOLOR/FLOAT4 (bindings ordered
POSITION < PRIMARYCOLOR < TEXCOORD0, sizes 8, 12, 16) in any order: POSITION
at 0, PRIMARYCOLOR at 12, TEXCOORD0 at 28, size 36. -/
theorem render_program_layout_sorted_contiguous (size : render_vertex_format_t → Nat)
    (attributes : List render_vertex_attribute_t)
    (hdistinct : (attributes.map (fun a => a.binding)).Nodup)
    (htotal : (attributes.map (fun a => size a.format)).sum < 65536) :
    ((render_program_layout size attributes).1.map (fun a => (a.binding, a.format))).Perm
      (attributes.map (fun a => (a.binding, a.format))) ∧
    (render_program_layout size attributes).1.Pairwise (fun a b => a.binding < b.binding) ∧
    (∀ (i : Nat) a, (render_program_layout size attributes).1[i]? = some a →
      a.offset = (((render_program_layout size attributes).1.take i).map
        (fun x => size x.format)).sum) ∧
    (render_program_layout size attributes).2 = (attributes.map (fun a => size a.format)).sum ∧
    (∀ attributes' : List render_vertex_attribute_t,
      (attributes'.map (fun a => (a.binding, a.format))).Perm
        (attributes.map (fun a => (a.binding, a.format))) →
      render_program_layout size attributes' = render_program_layout size attributes) ∧
    (∀ (position primarycolor texcoord0 o1 o2 o3 : Nat) (l : List render_vertex_attribute_t),
      position < primarycolor → primarycolor < texcoord0 →
      size VERTEXFORMAT_FLOAT2 = 8 → size VERTEXFORMAT_FLOAT3 = 12 →
      size VERTEXFORMAT_FLOAT4 = 16 →
      l.Perm [⟨texcoord0, VERTEXFORMAT_FLOAT2, o1⟩, ⟨position, VERTEXFORMAT_FLOAT3, o2⟩,
        ⟨primarycolor, VERTEXFORMAT_FLOAT4, o3⟩] →
      render_program_layout size l =
        ([⟨position, VERTEXFORMAT_FLOAT3, 0⟩, ⟨primarycolor, VERTEXFORMAT_FLOAT4, 12⟩,
          ⟨texcoord0, VERTEXFORMAT_FLOAT2, 28⟩], 36)) := by
  obtain ⟨hperm, hsorted⟩ := render_attributes_sort_sorted attributes
  have hstrict := (render_attributes_sort_perm_invariant attributes attributes hdistinct
    (List.Perm.refl _)).1
  have hsum : ((render_attributes_sort attributes).map (fun a => size a.format)).sum =
      (attributes.map (fun a => size a.format)).sum := (hperm.map _).sum_eq
  obtain ⟨o1, o2, o3⟩ := render_attributes_offsets_spec size (render_attributes_sort attributes) 0
    (by rw [hsum]; omega)
  have hkeys : ∀ l l' : List render_vertex_attribute_t,
      l.map (fun a => (a.binding, a.format)) = l'.map (fun a => (a.binding, a.format)) →
      l.map (fun a => size a.format) = l'.map (fun a => size a.format) := by
    intro l l' h
    have := congrArg (List.map (fun p : Nat × render_vertex_format_t => size p.2)) h
    simpa [List.map_map, Function.comp_def] using this
  refine ⟨?_, ?_, ?_, ?_, ?_, ?_⟩
  · unfold render_program_layout
    rw [o2]
    exact hperm.map _
  · unfold render_program_layout
    have h1 : ((render_attributes_offsets size 0 (render_attributes_sort attributes)).1.map
        (fun a => (a.binding, a.format))).Pairwise (fun p q => p.1 < q.1) := by
      rw [o2, List.pairwise_map]; exact hstrict
    rw [List.pairwise_map] at h1
    exact h1
  · intro i a hi
    unfold render_program_layout at hi ⊢
    rw [o3 i a hi, Nat.zero_add]
    have htake : ((render_attributes_offsets size 0 (render_attributes_sort attributes)).1.take
        i).map (fun a => (a.binding, a.format)) =
        ((render_attributes_sort attributes).take i).map (fun a => (a.binding, a.format)) := by
      rw [List.map_take, List.map_take, o2]
    rw [hkeys _ _ htake]
  · unfold render_program_layout
    rw [o1, hsum, Nat.zero_add]
  · intro attributes' hp
    exact render_program_layout_perm_invariant size attributes attributes' hdistinct hp
  · intro p c t x1 x2 x3 l hpc hct h2 h3 h4 hl
    have hpt : p < t := by omega
    have hnd : (List.map (fun a : render_vertex_attribute_t => a.binding)
        [⟨t, VERTEXFORMAT_FLOAT2, x1⟩, ⟨p, VERTEXFORMAT_FLOAT3, x2⟩,
          ⟨c, VERTEXFORMAT_FLOAT4, x3⟩]).Nodup := by
      simp only [List.map_cons, List.map_nil, List.nodup_cons, List.mem_cons,
        List.mem_singleton, List.not_mem_nil, or_false, not_or, List.nodup_nil, and_true,
        not_false_eq_true]
      omega
    rw [render_program_layout_perm_invariant size _ l hnd (hl.map _)]
    have hcp : ¬ c < p := by omega
    simp [render_program_layout, render_attributes_sort, render_attributes_sort_loop,
      render_attributes_bubble, render_attributes_offsets, hpt, hct, hcp, h2, h3, h4]

/-- C16 at a concrete input: the three attributes of the spec, enumerated as
PRIMARYCOLOR, TEXCOORD0, POSITION. -/
theorem render_program_layout_sorted_contiguous_witness :
    render_program_layout render_program_consts_sample.render_vertex_attribute_size
      [⟨3, VERTEXFORMAT_FLOAT4, 0⟩, ⟨7, VERTEXFORMAT_FLOAT2, 0⟩, ⟨0, VERTEXFORMAT_FLOAT3, 0⟩] =
      ([⟨0, VERTEXFORMAT_FLOAT3, 0⟩, ⟨3, VERTEXFORMAT_FLOAT4, 12⟩,
        ⟨7, VERTEXFORMAT_FLOAT2, 28⟩], 36) :=
  (render_program_layout_sorted_contiguous
    render_program_consts_sample.render_vertex_attribute_size
    [⟨3, VERTEXFORMAT_FLOAT4, 0⟩, ⟨7, VERTEXFORMAT_FLOAT2, 0⟩, ⟨0, VERTEXFORMAT_FLOAT3, 0⟩]
    (by decide) (by decide)).2.2.2.2.2 0 3 7 0 0 0 _ (by decide) (by decide) rfl rfl rfl
    (by decide)

/-! ## Uniform offsets -/

theorem render_program_uniforms_spec (c : render_program_consts) (result : Int)
    (hresult : ¬ result < 0) :
    ∀ (uniforms : List gl_uniform_t) (offset : Nat) (counted : List render_parameter_t),
      (∀ u ∈ uniforms, render_uniform_type u.type ≠ none) → offset < 65536 →
      ∃ rest, render_program_uniforms c uniforms result offset counted =
          (result, counted ++ rest) ∧
        rest.length = uniforms.length ∧
        ∀ (i : Nat) u, uniforms[i]? = some u → ∃ p type grow,
          rest[i]? = some p ∧ render_uniform_type u.type = some (type, grow) ∧
          p.name = u.name ∧ p.location = u.location ∧ p.dim = u.size ∧ p.type = type ∧
          p.stages = c.SHADER_VERTEX ||| c.SHADER_PIXEL ∧
          p.offset = (offset + ((uniforms.take i).map
            (fun x => render_uniform_size x.type)).sum) % 65536 := by
  intro uniforms
  induction uniforms with
  | nil =>
    intro offset counted _ _
    exact ⟨[], by simp [render_program_uniforms], rfl, by simp⟩
  | cons u rest ih =>
    intro offset counted hs ho
    have hu := hs u (by simp)
    cases ht : render_uniform_type u.type with
    | none => exact absurd ht hu
    | some tg =>
      obtain ⟨type, grow⟩ := tg
      obtain ⟨r, h1, h2, h3⟩ := ih ((offset + grow) % 65536)
        (counted ++ [{ name := u.name, location := u.location, dim := u.size, offset := offset,
                       stages := c.SHADER_VERTEX ||| c.SHADER_PIXEL, type := type }])
        (fun x hx => hs x (by simp [hx])) (Nat.mod_lt _ (by decide))
      refine ⟨{ name := u.name, location := u.location, dim := u.size, offset := offset,
                stages := c.SHADER_VERTEX ||| c.SHADER_PIXEL, type := type } :: r, ?_, ?_, ?_⟩
      · simp only [render_program_uniforms, ht, hresult, if_false, h1]
        simp
      · simp [h2]
      · intro i x hi
        cases i with
        | zero =>
          simp only [List.getElem?_cons_zero, Option.some.injEq] at hi
          subst hi
          refine ⟨{ name := u.name, location := u.location, dim := u.size, offset := offset,
                    stages := c.SHADER_VERTEX ||| c.SHADER_PIXEL, type := type },
            type, grow, by simp, ht, rfl, rfl, rfl, rfl, rfl, ?_⟩
          simp [Nat.mod_eq_of_lt ho]
        | succ j =>
          simp only [List.getElem?_cons_succ] at hi
          obtain ⟨p, type', grow', g1, g2, g3, g4, g5, g6, g7, g8⟩ := h3 j x hi
          refine ⟨p, type', grow', by simpa using g1, g2, g3, g4, g5, g6, g7, ?_⟩
          rw [g8]
          have hsz : render_uniform_size u.type = grow := by simp [render_uniform_size, ht]
          simp only [List.take_succ_cons, List.map_cons, List.sum_cons, hsz]
          rw [Nat.add_mod, Nat.mod_mod, ← Nat.add_mod, Nat.add_assoc]

/-- C17, as stated, fails: the driver reports an attribute whose name is not
known and one uniform of the supported type `GL_FLOAT_VEC4`; the attribute
sets `result` to -1, the uniform loop leaves at its first `if (result < 0)`,
and the program records no parameter. -/
theorem render_program_uniforms_after_attribute_error :
    render_uniform_type GL_FLOAT_VEC4 = some (RENDERPARAMETER_FLOAT4, 16) ∧
    render_program_reflect render_program_consts_sample
      { link_status := true, relink_status := true,
        attributes := [⟨"normal", GL_FLOAT_VEC3⟩],
        uniforms := [⟨1, 0, 1, GL_FLOAT_VEC4⟩] } 0 =
      (-1, some { id := 0, backend := none, attributes := [], attributes_size := 0,
                  parameters := [] }) := by
  decide

/-- C17, amended: when `result` is not negative at the start of the uniform
enumeration (no attribute error before it) and every reported uniform has a
supported type, the enumeration leaves `result` as it is and records one
parameter per uniform, in enumeration order, with the uniform's name hash,
location and size, the type of the `switch`, the stage mask
`SHADER_VERTEX | SHADER_PIXEL`, and as offset the sum, as a `uint16_t`, of the
sizes of the uniforms before it; the sizes are 16 for FLOAT4 and INT4, 64 for
MATRIX and 4 for TEXTURE.  The types FLOAT4, MATRIX, TEXTURE give the offsets
0, 16, 80. -/
theorem render_program_uniforms_offsets (c : render_program_consts)
    (uniforms : List gl_uniform_t) (result : Int)
    (hsupported : ∀ u ∈ uniforms, render_uniform_type u.type ≠ none)
    (hresult : ¬ result < 0) :
    (render_program_uniforms c uniforms result 0 []).1 = result ∧
    (render_program_uniforms c uniforms result 0 []).2.length = uniforms.length ∧
    (∀ (i : Nat) u, uniforms[i]? = some u → ∃ p type grow,
      (render_program_uniforms c uniforms result 0 []).2[i]? = some p ∧
      render_uniform_type u.type = some (type, grow) ∧
      p.name = u.name ∧ p.location = u.location ∧ p.dim = u.size ∧ p.type = type ∧
      p.stages = c.SHADER_VERTEX ||| c.SHADER_PIXEL ∧
      p.offset = ((uniforms.take i).map (fun x => render_uniform_size x.type)).sum % 65536) ∧
    (∀ t type grow, render_uniform_type t = some (type, grow) →
      grow = match type with
        | RENDERPARAMETER_FLOAT4 => 16
        | RENDERPARAMETER_INT4 => 16
        | RENDERPARAMETER_MATRIX => 64
        | RENDERPARAMETER_TEXTURE => 4) ∧
    (∀ (u1 u2 u3 : gl_uniform_t), u1.type = GL_FLOAT_VEC4 → u2.type = GL_FLOAT_MAT4 →
      u3.type = GL_SAMPLER_2D →
      ((render_program_uniforms c [u1, u2, u3] result 0 []).2.map (fun p => (p.type, p.offset)))
        = [(RENDERPARAMETER_FLOAT4, 0), (RENDERPARAMETER_MATRIX, 16),
           (RENDERPARAMETER_TEXTURE, 80)]) := by
  obtain ⟨rest, h1, h2, h3⟩ :=
    render_program_uniforms_spec c result hresult uniforms 0 [] hsupported (by decide)
  rw [h1]
  simp only [List.nil_append, Nat.zero_add]
  refine ⟨trivial, h2, ?_, ?_, ?_⟩
  · intro i u hi
    obtain ⟨p, type, grow, g⟩ := h3 i u hi
    refine ⟨p, type, grow, ?_⟩
    simpa using g
  · intro t type grow ht
    cases t <;> simp [render_uniform_type] at ht <;> obtain ⟨rfl, rfl⟩ := ht <;> rfl
  · intro u1 u2 u3 e1 e2 e3
    simp [render_program_uniforms, render_uniform_type, e1, e2, e3, hresult]

/-- C17 at a concrete input: FLOAT4, MATRIX, TEXTURE. -/
theorem render_program_uniforms_offsets_witness :
    (render_program_uniforms render_program_consts_sample
      [⟨1, 0, 1, GL_FLOAT_VEC4⟩, ⟨2, 1, 1, GL_FLOAT_MAT4⟩, ⟨3, 2, 1, GL_SAMPLER_2D⟩] 0 0 []).2.map
        (fun p => (p.type, p.offset)) =
      [(RENDERPARAMETER_FLOAT4, 0), (RENDERPARAMETER_MATRIX, 16),
       (RENDERPARAMETER_TEXTURE, 80)] :=
  (render_program_uniforms_offsets render_program_consts_sample
    [⟨1, 0, 1, GL_FLOAT_VEC4⟩, ⟨2, 1, 1, GL_FLOAT_MAT4⟩, ⟨3, 2, 1, GL_SAMPLER_2D⟩] 0
    (by decide) (by decide)).2.2.2.2 _ _ _ rfl rfl rfl

/-! ## The compiler: the loop over the sub-platforms -/

/-- C19 at a failing input.  The program has change records for platform 260
only; its vertex shader has a record for the more specific platform 65796, so
65796 is appended to the sub-platforms; `resource_source_get` has no vertex
shader of the program for 65796.  The iteration for 65796 allocates backend 1
and a drawable and leaves with `continue`: after the call the registry holds
backend 1, where it was empty before, and one drawable is still allocated.
`render_shader_compile` on the sub-platforms 260 and 65796 leaves no backend
and no drawable. -/
theorem render_program_compile_leaks_backend :
    render_state_initial.render_backends = [] ∧
    render_program_shaders (resource_source_program_sample [260] (fun p => p != 65796)) 260
      = some (100, 200) ∧
    render_program_shaders (resource_source_program_sample [260] (fun p => p != 65796)) 65796
      = none ∧
    (render_compile_outcome
      (render_program_compile render_compile_env_more_sample 18446744073709551615
        (resource_source_program_sample [260] (fun p => p != 65796)) HASH_PROGRAM
        render_compile_state_initial)).map
      (fun o => (o.result, o.render_backends, o.drawables, o.iterations)) =
      some (-1, [1], 1, [260, 65796]) ∧
    (render_compile_outcome
      (render_shader_compile render_compile_env_more_sample 18446744073709551615
        (resource_source_shader_sample [260, 65796]) HASH_VERTEXSHADER
        render_compile_state_initial)).map
      (fun o => (o.result, o.render_backends, o.drawables, o.iterations)) =
      some (0, [], 0, [260, 65796]) := by
  decide

/-- C20 at a failing input.  The driver reports, for sub-platform 260, an
attribute whose name is not one of position, color, texcoord.
`render_program_compile` returns -1, and the static program stream for 260 has
been written all the same, with a program that holds no attribute and no
parameter. -/
theorem render_program_compile_schema_failure_persists :
    render_attribute_binding render_program_consts_sample "normal" = none ∧
    render_compile_outcome
      (render_program_compile render_compile_env_schema_sample 18446744073709551615
        (resource_source_program_sample [260] (fun _ => true)) HASH_PROGRAM
        render_compile_state_initial) =
      some ⟨-1, [], 0, 0,
        [resource_stream_t.program_static 260 HASH_PROGRAM 1 100 200
          { id := 0, backend := none, attributes := [], attributes_size := 0,
            parameters := [] }], [260]⟩ := by
  decide

/-! ## Compile: the registry across a compile call -/

theorem array_erase_append_last (l : List Nat) (b : Nat) :
    array_erase (l ++ [b]) l.length = l := by
  induction l with
  | nil => rfl
  | cons x xs ih => simp [array_erase, ih]

theorem render_backends_remove_append_last (l : List Nat) (b : Nat) (h : b ∉ l) :
    render_backends_remove (l ++ [b]) b = l := by
  have hi : (l ++ [b]).indexOf b = l.length := by
    rw [List.indexOf_append_of_not_mem h]; simp
  unfold render_backends_remove
  rw [hi, array_erase_append_last]
  simp

theorem render_backend_set_drawable_registry (ops : render_drawable_ops) (s : render_state)
    (backend : Nat) (drawable : render_drawable_t) :
    (render_backend_set_drawable ops s backend drawable).1.render_backends = s.render_backends ∧
    (render_backend_set_drawable ops s backend drawable).1.next_handle = s.next_handle := by
  unfold render_backend_set_drawable
  rcases hp : s.thread_backend with _ | prev
  · rcases hb : s.heap backend with _ | b
    · simp [hb]
    · cases hv : b.vtable.set_drawable <;> simp [hb, hv]
  · by_cases hne : prev = backend
    · rcases hb : s.heap backend with _ | b
      · simp [hb, hne]
      · cases hv : b.vtable.set_drawable <;> simp [hb, hv, hne]
    · rcases hb : s.heap backend with _ | b
      · simp [hb, hne]
      · cases hv : b.vtable.set_drawable <;> simp [hb, hv, hne]

theorem render_state_update_backend_registry (s : render_state) (backend : Nat)
    (f : render_backend_t → render_backend_t) :
    (s.update_backend backend f).render_backends = s.render_backends ∧
    (s.update_backend backend f).next_handle = s.next_handle := by
  unfold render_state.update_backend
  constructor <;> split <;> rfl

theorem render_compile_surface_fields (cenv : render_compile_env) (st : render_compile_state)
    (backend : Nat) :
    (render_compile_surface cenv st backend).render.render_backends = st.render.render_backends ∧
    (render_compile_surface cenv st backend).render.next_handle = st.render.next_handle ∧
    (render_compile_surface cenv st backend).drawables = st.drawables + 1 ∧
    (render_compile_surface cenv st backend).windows =
      (if cenv.render.platform = foundation_platform_t.windows then st.windows + 1
       else st.windows) := by
  unfold render_compile_surface
  simp only
  refine ⟨?_, ?_, ?_, ?_⟩
  · rw [(render_backend_set_drawable_registry _ _ _ _).1,
      (render_state_update_backend_registry _ _ _).1]
    split <;> rfl
  · rw [(render_backend_set_drawable_registry _ _ _ _).2,
      (render_state_update_backend_registry _ _ _).2]
    split <;> rfl
  · split <;> rfl
  · split <;> rfl

theorem render_compile_backend_some_registry (cenv : render_compile_env) (s : render_state)
    (api : Int) (s' : render_state) (b : Nat)
    (hwf : ∀ h ∈ s.render_backends, h < s.next_handle)
    (h : render_compile_backend cenv s api = some (s', some b)) :
    s.next_handle ≤ b ∧ b < s'.next_handle ∧ s'.render_backends = s.render_backends ++ [b] := by
  unfold render_compile_backend at h
  split at h
  · exact render_backend_allocate_some_registry _ _ _ _ _ _ _ hwf h
  · exact render_backend_allocate_some_registry _ _ _ _ _ _ _ hwf h

theorem render_compile_backend_none_registry (cenv : render_compile_env) (s : render_state)
    (api : Int) (s' : render_state)
    (hwf : ∀ h ∈ s.render_backends, h < s.next_handle)
    (h : render_compile_backend cenv s api = some (s', none)) :
    s.next_handle ≤ s'.next_handle ∧ s'.render_backends = s.render_backends := by
  unfold render_compile_backend at h
  split at h
  · exact render_backend_allocate_none_registry _ _ _ _ _ _ hwf h
  · exact render_backend_allocate_none_registry _ _ _ _ _ _ hwf h

/-- An iteration that allocates a backend, sets up the surface and reaches the
teardown leaves the registry and the counts of drawables and windows as they
were before the allocation. -/
theorem render_compile_teardown_surface (cenv : render_compile_env) (st : render_compile_state)
    (s : render_state) (api : Int) (b : Nat)
    (hwf : ∀ h ∈ st.render.render_backends, h < st.render.next_handle)
    (h : render_compile_backend cenv st.render api = some (s, some b))
    (st1 : render_compile_state)
    (hr : st1.render = (render_compile_surface cenv { st with render := s } b).render)
    (hd : st1.drawables = (render_compile_surface cenv { st with render := s } b).drawables)
    (hw : st1.windows = (render_compile_surface cenv { st with render := s } b).windows) :
    (render_compile_teardown cenv st1 b).render.render_backends = st.render.render_backends ∧
    st.render.next_handle ≤ (render_compile_teardown cenv st1 b).render.next_handle ∧
    (render_compile_teardown cenv st1 b).drawables = st.drawables ∧
    (render_compile_teardown cenv st1 b).windows = st.windows := by
  obtain ⟨h1, h2, h3⟩ := render_compile_backend_some_registry cenv _ api s b hwf h
  obtain ⟨f1, f2, f3, f4⟩ := render_compile_surface_fields cenv { st with render := s } b
  have hnm : b ∉ st.render.render_backends := fun hm => by
    have := hwf b hm; omega
  unfold render_compile_teardown render_backend_deallocate
  simp only
  refine ⟨?_, ?_, ?_, ?_⟩
  · rw [hr, f1]; simp only; rw [h3]; exact render_backends_remove_append_last _ _ hnm
  · rw [hr, f2]; simp only; omega
  · rw [hd, f3]; simp
  · rw [hw, f4]; split <;> simp

theorem render_shader_compile_persist_fields (cenv : render_compile_env)
    (hash : resource_hash_t) (p size : Nat) (st : render_compile_state) (result : Int) :
    (render_shader_compile_persist cenv hash p size st result).1.render = st.render ∧
    (render_shader_compile_persist cenv hash p size st result).1.drawables = st.drawables ∧
    (render_shader_compile_persist cenv hash p size st result).1.windows = st.windows := by
  unfold render_shader_compile_persist
  refine ⟨?_, ?_, ?_⟩ <;>
  · simp only
    split
    · rfl
    · split
      · split
        · split <;> rfl
        · rfl
      · rfl

theorem render_program_compile_persist_fields (cenv : render_compile_env)
    (hash : resource_hash_t) (api : Int) (p v f : Nat) (st : render_compile_state)
    (result : Int) :
    (render_program_compile_persist cenv hash api p v f st result).1.render = st.render ∧
    (render_program_compile_persist cenv hash api p v f st result).1.drawables = st.drawables ∧
    (render_program_compile_persist cenv hash api p v f st result).1.windows = st.windows := by
  unfold render_program_compile_persist
  simp only
  generalize (if cenv.render.render_api_value RENDERAPI_OPENGL ≤ api ∧
        api ≤ cenv.render.render_api_value RENDERAPI_OPENGL4 then
      render_program_reflect cenv.consts (cenv.gl_program p) result
    else (result, none)) = reflected
  rcases reflected with ⟨r, _ | program⟩
  · exact ⟨rfl, rfl, rfl⟩
  · refine ⟨?_, ?_, ?_⟩ <;> simp only <;> split <;> rfl

/-- One iteration of `render_shader_compile` leaves the registry and the counts
of drawables and windows as it found them. -/
theorem render_shader_compile_step_registry (cenv : render_compile_env)
    (source : resource_source_t) (hash : resource_hash_t) (p : Nat)
    (st : render_compile_state) (result : Int) (st' : render_compile_state) (r' : Int)
    (hwf : ∀ h ∈ st.render.render_backends, h < st.render.next_handle)
    (h : render_shader_compile_step cenv source hash p st result = some (st', r')) :
    st'.render.render_backends = st.render.render_backends ∧
    st.render.next_handle ≤ st'.render.next_handle ∧
    st'.drawables = st.drawables ∧ st'.windows = st.windows := by
  unfold render_shader_compile_step at h
  simp only at h
  split at h
  · simp only [Option.some.injEq, Prod.mk.injEq] at h
    obtain ⟨h, -⟩ := h; subst h
    exact ⟨rfl, le_refl _, rfl, rfl⟩
  · split at h
    · simp only [Option.some.injEq, Prod.mk.injEq] at h
      obtain ⟨h, -⟩ := h; subst h
      exact ⟨rfl, le_refl _, rfl, rfl⟩
    · rename_i api hapi
      split at h
      · simp at h
      · rename_i s hb
        simp only [Option.some.injEq, Prod.mk.injEq] at h
        obtain ⟨h, -⟩ := h; subst h
        obtain ⟨h1, h2⟩ := render_compile_backend_none_registry cenv _ api s hwf hb
        exact ⟨h2, h1, rfl, rfl⟩
      · rename_i s b hb
        simp only [Option.some.injEq] at h
        have hst := congrArg Prod.fst h
        simp only at hst
        obtain ⟨p1, p2, p3⟩ := render_shader_compile_persist_fields cenv hash p
          (render_shader_compile_gl cenv source api p result).2
          (render_compile_teardown cenv
            (render_compile_surface cenv
              { st with iterations := st.iterations ++ [p], render := s } b) b)
          (render_shader_compile_gl cenv source api p result).1
        have ht := render_compile_teardown_surface cenv
          { st with iterations := st.iterations ++ [p] } s api b hwf hb
          (render_compile_surface cenv
              { st with iterations := st.iterations ++ [p], render := s } b) rfl rfl rfl
        rw [← hst, p1, p2, p3]
        exact ht

/-- One iteration of the third loop of `render_program_compile` that finds both
shader references leaves the registry and the counts of drawables and windows
as it found them. -/
theorem render_program_compile_step_registry (cenv : render_compile_env)
    (source : resource_source_t) (hash : resource_hash_t) (p : Nat)
    (st : render_compile_state) (result : Int) (st' : render_compile_state) (r' : Int)
    (hrefs : (render_program_shaders source p).isSome = true)
    (hwf : ∀ h ∈ st.render.render_backends, h < st.render.next_handle)
    (h : render_program_compile_step cenv source hash p st result = some (st', r')) :
    st'.render.render_backends = st.render.render_backends ∧
    st.render.next_handle ≤ st'.render.next_handle ∧
    st'.drawables = st.drawables ∧ st'.windows = st.windows := by
  unfold render_program_compile_step at h
  simp only at h
  split at h
  · simp only [Option.some.injEq, Prod.mk.injEq] at h
    obtain ⟨h, -⟩ := h; subst h
    exact ⟨rfl, le_refl _, rfl, rfl⟩
  · split at h
    · simp only [Option.some.injEq, Prod.mk.injEq] at h
      obtain ⟨h, -⟩ := h; subst h
      exact ⟨rfl, le_refl _, rfl, rfl⟩
    · rename_i api hapi
      split at h
      · simp at h
      · rename_i s hb
        simp only [Option.some.injEq, Prod.mk.injEq] at h
        obtain ⟨h, -⟩ := h; subst h
        obtain ⟨h1, h2⟩ := render_compile_backend_none_registry cenv _ api s hwf hb
        exact ⟨h2, h1, rfl, rfl⟩
      · rename_i s b hb
        rcases hsh : render_program_shaders source p with _ | ⟨v, f⟩
        · rw [hsh] at hrefs; simp at hrefs
        · rw [hsh] at h
          simp only [Option.some.injEq] at h
          have hst := congrArg Prod.fst h
          simp only at hst
          obtain ⟨p1, p2, p3⟩ := render_program_compile_persist_fields cenv hash api p v f
            (render_compile_surface cenv
              { st with iterations := st.iterations ++ [p], render := s } b) result
          have ht := render_compile_teardown_surface cenv
            { st with iterations := st.iterations ++ [p] } s api b hwf hb
            (render_program_compile_persist cenv hash api p v f
              (render_compile_surface cenv
                { st with iterations := st.iterations ++ [p], render := s } b) result).1
            p1 p2 p3
          rw [← hst]
          exact ht

/-- A property of the state that every iteration on an element of the list
keeps is kept by the loop. -/
theorem render_compile_loop_invariant {σ : Type} (body : Nat → σ → Int → Option (σ × Int))
    (P : σ → Prop) (Q : Nat → Prop)
    (hstep : ∀ p st r st' r', Q p → P st → body p st r = some (st', r') → P st') :
    ∀ (l : List Nat) (st : σ) (r : Int) (st' : σ) (r' : Int), (∀ p ∈ l, Q p) → P st →
      render_compile_loop body l st r = some (st', r') → P st' := by
  intro l
  induction l with
  | nil =>
    intro st r st' r' _ hP h
    simp only [render_compile_loop, Option.some.injEq, Prod.mk.injEq] at h
    rw [← h.1]; exact hP
  | cons x xs ih =>
    intro st r st' r' hQ hP h
    simp only [render_compile_loop] at h
    split at h
    · rcases hb : body x st r with _ | ⟨st1, r1⟩
      · rw [hb] at h; simp at h
      · rw [hb] at h
        simp only at h
        exact ih st1 r1 st' r' (fun p hp => hQ p (List.mem_cons_of_mem _ hp))
          (hstep x st r st1 r1 (hQ x (List.mem_cons_self _ _)) hP hb) h
    · simp only [Option.some.injEq, Prod.mk.injEq] at h
      rw [← h.1]; exact hP

/-- What `render_shader_compile` allocates it also releases: the call leaves the
registry and the counts of drawables and windows as it found them. -/
theorem render_shader_compile_registry (cenv : render_compile_env) (platform : Nat)
    (source : resource_source_t) (type : resource_hash_t) (st st' : render_compile_state)
    (r : Int)
    (hwf : ∀ h ∈ st.render.render_backends, h < st.render.next_handle)
    (h : render_shader_compile cenv platform source type st = some (st', r)) :
    st'.render.render_backends = st.render.render_backends ∧
    st'.drawables = st.drawables ∧ st'.windows = st.windows := by
  unfold render_shader_compile at h
  split at h
  · simp only [Option.some.injEq, Prod.mk.injEq] at h
    rw [← h.1]; exact ⟨rfl, rfl, rfl⟩
  · have := render_compile_loop_invariant (render_shader_compile_step cenv source type)
      (fun x => x.render.render_backends = st.render.render_backends ∧
        st.render.next_handle ≤ x.render.next_handle ∧
        x.drawables = st.drawables ∧ x.windows = st.windows) (fun _ => True)
      (by
        intro p x r0 x' r1 _ hP hb
        obtain ⟨a1, a2, a3, a4⟩ := hP
        obtain ⟨b1, b2, b3, b4⟩ := render_shader_compile_step_registry cenv source type p x r0
          x' r1 (by intro k hk; rw [a1] at hk; exact lt_of_lt_of_le (hwf k hk) a2) hb
        exact ⟨b1.trans a1, le_trans a2 b2, b3.trans a3, b4.trans a4⟩)
      _ st 0 st' r (fun _ _ => trivial) ⟨rfl, le_refl _, rfl, rfl⟩ h
    exact ⟨this.1, this.2.2.1, this.2.2.2⟩

/-- When both shader references are found for every sub-platform,
`render_program_compile` leaves the registry and the counts of drawables and
windows as it found them. -/
theorem render_program_compile_registry (cenv : render_compile_env) (platform : Nat)
    (source : resource_source_t) (type : resource_hash_t) (st st' : render_compile_state)
    (r : Int)
    (hrefs : ∀ p, (render_program_shaders source p).isSome = true)
    (hwf : ∀ h ∈ st.render.render_backends, h < st.render.next_handle)
    (h : render_program_compile cenv platform source type st = some (st', r)) :
    st'.render.render_backends = st.render.render_backends ∧
    st'.drawables = st.drawables ∧ st'.windows = st.windows := by
  unfold render_program_compile at h
  split at h
  · simp only [Option.some.injEq, Prod.mk.injEq] at h
    rw [← h.1]; exact ⟨rfl, rfl, rfl⟩
  · simp only at h
    split at h
    · simp at h
    · have := render_compile_loop_invariant (render_program_compile_step cenv source type)
        (fun x => x.render.render_backends = st.render.render_backends ∧
          st.render.next_handle ≤ x.render.next_handle ∧
          x.drawables = st.drawables ∧ x.windows = st.windows) (fun _ => True)
        (by
          intro p x r0 x' r1 _ hP hb
          obtain ⟨a1, a2, a3, a4⟩ := hP
          obtain ⟨b1, b2, b3, b4⟩ := render_program_compile_step_registry cenv source type p x
            r0 x' r1 (hrefs p)
            (by intro k hk; rw [a1] at hk; exact lt_of_lt_of_le (hwf k hk) a2) hb
          exact ⟨b1.trans a1, le_trans a2 b2, b3.trans a3, b4.trans a4⟩)
        _ st _ st' r (fun _ _ => trivial) ⟨rfl, le_refl _, rfl, rfl⟩ h
      exact ⟨this.1, this.2.2.1, this.2.2.2⟩

/-! ## Compile: collecting the sub-platforms -/

/-- The fold of the reducer from an array `requested :: acc`: the array grows at
its end by the platforms `t` of the records that qualify and are not in `acc`,
each once, in the order of their first records. -/
theorem resource_source_platform_reduce_fold (all : Nat) (ms : Nat → Nat → Bool)
    (requested : Nat) :
    ∀ (changes : List resource_change_t) (best : Option resource_change_t) (acc : List Nat),
      ∃ t,
        (changes.foldl (fun a c => resource_source_platform_reduce all ms c a.1 a.2)
          (best, requested :: acc)) = (if changes = [] then best else none,
            requested :: (acc ++ t)) ∧
        (∀ p ∈ t, p ∉ acc ∧ (requested = all ∨ ms p requested = true) ∧
          p ∈ changes.map resource_change_t.platform) ∧
        (∀ p ∈ changes.map resource_change_t.platform,
          (requested = all ∨ ms p requested = true) → p ∈ acc ∨ p ∈ t) ∧
        t.Nodup ∧
        t.Pairwise (fun p q =>
          (changes.map resource_change_t.platform).indexOf p <
            (changes.map resource_change_t.platform).indexOf q) := by
  intro changes
  induction changes with
  | nil => intro best acc; exact ⟨[], by simp, by simp, by simp, by simp, by simp⟩
  | cons c cs ih =>
    intro best acc
    by_cases hq : (requested = all ∨ ms c.platform requested = true) ∧ c.platform ∉ acc
    · obtain ⟨t, h1, h2, h3, h4, h5⟩ := ih none (acc ++ [c.platform])
      have hne : ∀ p ∈ t, p ≠ c.platform := fun p hp he => (h2 p hp).1 (by simp [he])
      refine ⟨c.platform :: t, ?_, ?_, ?_, ?_, ?_⟩
      · have hstep : resource_source_platform_reduce all ms c best (requested :: acc) =
            (none, requested :: (acc ++ [c.platform])) := by
          simp [resource_source_platform_reduce, hq.1, hq.2]
        rw [List.foldl_cons]
        simp only [hstep]
        have h1' := congrArg Prod.snd h1
        have h1'' := congrArg Prod.fst h1
        simp only at h1' h1''
        refine Prod.ext ?_ ?_
        · simp only [reduceCtorEq, if_false]
          rw [h1'']; split <;> rfl
        · simp only; rw [h1']; simp
      · intro p hp
        rcases List.mem_cons.mp hp with rfl | hp
        · exact ⟨hq.2, hq.1, by simp⟩
        · obtain ⟨a, b, c'⟩ := h2 p hp
          exact ⟨fun hm => a (by simp [hm]), b, by
            rw [List.map_cons]; exact List.mem_cons_of_mem _ c'⟩
      · intro p hp hc
        rw [List.map_cons] at hp
        rcases List.mem_cons.mp hp with rfl | hp
        · right; simp
        · rcases h3 p hp hc with h | h
          · rcases List.mem_append.mp h with h | h
            · left; exact h
            · right; simp at h; simp [h]
          · right; exact List.mem_cons_of_mem _ h
      · exact List.nodup_cons.mpr ⟨fun hm => hne _ hm rfl, h4⟩
      · refine List.pairwise_cons.mpr ⟨?_, ?_⟩
        · intro q hq'
          have := hne q hq'
          simp [List.indexOf_cons, this, Ne.symm this]
        · refine h5.imp_of_mem ?_
          intro p q hp hq' hlt
          have a := hne p hp
          have b := hne q hq'
          simp [List.indexOf_cons, Ne.symm a, Ne.symm b, hlt]
    · obtain ⟨t, h1, h2, h3, h4, h5⟩ := ih none acc
      have hne : ∀ p ∈ t, p ≠ c.platform := fun p hp he => by
        obtain ⟨a, b, -⟩ := h2 p hp
        exact hq ⟨he ▸ b, he ▸ a⟩
      refine ⟨t, ?_, ?_, ?_, h4, ?_⟩
      · have hstep : resource_source_platform_reduce all ms c best (requested :: acc) =
            (none, requested :: acc) := by
          simp only [resource_source_platform_reduce]
          by_cases hc : requested = all ∨ ms c.platform requested = true
          · have hm : c.platform ∈ acc := by
              by_contra hn; exact hq ⟨hc, hn⟩
            simp [hc, hm]
          · simp [hc]
        rw [List.foldl_cons]
        simp only [hstep]
        have h1' := congrArg Prod.snd h1
        have h1'' := congrArg Prod.fst h1
        simp only at h1' h1''
        refine Prod.ext ?_ ?_
        · simp only [reduceCtorEq, if_false]
          rw [h1'']; split <;> rfl
        · simp only; rw [h1']
      · intro p hp
        obtain ⟨a, b, c'⟩ := h2 p hp
        exact ⟨a, b, by rw [List.map_cons]; exact List.mem_cons_of_mem _ c'⟩
      · intro p hp hc
        rw [List.map_cons] at hp
        rcases List.mem_cons.mp hp with rfl | hp
        · left; by_contra hn; exact hq ⟨hc, hn⟩
        · exact h3 p hp hc
      · refine h5.imp_of_mem ?_
        intro p q hp hq' hlt
        have a := hne p hp
        have b := hne q hq'
        simp [List.indexOf_cons, Ne.symm a, Ne.symm b, hlt]

/-- C21: for every source and every requested platform, the array that the fold
of `resource_source_platform_reduce` over the change records leaves, started
from `[requested]`, has `requested` at index 0, and from index 1 on it holds
each platform once, holds exactly the platforms of the change records that are
equal to or more specific than `requested` (of all records when `requested` is
`RESOURCE_PLATFORM_ALL`), and holds them in the order of their first records;
and every call of the reducer returns a null pointer. -/
theorem resource_source_platform_reduce_collects (cenv : render_compile_env)
    (source : resource_source_t) (requested : Nat) :
    (∀ change best subplatforms,
      (resource_source_platform_reduce cenv.RESOURCE_PLATFORM_ALL
        cenv.resource_platform_is_equal_or_more_specific change best subplatforms).1 = none) ∧
    (resource_source_subplatforms cenv source [requested]).head? = some requested ∧
    ((resource_source_subplatforms cenv source [requested]).drop 1).Nodup ∧
    (∀ p, p ∈ (resource_source_subplatforms cenv source [requested]).drop 1 ↔
      ∃ c ∈ source.changes, c.platform = p ∧
        (requested = cenv.RESOURCE_PLATFORM_ALL ∨
          cenv.resource_platform_is_equal_or_more_specific p requested = true)) ∧
    ((resource_source_subplatforms cenv source [requested]).drop 1).Pairwise (fun p q =>
      (source.changes.map resource_change_t.platform).indexOf p <
        (source.changes.map resource_change_t.platform).indexOf q) := by
  obtain ⟨t, h1, h2, h3, h4, h5⟩ := resource_source_platform_reduce_fold
    cenv.RESOURCE_PLATFORM_ALL cenv.resource_platform_is_equal_or_more_specific requested
    source.changes none []
  have hs : resource_source_subplatforms cenv source [requested] = requested :: t := by
    unfold resource_source_subplatforms
    rw [h1]; simp
  rw [hs]
  refine ⟨?_, rfl, h4, ?_, h5⟩
  · intro change best subplatforms
    unfold resource_source_platform_reduce
    cases subplatforms <;> rfl
  · intro p
    simp only [List.drop_succ_cons, List.drop_zero]
    constructor
    · intro hp
      obtain ⟨-, b, c⟩ := h2 p hp
      obtain ⟨ch, hch, rfl⟩ := List.mem_map.mp c
      exact ⟨ch, hch, rfl, b⟩
    · rintro ⟨ch, hch, rfl, b⟩
      rcases h3 ch.platform (List.mem_map.mpr ⟨ch, hch, rfl⟩) b with h | h
      · simp at h
      · exact h

/-- The collection at a concrete input: requested 260, records for 65796, 260,
7, 65796 and 131332 in this order. -/
theorem resource_source_subplatforms_sample_run :
    resource_source_subplatforms render_compile_env_more_sample
      (resource_source_shader_sample [65796, 260, 7, 65796, 131332]) [260] =
      [260, 65796, 260, 131332] := by
  decide

/-! ## Allocation: termination -/

theorem fallback_path_cons (p : foundation_platform_t) (a : render_api_t)
    (h : a ≠ RENDERAPI_UNKNOWN) :
    fallback_path p 8 a = a :: fallback_path p 8 (render_api_fallback p a) := by
  revert p a; decide

theorem fallback_path_nodup (p : foundation_platform_t) (a : render_api_t) :
    (fallback_path p 8 a).Nodup := by
  revert p a; decide

/-- With `RENDERAPI_UNKNOWN` not disabled the inner loop comes to an end within
one test more than the rank of the API, at an API that is not disabled and lies
on the fallback chain. -/
theorem render_api_skip_disabled_terminates (env : render_env)
    (hunknown : env.render_api_disabled RENDERAPI_UNKNOWN = false) :
    ∀ (fuel : Nat) (api : render_api_t), render_api_rank env.platform api + 1 ≤ fuel →
      ∃ a, render_api_skip_disabled env fuel api = some a ∧
        env.render_api_disabled a = false ∧
        render_api_rank env.platform a ≤ render_api_rank env.platform api ∧
        (fallback_path env.platform 8 a).Sublist (fallback_path env.platform 8 api) := by
  intro fuel
  induction fuel with
  | zero => intro api h; omega
  | succ n ih =>
    intro api h
    cases hd : env.render_api_disabled api with
    | false =>
      exact ⟨api, by simp [render_api_skip_disabled, hd], hd, le_refl _, List.Sublist.refl _⟩
    | true =>
      have hne : api ≠ RENDERAPI_UNKNOWN := fun he => by rw [he, hunknown] at hd; cases hd
      have hr := render_api_rank_fallback env.platform api hne
      obtain ⟨a, h1, h2, h3, h4⟩ := ih (render_api_fallback env.platform api) (by omega)
      refine ⟨a, by simp [render_api_skip_disabled, hd, h1], h2, by omega, ?_⟩
      rw [fallback_path_cons env.platform api hne]
      exact List.Sublist.cons _ h4

theorem render_api_skip_disabled_mono (env : render_env) :
    ∀ (n m : Nat) (api a : render_api_t), n ≤ m →
      render_api_skip_disabled env n api = some a →
      render_api_skip_disabled env m api = some a := by
  intro n
  induction n with
  | zero => intro m api a _ h; simp [render_api_skip_disabled] at h
  | succ n ih =>
    intro m api a hle h
    obtain ⟨k, rfl⟩ : ∃ k, m = k + 1 := ⟨m - 1, by omega⟩
    simp only [render_api_skip_disabled] at h ⊢
    split at h
    · rename_i hd
      simp only [hd, if_true]
      exact ih k _ a (by omega) h
    · rename_i hd
      simp only [hd]
      exact h

/-- More fuel does not change what the loop of `render_backend_allocate` gives. -/
theorem render_backend_allocate_loop_mono (env : render_env) (allow : Bool) :
    ∀ (n m : Nat) (s : render_state) (api : render_api_t) (x : render_state × Option Nat),
      n ≤ m → render_backend_allocate_loop env allow n s api = some x →
      render_backend_allocate_loop env allow m s api = some x := by
  intro n
  induction n with
  | zero => intro m s api x _ h; simp [render_backend_allocate_loop] at h
  | succ n ih =>
    intro m s api x hle h
    obtain ⟨k, rfl⟩ : ∃ k, m = k + 1 := ⟨m - 1, by omega⟩
    cases hskip : render_api_skip_disabled env (n + 1) api with
    | none => simp [render_backend_allocate_loop, hskip] at h
    | some a =>
      have hskip' := render_api_skip_disabled_mono env (n + 1) (k + 1) api a hle hskip
      rw [render_backend_allocate_loop_succ env allow n s api a hskip] at h
      rw [render_backend_allocate_loop_succ env allow k s api a hskip']
      split at h
      · rename_i ha; simp only [ha, if_true]; exact h
      · rename_i ha
        simp only [ha, if_false]
        rcases hsw : render_backend_switch env s a with ⟨s1, r⟩
        rw [hsw] at h
        cases r with
        | some b => exact h
        | none =>
          simp only at h ⊢
          split at h
          · rename_i hal; simp only [hal, if_true]; exact h
          · rename_i hal
            simp only [hal]
            exact ih k s1 _ x (by omega) h

theorem render_backend_setup_allocator_calls (env : render_env) (s : render_state) (b : Nat) :
    allocator_calls (render_backend_setup env s b).trace = allocator_calls s.trace := by
  rw [(render_backend_setup_fields env s b).2.2.2.2, allocator_calls_append,
    allocator_calls_append]
  cases s.thread_backend with
  | none => simp [allocator_calls]
  | some prev => by_cases hp : prev = b <;> simp [allocator_calls, hp]

/-- With `RENDERAPI_UNKNOWN` not disabled the loop of `render_backend_allocate`
comes to an end within one iteration more than the rank of the API, and the
allocators it has called are APIs of the fallback chain, in the order of the
chain. -/
theorem render_backend_allocate_loop_terminates (env : render_env) (allow : Bool)
    (hunknown : env.render_api_disabled RENDERAPI_UNKNOWN = false) :
    ∀ (fuel : Nat) (s : render_state) (api : render_api_t),
      render_api_rank env.platform api + 1 ≤ fuel →
      ∃ s' r calls, render_backend_allocate_loop env allow fuel s api = some (s', r) ∧
        allocator_calls s'.trace = allocator_calls s.trace ++ calls ∧
        calls.Sublist (fallback_path env.platform 8 api) := by
  intro fuel
  induction fuel with
  | zero => intro s api h; omega
  | succ n ih =>
    intro s api h
    obtain ⟨a, hskip, -, hrank, hsub⟩ :=
      render_api_skip_disabled_terminates env hunknown (n + 1) api h
    rw [render_backend_allocate_loop_succ env allow n s api a hskip]
    by_cases ha : a = RENDERAPI_UNKNOWN
    · exact ⟨s, none, [], by simp [ha], by simp, List.nil_sublist _⟩
    · simp only [ha, if_false]
      have hf := (render_backend_switch_fields env s a).2.2.2.2
      have hpath := fallback_path_cons env.platform a ha
      have hone : (if render_api_live a = true then [a] else []).Sublist
          (fallback_path env.platform 8 a) := by
        rw [hpath]
        split
        · exact List.Sublist.cons₂ _ (List.nil_sublist _)
        · exact List.nil_sublist _
      rcases hsw : render_backend_switch env s a with ⟨s1, r⟩
      rw [hsw] at hf
      simp only at hf
      cases r with
      | some b =>
        exact ⟨_, _, _, rfl, by rw [render_backend_setup_allocator_calls, hf],
          hone.trans hsub⟩
      | none =>
        simp only
        cases allow with
        | false => exact ⟨_, _, _, rfl, hf, hone.trans hsub⟩
        | true =>
          have hr := render_api_rank_fallback env.platform a ha
          obtain ⟨s', r, calls, h1, h2, h3⟩ :=
            ih s1 (render_api_fallback env.platform a) (by omega)
          refine ⟨s', r, (if render_api_live a = true then [a] else []) ++ calls, ?_, ?_, ?_⟩
          · simpa using h1
          · rw [h2, hf, List.append_assoc]
          · refine List.Sublist.trans ?_ hsub
            rw [hpath]
            split
            · exact List.Sublist.cons₂ _ h3
            · exact List.Sublist.cons _ h3

/-- With `RENDERAPI_UNKNOWN` disabled a request for it never leaves the inner
loop: no amount of fuel gives a result. -/
theorem render_backend_allocate_unknown_disabled (env : render_env) (allow : Bool)
    (hunknown : env.render_api_disabled RENDERAPI_UNKNOWN = true) :
    ∀ (fuel : Nat) (s : render_state),
      render_backend_allocate env fuel s RENDERAPI_UNKNOWN allow = none := by
  have hskip : ∀ fuel, render_api_skip_disabled env fuel RENDERAPI_UNKNOWN = none := by
    intro fuel
    induction fuel with
    | zero => rfl
    | succ n ih => simp [render_api_skip_disabled, hunknown, render_api_fallback, ih]
  intro fuel s
  cases fuel with
  | zero => rfl
  | succ n => simp [render_backend_allocate, render_backend_allocate_loop, hskip]

/-- When every API of the fallback chain is disabled or fails to give a
constructed backend, the loop of `render_backend_allocate` ends without a
backend. -/
theorem render_backend_allocate_loop_exhausted (env : render_env) (allow : Bool)
    (hunknown : env.render_api_disabled RENDERAPI_UNKNOWN = false) :
    ∀ (fuel : Nat) (s : render_state) (api : render_api_t),
      render_api_rank env.platform api + 1 ≤ fuel →
      (∀ a ∈ fallback_path env.platform 8 api,
        env.render_api_disabled a = true ∨ env.allocated a = none ∨
          (a ≠ RENDERAPI_NULL ∧
            ∃ inst, env.allocated a = some inst ∧ inst.vtable.construct = false)) →
      ∃ s', render_backend_allocate_loop env allow fuel s api = some (s', none) := by
  intro fuel
  induction fuel with
  | zero => intro s api h; omega
  | succ n ih =>
    intro s api h hfail
    obtain ⟨a, hskip, hen, hrank, hsub⟩ :=
      render_api_skip_disabled_terminates env hunknown (n + 1) api h
    rw [render_backend_allocate_loop_succ env allow n s api a hskip]
    by_cases ha : a = RENDERAPI_UNKNOWN
    · exact ⟨s, by simp [ha]⟩
    · simp only [ha, if_false]
      have hpath := fallback_path_cons env.platform a ha
      have hmem : a ∈ fallback_path env.platform 8 api :=
        hsub.subset (by rw [hpath]; exact List.mem_cons_self _ _)
      rcases hsw : render_backend_switch env s a with ⟨s1, r⟩
      cases r with
      | some b =>
        exfalso
        obtain ⟨-, -, inst, hal, hc, -⟩ := render_backend_switch_some env s s1 a b hsw
        rcases hfail a hmem with hd | hn | ⟨hnn, inst', hal', hc'⟩
        · rw [hen] at hd; cases hd
        · rw [hal] at hn; cases hn
        · rw [hal] at hal'
          cases hal'
          rcases hc with hc | hc
          · exact hnn hc
          · rw [hc] at hc'; cases hc'
      | none =>
        simp only
        cases allow with
        | false => exact ⟨s1, rfl⟩
        | true =>
          have hr := render_api_rank_fallback env.platform a ha
          obtain ⟨s', h1⟩ := ih s1 (render_api_fallback env.platform a) (by omega)
            (fun x hx => hfail x (hsub.subset (by
              rw [hpath]; exact List.mem_cons_of_mem _ hx)))
          exact ⟨s', by simpa using h1⟩

/-- C22: in every configuration in which `RENDERAPI_UNKNOWN` is not disabled,
`render_backend_allocate` returns for every requested API and both values of
`allow_fallback`: eight loop iterations are enough and more change nothing.  The
allocators called by the call are APIs of the fallback chain of the requested
API, in the order of the chain, none twice.  When every API of the chain is
disabled or fails to give a constructed backend the call returns no backend,
and a call that returns no backend leaves the registry and the current backend
of the thread as they were. -/
theorem render_backend_allocate_terminates (env : render_env) (fuel : Nat) (s : render_state)
    (api : render_api_t) (allow_fallback : Bool)
    (hunknown : env.render_api_disabled RENDERAPI_UNKNOWN = false)
    (hfuel : 8 ≤ fuel)
    (hwf : ∀ h ∈ s.render_backends, h < s.next_handle) :
    ∃ s' r calls,
      render_backend_allocate env fuel s api allow_fallback = some (s', r) ∧
      render_backend_allocate env 8 s api allow_fallback = some (s', r) ∧
      allocator_calls s'.trace = allocator_calls s.trace ++ calls ∧
      calls.Sublist (fallback_path env.platform 8 api) ∧ calls.Nodup ∧
      ((∀ a ∈ fallback_path env.platform 8 api,
          env.render_api_disabled a = true ∨ env.allocated a = none ∨
            (a ≠ RENDERAPI_NULL ∧
              ∃ inst, env.allocated a = some inst ∧ inst.vtable.construct = false)) →
        r = none) ∧
      (r = none →
        s'.render_backends = s.render_backends ∧ s'.thread_backend = s.thread_backend) := by
  have hrank := render_api_rank_le env.platform api
  obtain ⟨s', r, calls, h1, h2, h3⟩ :=
    render_backend_allocate_loop_terminates env allow_fallback hunknown 8 s api (by omega)
  refine ⟨s', r, calls, ?_, h1, h2, h3, h3.nodup (fallback_path_nodup _ _), ?_, ?_⟩
  · exact render_backend_allocate_loop_mono env allow_fallback 8 fuel s api _ hfuel h1
  · intro hfail
    obtain ⟨s'', h4⟩ := render_backend_allocate_loop_exhausted env allow_fallback hunknown 8 s
      api (by omega) hfail
    rw [h1] at h4
    simp only [Option.some.injEq, Prod.mk.injEq] at h4
    exact h4.2
  · intro hr
    subst hr
    obtain ⟨-, ht, -, hreg⟩ :=
      render_backend_allocate_loop_none env allow_fallback 8 s api s' h1
    exact ⟨hreg hwf, ht⟩

/-- C22 at a concrete input: a desktop build with OpenGL 2 and the null API
disabled, a request for `RENDERAPI_DEFAULT` with fallback in the initial state. -/
theorem render_backend_allocate_terminates_witness :
    ∃ s' r calls,
      render_backend_allocate
        (render_env_sample (fun a => decide (a = RENDERAPI_OPENGL2 ∨ a = RENDERAPI_NULL)) true)
        8 render_state_initial RENDERAPI_DEFAULT true = some (s', r) ∧
      allocator_calls s'.trace = calls ∧ calls.Nodup ∧
      (r = none → s'.render_backends = [] ∧ s'.thread_backend = none) :=
  (render_backend_allocate_terminates
    (render_env_sample (fun a => decide (a = RENDERAPI_OPENGL2 ∨ a = RENDERAPI_NULL)) true)
    8 render_state_initial RENDERAPI_DEFAULT true rfl (le_refl 8)
    (fun _ h => absurd h (List.not_mem_nil _))).imp
    (fun _ h => h.imp (fun _ h => h.imp
      (fun _ h => ⟨h.1, h.2.2.1, h.2.2.2.2.1, h.2.2.2.2.2.2⟩)))

/-- The call of the example above: OpenGL 4 is the only allocator called, its
construct hook fails, and the chain ends at `RENDERAPI_UNKNOWN` without a
backend. -/
theorem render_backend_allocate_exhausted_sample_run :
    (render_backend_allocate
      (render_env_sample (fun a => decide (a = RENDERAPI_OPENGL2 ∨ a = RENDERAPI_NULL)) true)
      8 render_state_initial RENDERAPI_DEFAULT true).map
      (fun x => (x.2, x.1.render_backends, x.1.thread_backend, allocator_calls x.1.trace)) =
      some (none, [], none, [RENDERAPI_OPENGL4]) := by
  decide

end Render
